import Mathlib

/-!
Shallow embedding of the particle simulation engine from `src/particles.rs`
(struct `ParticlesSystem` and its methods), used to check the natural-language
specification against the code.

Modelling conventions:
* `f32` values are modelled as exact rationals (`ℚ`); IEEE rounding is not
  modelled.  All properties checked here are structural (orderings, guards,
  counters, clamping logic), not rounding-sensitive.
* `f32::sin` and `std::f32::consts::PI` are transcendental and have no exact
  rational counterpart; the embedding is parameterised by a `RealOracle`
  supplying a sine function `sinq` and a constant `piq`.  Theorems quantify
  over the oracle (adding a boundedness hypothesis where the real sine's
  range matters); concrete evaluations instantiate it.
* `u32` arithmetic is `ℕ` with explicit `% 2^32` where the Rust shifts drop
  high bits; `usize` counters are `ℕ` (the truncating `Nat` subtraction and
  Rust's wrapping subtraction agree in all states satisfying the pool-counter
  invariant proved below).
* The `format!`ed diagnostic string is abstracted to an inductive message
  carrying the event kind and the formatted value.
-/

/-- Oracle supplying rational stand-ins for `f32::sin` and `π`. -/
structure RealOracle where
  sinq : ℚ → ℚ
  piq : ℚ

/-- The musical scales of `enum Scale` in `src/particles.rs`. -/
inductive Scale where
  | Minor | Major | Dorian | Phrygian | Lydian | Mixolydian | Locrian
  | HarmonicMinor | MelodicMinor
deriving DecidableEq

/-- `Scale::intervals` from `src/particles.rs`. -/
def Scale.intervals : Scale → List ℕ
  | .Minor => [0, 2, 3, 5, 7, 8, 10]
  | .Major => [0, 2, 4, 5, 7, 9, 11]
  | .Dorian => [0, 2, 3, 5, 7, 9, 10]
  | .Phrygian => [0, 1, 3, 5, 7, 8, 10]
  | .Lydian => [0, 2, 4, 6, 7, 9, 11]
  | .Mixolydian => [0, 2, 4, 5, 7, 9, 10]
  | .Locrian => [0, 1, 3, 5, 6, 8, 10]
  | .HarmonicMinor => [0, 2, 3, 5, 7, 8, 11]
  | .MelodicMinor => [0, 2, 3, 5, 7, 9, 11]

/-- `struct Particle` from `src/particles.rs`. -/
structure Particle where
  x : ℚ
  y : ℚ
  base_speed : ℚ
  sway : ℚ
  sway_speed : ℚ
  wind_sensitivity : ℚ
  radius : ℚ
  pitch : ℕ
  last_collision_time : ℚ
  active : Bool
deriving DecidableEq

/-- `impl Default for Particle`. -/
def Particle.default : Particle :=
  { x := 0, y := 0, base_speed := 0, sway := 0, sway_speed := 0,
    wind_sensitivity := 0, radius := 0, pitch := 0,
    last_collision_time := 0, active := false }

/-- `struct Dust` from `src/particles.rs`. -/
structure Dust where
  x : ℚ
  y : ℚ
  dx : ℚ
  dy : ℚ
  brightness : ℕ
  life : ℚ
  active : Bool
deriving DecidableEq

/-- `impl Default for Dust`. -/
def Dust.default : Dust :=
  { x := 0, y := 0, dx := 0, dy := 0, brightness := 0, life := 0, active := false }

/-- Abstraction of the `format!`ed `verbose_message` string: which event was
last reported and the value that was formatted into it. -/
inductive Msg where
  | empty : Msg
  | particleCV : ℚ → Msg
  | collisionCV : ℚ → Msg
deriving DecidableEq

def MAX_PARTICLES : ℕ := 12
def MAX_DUST : ℕ := 50
def SCREEN_WIDTH : ℚ := 320
def GROUND_LEVEL : ℚ := 150
def COLLISION_COOLDOWN_TIME : ℚ := 3
def TRIGGER_DURATION : ℚ := 0.05
def VERBOSE_DURATION : ℚ := 1.0

/-- `struct ParticlesSystem` from `src/particles.rs`.  The two pools are
lists whose lengths are `MAX_PARTICLES` / `MAX_DUST` in every reachable
state (part of the invariant proved below). -/
structure ParticlesSystem where
  particle_pool : List Particle
  dust_pool : List Dust
  active_particles : ℕ
  active_dust : ℕ
  time : ℚ
  trigger_timer : ℚ
  collision_trigger_timer : ℚ
  verbose_timer : ℚ
  last_ground_pitch_voltage : ℚ
  collision_cv : ℚ
  verbose_message : Msg
  root_note : ℕ
  octave : ℕ
  scale : Scale
  global_fall_speed : ℚ
  gravity : ℚ
  max_particles : ℕ
  wind : ℚ
  verbose : Bool
  rng_state : ℕ
deriving DecidableEq

/-- `ParticlesSystem::new` from `src/particles.rs`. -/
def particlesInit : ParticlesSystem :=
  { particle_pool := List.replicate MAX_PARTICLES Particle.default
    dust_pool := List.replicate MAX_DUST Dust.default
    active_particles := 0
    active_dust := 0
    time := 0
    trigger_timer := 0
    collision_trigger_timer := 0
    verbose_timer := 0
    last_ground_pitch_voltage := 0
    collision_cv := 0
    verbose_message := Msg.empty
    root_note := 0
    octave := 2
    scale := Scale.Minor
    global_fall_speed := 5.0
    gravity := 1.0
    max_particles := 6
    wind := 0.1
    verbose := false
    rng_state := 0x12345678 }

/-- One xorshift32 step, `ParticlesSystem::random`'s state update:
`s ^= s << 13; s ^= s >> 17; s ^= s << 5` on `u32`. -/
def xorshift32 (s : ℕ) : ℕ :=
  let s1 := (s ^^^ (s <<< 13)) % 2 ^ 32
  let s2 := s1 ^^^ (s1 >>> 17)
  (s2 ^^^ (s2 <<< 5)) % 2 ^ 32

/-- `ParticlesSystem::random`: advance the state and return
`(state as f32) / (u32::MAX as f32)` (idealised as an exact rational),
together with the new state. -/
def random (s : ℕ) : ℚ × ℕ :=
  let s' := xorshift32 s
  ((s' : ℚ) / 4294967295, s')

/-- `ParticlesSystem::random_range`. -/
def random_range (mn mx : ℚ) (s : ℕ) : ℚ × ℕ :=
  (mn + (random s).1 * (mx - mn), (random s).2)

/-- Rust's `as i32` on a finite `f32`: truncation toward zero, saturating at
the `i32` bounds. -/
def ratToI32 (q : ℚ) : ℤ :=
  let t : ℤ := if 0 ≤ q then ⌊q⌋ else -⌊-q⌋
  max (-(2 ^ 31)) (min (2 ^ 31 - 1) t)

/-- `ParticlesSystem::random_int`:
`(self.random_range(min as f32, max as f32 + 1.0)) as i32`. -/
def random_int (mn mx : ℤ) (s : ℕ) : ℤ × ℕ :=
  (ratToI32 (random_range (mn : ℚ) ((mx : ℚ) + 1) s).1,
   (random_range (mn : ℚ) ((mx : ℚ) + 1) s).2)

/-- `ParticlesSystem::note_to_voltage`. -/
def note_to_voltage (note : ℕ) : ℚ :=
  (note : ℚ) / 12

/-- `ParticlesSystem::scale_to_midi`.  `scale_degree` is at least 1 whenever
this is called (spawns draw it from `[1, 7]`), so the `u8` subtraction does
not underflow and `Nat` subtraction is faithful. -/
def scale_to_midi (scale_degree : ℕ) (scale : Scale) (root : ℕ) (octave : ℕ) : ℕ :=
  let intervals := scale.intervals
  let degree_index := (scale_degree - 1) % intervals.length
  let note_in_scale := intervals.getD degree_index 0
  octave * 12 + root + note_in_scale

/-- The linear scan `for i in 0..N { if !pool[i].active { ... break } }`
common to `activate_particle` and `activate_dust`: index of the first
element failing `q`, if any. -/
def firstIdxNot (q : α → Bool) : List α → Option ℕ
  | [] => none
  | a :: rest => if !q a then some 0 else (firstIdxNot q rest).map (· + 1)

/-- `ParticlesSystem::activate_particle` from `src/particles.rs`. -/
def activate_particle (o : RealOracle) (s : ParticlesSystem) : ParticlesSystem :=
  match firstIdxNot (fun p => p.active) s.particle_pool with
  | none => s
  | some idx =>
    let d1 := random_int 3 10 s.rng_state
    let size : ℚ := (d1.1 : ℚ)
    let speed_factor := (1.5 * size + 3.0) / 10 * s.gravity
    let d2 := random_range 0 SCREEN_WIDTH d1.2
    let d3 := random d2.2
    let sway := d3.1 * 2 * o.piq
    let d4 := random_range 0.1 0.3 d3.2
    let d5 := random_int 1 (s.scale.intervals.length : ℤ) d4.2
    let p : Particle :=
      { x := d2.1, y := 0, base_speed := speed_factor, sway := sway,
        sway_speed := d4.1, wind_sensitivity := 0.7 + 0.3 / size,
        radius := size, pitch := d5.1.toNat,
        last_collision_time := s.time - COLLISION_COOLDOWN_TIME, active := true }
    { s with particle_pool := s.particle_pool.set idx p,
             active_particles := s.active_particles + 1,
             rng_state := d5.2 }

/-- `ParticlesSystem::activate_dust` from `src/particles.rs`. -/
def activate_dust (s : ParticlesSystem) : ParticlesSystem :=
  match firstIdxNot (fun d => d.active) s.dust_pool with
  | none => s
  | some idx =>
    let e1 := random_range 0 SCREEN_WIDTH s.rng_state
    let e2 := random_range 0 GROUND_LEVEL e1.2
    let e3 := random e2.2
    let dx := (e3.1 - 0.5) * s.wind * 10
    let e4 := random e3.2
    let dy := (e4.1 - 0.5) * 5
    let e5 := random_int 1 5 e4.2
    let e6 := random_range 3.0 10.0 e5.2
    let d : Dust :=
      { x := e1.1, y := e2.1, dx := dx, dy := dy, brightness := e5.1.toNat,
        life := e6.1, active := true }
    { s with dust_pool := s.dust_pool.set idx d,
             active_dust := s.active_dust + 1,
             rng_state := e6.2 }

/-- The motion step applied to one particle in `update_particles`:
position/sway integration followed by the border clamp. -/
def motionParticle (o : RealOracle) (gfs wind dt : ℚ) (p : Particle) : Particle :=
  if p.active then
    let y := p.y + p.base_speed * gfs * dt
    let sway := p.sway + p.sway_speed * dt
    let x := p.x + o.sinq sway * wind * p.wind_sensitivity * 10
    if x < 0 then
      { p with x := 0, y := y, sway := sway + o.piq / 4 }
    else if x > SCREEN_WIDTH then
      { p with x := SCREEN_WIDTH, y := y, sway := sway - o.piq / 4 }
    else
      { p with x := x, y := y, sway := sway }
  else p

/-- The ground-contact test of `update_particles`, evaluated on a
post-motion particle: active and at or below ground level. -/
def landedB (p : Particle) : Bool :=
  p.active && decide (GROUND_LEVEL ≤ p.y)

/-- The ground-impact side effects of `update_particles`: walking the
post-motion pool in index order, each landed particle overwrites the pitch
voltage, the message and the two timers (so the last landed index wins,
as in the Rust loop). -/
def groundOutputs (s : ParticlesSystem) (pool1 : List Particle) : ParticlesSystem :=
  pool1.foldl
    (fun acc p =>
      if landedB p then
        let midi := scale_to_midi p.pitch acc.scale acc.root_note acc.octave
        { acc with last_ground_pitch_voltage := note_to_voltage midi,
                   verbose_message := Msg.particleCV (note_to_voltage midi),
                   verbose_timer := VERBOSE_DURATION,
                   trigger_timer := TRIGGER_DURATION }
      else acc)
    s

/-- The deferred-deactivation pass of `update_particles`: every particle
collected in `particles_to_deactivate` (i.e. satisfying `landedB` after
motion) has its `active` flag cleared. -/
def deactivateLanded (pool1 : List Particle) : List Particle :=
  pool1.map fun p => if landedB p then { p with active := false } else p

/-- `ParticlesSystem::update_particles` from `src/particles.rs`: motion pass,
ground-impact outputs, deferred deactivation (with one counter decrement per
landed particle), then the probabilistic spawn (the RNG is consulted only
when the pool is below the `max_particles` target, mirroring `&&`
short-circuiting). -/
def update_particles (o : RealOracle) (dt : ℚ) (s : ParticlesSystem) : ParticlesSystem :=
  let pool1 := s.particle_pool.map (motionParticle o s.global_fall_speed s.wind dt)
  let s1 := groundOutputs s pool1
  let n := s.active_particles - pool1.countP landedB
  let s2 := { s1 with particle_pool := deactivateLanded pool1, active_particles := n }
  if s2.active_particles < s2.max_particles then
    let s3 := { s2 with rng_state := (random s2.rng_state).2 }
    if (random s2.rng_state).1 > 0.8 then activate_particle o s3 else s3
  else s2

/-- The dust decay loop of `update_particles`' sibling `update_dust`:
integrate drift, decrement `life`, deactivate (decrementing the running
counter) when `life <= 0`. -/
def dustDecay (dt : ℚ) : List Dust → ℕ → List Dust × ℕ
  | [], cnt => ([], cnt)
  | d :: rest, cnt =>
    if d.active then
      let d' : Dust := { d with x := d.x + d.dx * dt, y := d.y + d.dy * dt, life := d.life - dt }
      if d'.life ≤ (0 : ℚ) then
        let rec1 := dustDecay dt rest (cnt - 1)
        ({ d' with active := false } :: rec1.1, rec1.2)
      else
        let rec2 := dustDecay dt rest cnt
        (d' :: rec2.1, rec2.2)
    else
      let rec3 := dustDecay dt rest cnt
      (d :: rec3.1, rec3.2)

/-- The dust top-up loop
`while active_dust < max_particles * 8 && active_dust < MAX_DUST { activate_dust() }`,
written with explicit fuel.  The Rust loop is unbounded; under the
pool-counter invariant each iteration increments `active_dust`, so
`MAX_DUST` iterations always suffice (proved with claim C8, together with
stability of the result in the fuel beyond `MAX_DUST`). -/
def dustLoop : ℕ → ParticlesSystem → ParticlesSystem
  | 0, s => s
  | n + 1, s =>
    if s.active_dust < s.max_particles * 8 ∧ s.active_dust < MAX_DUST then
      dustLoop n (activate_dust s)
    else s

/-- `ParticlesSystem::update_dust` from `src/particles.rs`. -/
def update_dust (dt : ℚ) (s : ParticlesSystem) : ParticlesSystem :=
  let dc := dustDecay dt s.dust_pool s.active_dust
  dustLoop MAX_DUST { s with dust_pool := dc.1, active_dust := dc.2 }

/-- Processing of one index pair inside `ParticlesSystem::check_collisions`:
skip unless both slots are active, test axis-aligned box overlap, test both
cooldowns, and on fire draw the collision value, refresh message and timers
and stamp both particles' `last_collision_time`. -/
def collidePair (s : ParticlesSystem) (ij : ℕ × ℕ) : ParticlesSystem :=
  match s.particle_pool.get? ij.1, s.particle_pool.get? ij.2 with
  | some p1, some p2 =>
    if p1.active ∧ p2.active then
      if p1.x < p2.x + p2.radius ∧ p1.x + p1.radius > p2.x ∧
         p1.y < p2.y + p2.radius ∧ p1.y + p1.radius > p2.y then
        if COLLISION_COOLDOWN_TIME ≤ s.time - p1.last_collision_time ∧
           COLLISION_COOLDOWN_TIME ≤ s.time - p2.last_collision_time then
          let cv := (random_range (-5.0) 5.0 s.rng_state).1
          { s with collision_cv := cv,
                   verbose_message := Msg.collisionCV cv,
                   verbose_timer := VERBOSE_DURATION,
                   collision_trigger_timer := TRIGGER_DURATION,
                   rng_state := (random_range (-5.0) 5.0 s.rng_state).2,
                   particle_pool :=
                     (s.particle_pool.set ij.1 { p1 with last_collision_time := s.time }).set
                       ij.2 { p2 with last_collision_time := s.time } }
        else s
      else s
    else s
  | _, _ => s

/-- The index pairs `(i, j)` with `i < j < MAX_PARTICLES` in the scan order
of the two nested loops of `check_collisions`. -/
def pairIndices : List (ℕ × ℕ) :=
  (List.range MAX_PARTICLES).flatMap fun i =>
    ((List.range MAX_PARTICLES).drop (i + 1)).map fun j => (i, j)

/-- `ParticlesSystem::check_collisions` from `src/particles.rs`. -/
def check_collisions (s : ParticlesSystem) : ParticlesSystem :=
  pairIndices.foldl collidePair s

/-- `ParticlesSystem::update` from `src/particles.rs`: advance the clock,
decrement each timer only when it is currently positive, then the three
passes in order. -/
def update (o : RealOracle) (dt : ℚ) (s : ParticlesSystem) : ParticlesSystem :=
  let s1 := { s with time := s.time + dt }
  let s2 := { s1 with
    verbose_timer := if s1.verbose_timer > 0 then s1.verbose_timer - dt else s1.verbose_timer }
  let s3 := { s2 with
    trigger_timer := if s2.trigger_timer > 0 then s2.trigger_timer - dt else s2.trigger_timer }
  let s4 := { s3 with
    collision_trigger_timer :=
      if s3.collision_trigger_timer > 0 then s3.collision_trigger_timer - dt
      else s3.collision_trigger_timer }
  check_collisions (update_dust dt (update_particles o dt s4))

/-- States reachable from `ParticlesSystem::new` by `update` calls with
non-negative frame deltas (the front ends always pass elapsed wall-clock
time, which is non-negative). -/
inductive Reachable (o : RealOracle) : ParticlesSystem → Prop where
  | init : Reachable o particlesInit
  | step : ∀ s dt, Reachable o s → 0 ≤ dt → Reachable o (update o dt s)

/-- Folding a list of frame deltas through `update`. -/
def applyUpdates (o : RealOracle) (dts : List ℚ) (s : ParticlesSystem) : ParticlesSystem :=
  dts.foldl (fun st d => update o d st) s

/-! ### Evaluation setup

The `Rat` arithmetic operations are marked irreducible in the library to keep
elaboration from unfolding them accidentally; the concrete evaluations below
are kernel-checked computations over `ℚ`, so they are restored to the default
reducibility here. -/

set_option allowUnsafeReducibility true

attribute [semireducible] Rat.mul Rat.add Rat.sub Rat.inv Rat.ofScientific

set_option maxRecDepth 4000000
set_option maxHeartbeats 4000000

/-- The oracle used for concrete runs: a zero sine and a zero `π` stand-in
(the trajectories evaluated with it never inspect either beyond multiplying
by them). -/
def oracle0 : RealOracle := ⟨fun _ => 0, 0⟩

/-- `xorshift32` keeps the state below `2^32`. -/
theorem xorshift32_lt (s : ℕ) : xorshift32 s < 2 ^ 32 := by
  unfold xorshift32
  exact Nat.mod_lt _ (by norm_num)

/-- The value returned by `random` is `(advanced state) / (2^32 - 1)`. -/
theorem random_fst (s : ℕ) : (random s).1 = ((xorshift32 s : ℚ)) / 4294967295 := rfl

/-! ### Claim C5: `random()` -/

/-- Claim C5 as stated: besides advancing the state by xorshift32, the
returned value is claimed to lie in the half-open interval `[0, 1)` for every
nonzero state, in particular strictly below 1.  This fails: xorshift32
permutes the nonzero 32-bit states, so some state advances to `u32::MAX`
itself, and there the returned value `u32::MAX / u32::MAX` equals 1.  The
state `1584200935` is such a predecessor.  (The failure survives `f32`
rounding: both `u32::MAX as f32` casts round to `2^32`, so the quotient is
exactly `1.0` there too.) -/
theorem c5_counterexample :
    (1584200935 : ℕ) ≠ 0 ∧ (1584200935 : ℕ) < 2 ^ 32 ∧
    xorshift32 1584200935 = 2 ^ 32 - 1 ∧
    (random 1584200935).1 = 1 ∧ ¬ (random 1584200935).1 < 1 := by
  refine ⟨by decide, by decide, by decide, by decide, by decide⟩

/-- Claim C5, amended: every call advances the 32-bit state by xorshift32
with shift constants 13 (left), 17 (right), 5 (left), and the returned value
`state / u32::MAX` lies in the closed interval `[0, 1]`; it is strictly less
than 1 unless the advanced state is exactly `u32::MAX`, where it equals 1. -/
theorem c5_amended (s : ℕ) (hs : s < 2 ^ 32) :
    (random s).2 = xorshift32 s ∧
    0 ≤ (random s).1 ∧ (random s).1 ≤ 1 ∧
    ((random s).2 ≠ 2 ^ 32 - 1 → (random s).1 < 1) := by
  have hlt : xorshift32 s < 2 ^ 32 := xorshift32_lt s
  have hle : (xorshift32 s : ℚ) ≤ 4294967295 := by
    have : xorshift32 s ≤ 4294967295 := by omega
    exact_mod_cast this
  refine ⟨rfl, ?_, ?_, ?_⟩
  · rw [random_fst]
    positivity
  · rw [random_fst]
    rw [div_le_one (by norm_num)]
    exact hle
  · intro hne
    have hne' : xorshift32 s ≠ 4294967295 := by
      simpa using hne
    have hlt' : (xorshift32 s : ℚ) < 4294967295 := by
      have : xorshift32 s < 4294967295 := by omega
      exact_mod_cast this
    rw [random_fst, div_lt_one (by norm_num)]
    exact hlt'

/-- Witness for `c5_amended` at the state 5. -/
theorem c5_witness :
    (random 5).2 = xorshift32 5 ∧
    0 ≤ (random 5).1 ∧ (random 5).1 ≤ 1 ∧
    ((random 5).2 ≠ 2 ^ 32 - 1 → (random 5).1 < 1) :=
  c5_amended 5 (by norm_num)

/-! ### Claim C6: `random_int` -/

/-- Claim C6 as stated fails on two counts.  Rust's `as i32` truncates toward
zero rather than flooring, and the claim quantifies over every `min <= max`:
at `min = max = -1` and the seed state `0x12345678`, `random_range(-1, 0)`
yields a value in `(-1, 0)`, truncation gives `0`, which is outside
`[-1, -1]` (the floor would be `-1`). -/
theorem c6_counterexample :
    ((-1 : ℤ) ≤ -1) ∧
    (random_int (-1) (-1) 0x12345678).1 = 0 ∧
    ¬ ((random_int (-1) (-1) 0x12345678).1 ≤ -1) ∧
    (random_int (-1) (-1) 0x12345678).1 ≠
      ⌊(-1 : ℚ) + (random 0x12345678).1 * ((-1 : ℚ) + 1 - (-1))⌋ := by
  refine ⟨by decide, by decide, by decide, by decide⟩

/-- Claim C6, amended: for `0 ≤ min ≤ max` within the `i32` range, whenever
the advanced RNG state is not `u32::MAX` (so `random()` returns strictly
less than 1), `random_int(min, max)` equals
`floor(random_range(min, max + 1))` and lies in `[min, max]`; both endpoints
are attained (states `4071982377` and `3993006080` give 3 and 10 on the
range `[3, 10]`).  For negative ranges the `as i32` truncation is toward
zero, not a floor, and can leave `[min, max]` (see the counterexample). -/
theorem c6_amended (s : ℕ) (mn mx : ℤ) (hmn : 0 ≤ mn) (hle : mn ≤ mx)
    (hmx : mx ≤ 2 ^ 31 - 1) (hs : xorshift32 s ≠ 2 ^ 32 - 1) :
    ((random_int mn mx s).1 = ⌊(mn : ℚ) + (random s).1 * ((mx : ℚ) + 1 - (mn : ℚ))⌋ ∧
     mn ≤ (random_int mn mx s).1 ∧ (random_int mn mx s).1 ≤ mx) ∧
    (random_int 3 10 4071982377).1 = 3 ∧ (random_int 3 10 3993006080).1 = 10 := by
  have hr0 : 0 ≤ (random s).1 := by
    rw [random_fst]; positivity
  have hr1 : (random s).1 < 1 := by
    have hlt : xorshift32 s < 2 ^ 32 := xorshift32_lt s
    have : xorshift32 s < 4294967295 := by omega
    rw [random_fst, div_lt_one (by norm_num)]
    exact_mod_cast this
  set r := (random s).1 with hrdef
  have hval : (random_int mn mx s).1 = ratToI32 ((mn : ℚ) + r * ((mx : ℚ) + 1 - (mn : ℚ))) := rfl
  set v : ℚ := (mn : ℚ) + r * ((mx : ℚ) + 1 - (mn : ℚ)) with hvdef
  have hv0 : (mn : ℚ) ≤ v := by
    have hw : (0 : ℚ) ≤ ((mx : ℚ) + 1 - (mn : ℚ)) := by
      have : (mn : ℚ) ≤ (mx : ℚ) := by exact_mod_cast hle
      linarith
    nlinarith
  have hv1 : v < (mx : ℚ) + 1 := by
    have hw : (0 : ℚ) < ((mx : ℚ) + 1 - (mn : ℚ)) := by
      have : (mn : ℚ) ≤ (mx : ℚ) := by exact_mod_cast hle
      linarith
    nlinarith
  have hvnn : (0 : ℚ) ≤ v := le_trans (by exact_mod_cast hmn) hv0
  have hfl_lb : mn ≤ ⌊v⌋ := Int.le_floor.mpr hv0
  have hfl_ub : ⌊v⌋ ≤ mx := by
    have := Int.floor_lt.mpr (by push_cast; linarith : v < ((mx + 1 : ℤ) : ℚ))
    omega
  have htr : ratToI32 v = ⌊v⌋ := by
    have h1 : ⌊v⌋ ≤ 2 ^ 31 - 1 := le_trans hfl_ub hmx
    have h2 : -(2 ^ 31 : ℤ) ≤ ⌊v⌋ := le_trans (by omega) hfl_lb
    unfold ratToI32
    simp only [if_pos hvnn]
    rw [min_eq_right h1, max_eq_right h2]
  refine ⟨⟨?_, ?_, ?_⟩, by decide, by decide⟩
  · rw [hval, htr]
  · rw [hval, htr]; exact hfl_lb
  · rw [hval, htr]; exact hfl_ub

/-- Witness for `c6_amended` at the seed state and the range `[3, 10]`. -/
theorem c6_witness :
    (((random_int 3 10 0x12345678).1 =
        ⌊(3 : ℚ) + (random 0x12345678).1 * ((10 : ℚ) + 1 - (3 : ℚ))⌋ ∧
      (3 : ℤ) ≤ (random_int 3 10 0x12345678).1 ∧ (random_int 3 10 0x12345678).1 ≤ 10) ∧
     (random_int 3 10 4071982377).1 = 3 ∧ (random_int 3 10 3993006080).1 = 10) :=
  c6_amended 0x12345678 3 10 (by norm_num) (by norm_num) (by norm_num) (by decide)

/-! ### Claim C2: ground-impact output encoding -/

/-- Modelled from the spec: the ground-impact output encoder
`particle_to_output` and the 16-bit `last_ground_output` belong to the
`particles_rust` library crate, whose source is not among this repository's
files (`src/main.rs` only imports it and reads `get_outputs()`;
`src/particles.rs` is the pre-refactor front end and instead stores a MIDI
pitch voltage).  Following §4.6 of the spec word for word:
`position_factor = x/screen_width`; `type_factor = particle_type/7.0`;
`size_factor = (radius - min_size)/(max_size - min_size)`;
`combined = 0.3*position_factor + 0.5*type_factor + 0.2*size_factor`;
result `round(combined * 65535)`, with no clamping. -/
def particle_to_output (screen_width particle_min_size particle_max_size : ℚ)
    (x : ℚ) (particle_type : ℕ) (radius : ℚ) : ℤ :=
  let position_factor := x / screen_width
  let type_factor := (particle_type : ℚ) / 7.0
  let size_factor := (radius - particle_min_size) / (particle_max_size - particle_min_size)
  let combined := 0.3 * position_factor + 0.5 * type_factor + 0.2 * size_factor
  round (combined * 65535)

/-- Claim C2: on ground impact the output is
`round((0.3*(x/w) + 0.5*(t/7) + 0.2*((r - mn)/(mx - mn))) * 65535)` with no
clamping; for parameters inside their nominal ranges the value fits the
16 bits of `last_ground_output` (it lies in `[0, 65535]`); the spec's test
vector `w=320, mn=3, mx=10, x=0, t=1, r=3` gives 4681; and because no clamp
is applied an out-of-range radius (here 73 with `mx=10`) drives the output
past 65535. -/
theorem c2_ground_output (w mn mx x : ℚ) (t : ℕ) (r : ℚ)
    (hw : 0 < w) (hx0 : 0 ≤ x) (hxw : x ≤ w)
    (ht1 : 1 ≤ t) (ht7 : t ≤ 7) (hrmn : mn ≤ r) (hrmx : r ≤ mx) (hmm : mn < mx) :
    (particle_to_output w mn mx x t r =
       round ((0.3 * (x / w) + 0.5 * ((t : ℚ) / 7) + 0.2 * ((r - mn) / (mx - mn))) * 65535) ∧
     0 ≤ particle_to_output w mn mx x t r ∧
     particle_to_output w mn mx x t r ≤ 65535) ∧
    particle_to_output 320 3 10 0 1 3 = 4681 ∧
    particle_to_output 320 3 10 0 1 73 = 135751 ∧ (65535 : ℤ) < 135751 := by
  have hpf0 : (0 : ℚ) ≤ x / w := div_nonneg hx0 (le_of_lt hw)
  have hpf1 : x / w ≤ 1 := (div_le_one hw).mpr hxw
  have htf0 : (0 : ℚ) ≤ (t : ℚ) / 7 := by positivity
  have htf1 : (t : ℚ) / 7 ≤ 1 := by
    rw [div_le_one (by norm_num)]
    exact_mod_cast ht7
  have hsf0 : (0 : ℚ) ≤ (r - mn) / (mx - mn) := by
    apply div_nonneg <;> linarith
  have hsf1 : (r - mn) / (mx - mn) ≤ 1 := by
    rw [div_le_one (by linarith)]
    linarith
  set c : ℚ := 0.3 * (x / w) + 0.5 * ((t : ℚ) / 7) + 0.2 * ((r - mn) / (mx - mn)) with hc
  have hc0 : (0 : ℚ) ≤ c := by rw [hc]; positivity
  have hc1 : c ≤ 1 := by rw [hc]; nlinarith
  have hval : particle_to_output w mn mx x t r = round (c * 65535) := by
    unfold particle_to_output
    norm_num [hc]
  refine ⟨⟨hval, ?_, ?_⟩, by decide, by decide, by decide⟩
  · rw [hval, round_eq]
    have : (0 : ℚ) ≤ c * 65535 + 1 / 2 := by nlinarith
    exact Int.floor_nonneg.mpr this
  · rw [hval, round_eq]
    have hb : c * 65535 + 1 / 2 < 65536 := by nlinarith
    have := Int.floor_lt.mpr (by push_cast; linarith : c * 65535 + 1 / 2 < ((65536 : ℤ) : ℚ))
    omega

/-- Witness for `c2_ground_output` at the spec's test vector. -/
theorem c2_witness :
    ((particle_to_output 320 3 10 0 1 3 =
        round ((0.3 * ((0 : ℚ) / 320) + 0.5 * ((1 : ℚ) / 7) + 0.2 * (((3 : ℚ) - 3) / (10 - 3))) * 65535) ∧
      0 ≤ particle_to_output 320 3 10 0 1 3 ∧
      particle_to_output 320 3 10 0 1 3 ≤ 65535) ∧
     particle_to_output 320 3 10 0 1 3 = 4681 ∧
     particle_to_output 320 3 10 0 1 73 = 135751 ∧ (65535 : ℤ) < 135751) :=
  c2_ground_output 320 3 10 0 1 3 (by norm_num) (by norm_num) (by norm_num)
    (by norm_num) (by norm_num) (by norm_num) (by norm_num) (by norm_num)

/-! ### List infrastructure -/

/-- Counting after a `set`: replacing the element at a valid index trades its
contribution for the new element's. -/
theorem countP_set_of_get? (q : α → Bool) :
    ∀ (l : List α) (i : ℕ) (a b : α), l.get? i = some a →
      (l.set i b).countP q + (if q a then 1 else 0) =
        l.countP q + (if q b then 1 else 0) := by
  intro l
  induction l with
  | nil => intro i a b h; simp at h
  | cons hd tl ih =>
    intro i a b h
    cases i with
    | zero =>
      simp only [List.get?] at h
      injection h with h'
      subst h'
      simp only [List.set, List.countP_cons]
      by_cases hq : q hd <;> by_cases hb : q b <;> simp [hq, hb] <;> omega
    | succ n =>
      simp only [List.get?] at h
      have := ih n a b h
      simp only [List.set, List.countP_cons]
      by_cases hh : q hd <;> simp [hh] <;> omega

/-- A successful `firstIdxNot` scan returns an index holding an element that
fails the predicate. -/
theorem firstIdxNot_some (q : α → Bool) :
    ∀ (l : List α) (i : ℕ), firstIdxNot q l = some i →
      ∃ a, l.get? i = some a ∧ q a = false := by
  intro l
  induction l with
  | nil => intro i h; simp [firstIdxNot] at h
  | cons hd tl ih =>
    intro i h
    unfold firstIdxNot at h
    by_cases hq : q hd
    · rw [if_neg (by simp [hq])] at h
      rcases Option.map_eq_some'.mp h with ⟨j, hj, hji⟩
      rcases ih j hj with ⟨a, ha, hqa⟩
      subst hji
      exact ⟨a, by simpa using ha, hqa⟩
    · rw [if_pos (by simp [hq])] at h
      injection h with h'
      subst h'
      exact ⟨hd, rfl, by simpa using hq⟩

/-- A failed `firstIdxNot` scan means every element passes the predicate. -/
theorem firstIdxNot_none (q : α → Bool) :
    ∀ (l : List α), firstIdxNot q l = none → ∀ a ∈ l, q a = true := by
  intro l
  induction l with
  | nil => intro _ a ha; simp at ha
  | cons hd tl ih =>
    intro h a ha
    unfold firstIdxNot at h
    by_cases hq : q hd
    · rw [if_neg (by simp [hq])] at h
      rcases List.mem_cons.mp ha with rfl | hmem
      · simpa using hq
      · exact ih (Option.map_eq_none'.mp h) a hmem
    · rw [if_pos (by simp [hq])] at h
      simp at h

/-- If the predicate fails somewhere in the list, the scan succeeds. -/
theorem firstIdxNot_isSome_of_countP_lt (q : α → Bool) (l : List α)
    (h : l.countP q < l.length) : ∃ i, firstIdxNot q l = some i := by
  cases hf : firstIdxNot q l with
  | some i => exact ⟨i, rfl⟩
  | none =>
    have hall := firstIdxNot_none q l hf
    have : l.countP q = l.length := by
      rw [List.countP_eq_length]
      exact hall
    omega

/-- The per-particle data `check_collisions` never changes: everything except
`last_collision_time`. -/
def stripP (p : Particle) : ℚ × ℚ × ℚ × ℚ × ℚ × ℚ × ℚ × ℕ × Bool :=
  (p.x, p.y, p.base_speed, p.sway, p.sway_speed, p.wind_sensitivity,
   p.radius, p.pitch, p.active)

/-! ### `collidePair` characterisation and frame lemmas -/

/-- One pair step of `check_collisions` either leaves the state untouched or
fires: and it can fire only when both slots hold active particles whose
cooldowns have both elapsed, in which case it performs exactly the documented
writes (collision value from the RNG, message, `verbose_timer`,
`collision_trigger_timer`, RNG state, and both timestamps). -/
theorem collidePair_eq_or (s : ParticlesSystem) (ij : ℕ × ℕ) :
    collidePair s ij = s ∨
    ∃ p1 p2, s.particle_pool.get? ij.1 = some p1 ∧
      s.particle_pool.get? ij.2 = some p2 ∧
      p1.active = true ∧ p2.active = true ∧
      COLLISION_COOLDOWN_TIME ≤ s.time - p1.last_collision_time ∧
      COLLISION_COOLDOWN_TIME ≤ s.time - p2.last_collision_time ∧
      collidePair s ij =
        { s with collision_cv := (random_range (-5.0) 5.0 s.rng_state).1,
                 verbose_message := Msg.collisionCV (random_range (-5.0) 5.0 s.rng_state).1,
                 verbose_timer := VERBOSE_DURATION,
                 collision_trigger_timer := TRIGGER_DURATION,
                 rng_state := (random_range (-5.0) 5.0 s.rng_state).2,
                 particle_pool :=
                   (s.particle_pool.set ij.1 { p1 with last_collision_time := s.time }).set
                     ij.2 { p2 with last_collision_time := s.time } } := by
  unfold collidePair
  cases h1 : s.particle_pool.get? ij.1 with
  | none => left; rfl
  | some p1 =>
    cases h2 : s.particle_pool.get? ij.2 with
    | none => left; rfl
    | some p2 =>
      dsimp only
      by_cases hact : p1.active = true ∧ p2.active = true
      · rw [if_pos hact]
        by_cases hov : p1.x < p2.x + p2.radius ∧ p1.x + p1.radius > p2.x ∧
            p1.y < p2.y + p2.radius ∧ p1.y + p1.radius > p2.y
        · rw [if_pos hov]
          by_cases hcd : COLLISION_COOLDOWN_TIME ≤ s.time - p1.last_collision_time ∧
              COLLISION_COOLDOWN_TIME ≤ s.time - p2.last_collision_time
          · rw [if_pos hcd]
            right
            exact ⟨p1, p2, rfl, rfl, hact.1, hact.2, hcd.1, hcd.2, rfl⟩
          · rw [if_neg hcd]; left; rfl
        · rw [if_neg hov]; left; rfl
      · rw [if_neg hact]; left; rfl

/-- Fields of the system `collidePair` never writes. -/
theorem collidePair_frame (s : ParticlesSystem) (ij : ℕ × ℕ) :
    (collidePair s ij).dust_pool = s.dust_pool ∧
    (collidePair s ij).active_particles = s.active_particles ∧
    (collidePair s ij).active_dust = s.active_dust ∧
    (collidePair s ij).time = s.time ∧
    (collidePair s ij).trigger_timer = s.trigger_timer ∧
    (collidePair s ij).last_ground_pitch_voltage = s.last_ground_pitch_voltage ∧
    (collidePair s ij).root_note = s.root_note ∧
    (collidePair s ij).octave = s.octave ∧
    (collidePair s ij).scale = s.scale ∧
    (collidePair s ij).global_fall_speed = s.global_fall_speed ∧
    (collidePair s ij).gravity = s.gravity ∧
    (collidePair s ij).max_particles = s.max_particles ∧
    (collidePair s ij).wind = s.wind ∧
    (collidePair s ij).verbose = s.verbose := by
  rcases collidePair_eq_or s ij with h | ⟨p1, p2, _, _, _, _, _, _, h⟩ <;> rw [h] <;>
    exact ⟨rfl, rfl, rfl, rfl, rfl, rfl, rfl, rfl, rfl, rfl, rfl, rfl, rfl, rfl⟩

/-- The two timers `collidePair` can write are only ever reset to their
fixed durations. -/
theorem collidePair_timer_cases (s : ParticlesSystem) (ij : ℕ × ℕ) :
    ((collidePair s ij).verbose_timer = s.verbose_timer ∨
      (collidePair s ij).verbose_timer = VERBOSE_DURATION) ∧
    ((collidePair s ij).collision_trigger_timer = s.collision_trigger_timer ∨
      (collidePair s ij).collision_trigger_timer = TRIGGER_DURATION) := by
  rcases collidePair_eq_or s ij with h | ⟨p1, p2, _, _, _, _, _, _, h⟩ <;> rw [h]
  · exact ⟨Or.inl rfl, Or.inl rfl⟩
  · exact ⟨Or.inr rfl, Or.inr rfl⟩

/-- Looking up any position of a list after two `set`s that replace existing
elements by elements with the same image under `f`. -/
theorem get?_map_double_set {β : Type} (f : Particle → β) (l : List Particle)
    (i j k : ℕ) (p1 p2 q1 q2 : Particle)
    (h1 : l.get? i = some p1) (h2 : l.get? j = some p2)
    (e1 : f q1 = f p1) (e2 : f q2 = f p2) :
    (((l.set i q1).set j q2).get? k).map f = (l.get? k).map f := by
  have hjlen : j < l.length := (List.get?_eq_some.mp h2).1
  have hilen : i < l.length := (List.get?_eq_some.mp h1).1
  by_cases hjk : j = k
  · subst hjk
    rw [List.get?_set_eq_of_lt _ (by simpa using hjlen), h2]
    simp [e2]
  · rw [List.get?_set_ne _ _ hjk]
    by_cases hik : i = k
    · subst hik
      rw [List.get?_set_eq_of_lt _ hilen, h1]
      simp [e1]
    · rw [List.get?_set_ne _ _ hik]

/-- `collidePair` keeps every particle's data except possibly its
`last_collision_time`. -/
theorem collidePair_strip (s : ParticlesSystem) (ij : ℕ × ℕ) (k : ℕ) :
    ((collidePair s ij).particle_pool.get? k).map stripP =
      (s.particle_pool.get? k).map stripP := by
  rcases collidePair_eq_or s ij with h | ⟨p1, p2, h1, h2, _, _, _, _, h⟩
  · rw [h]
  · rw [h]
    exact get?_map_double_set stripP s.particle_pool ij.1 ij.2 k p1 p2 _ _ h1 h2 rfl rfl

/-- `collidePair` can change a particle's `last_collision_time` only by
stamping it to the current simulation clock. -/
theorem collidePair_lct (s : ParticlesSystem) (ij : ℕ × ℕ) (k : ℕ) :
    ((collidePair s ij).particle_pool.get? k).map Particle.last_collision_time =
      (s.particle_pool.get? k).map Particle.last_collision_time ∨
    ((collidePair s ij).particle_pool.get? k).map Particle.last_collision_time =
      some s.time := by
  rcases collidePair_eq_or s ij with h | ⟨p1, p2, h1, h2, _, _, _, _, h⟩
  · left; rw [h]
  · rw [h]
    dsimp only
    have hjlen : ij.2 < s.particle_pool.length := (List.get?_eq_some.mp h2).1
    have hilen : ij.1 < s.particle_pool.length := (List.get?_eq_some.mp h1).1
    by_cases hjk : ij.2 = k
    · right
      subst hjk
      rw [List.get?_set_eq_of_lt _ (by simpa using hjlen)]
      rfl
    · rw [List.get?_set_ne _ _ hjk]
      by_cases hik : ij.1 = k
      · right
        subst hik
        rw [List.get?_set_eq_of_lt _ hilen]
        rfl
      · left
        rw [List.get?_set_ne _ _ hik]

/-- A particle whose cooldown window is still open when `check_collisions`
starts processing a pair keeps its `last_collision_time` through that pair. -/
theorem collidePair_lct_cooldown (s : ParticlesSystem) (ij : ℕ × ℕ) (k : ℕ) (p : Particle)
    (hk : s.particle_pool.get? k = some p)
    (hcd : s.time - p.last_collision_time < COLLISION_COOLDOWN_TIME) :
    ((collidePair s ij).particle_pool.get? k).map Particle.last_collision_time =
      some p.last_collision_time := by
  rcases collidePair_eq_or s ij with h | ⟨p1, p2, h1, h2, _, _, hcd1, hcd2, h⟩
  · rw [h, hk]; rfl
  · rw [h]
    dsimp only
    have hjlen : ij.2 < s.particle_pool.length := (List.get?_eq_some.mp h2).1
    have hilen : ij.1 < s.particle_pool.length := (List.get?_eq_some.mp h1).1
    have hk1 : ij.1 ≠ k := by
      intro he
      subst he
      rw [hk] at h1
      injection h1 with h1'
      subst h1'
      exact absurd hcd1 (by linarith)
    have hk2 : ij.2 ≠ k := by
      intro he
      subst he
      rw [hk] at h2
      injection h2 with h2'
      subst h2'
      exact absurd hcd2 (by linarith)
    rw [List.get?_set_ne _ _ hk2, List.get?_set_ne _ _ hk1, hk]
    rfl

/-- `collidePair` preserves the length of the particle pool and the number of
active particles in it. -/
theorem collidePair_pool_counts (s : ParticlesSystem) (ij : ℕ × ℕ) :
    (collidePair s ij).particle_pool.length = s.particle_pool.length ∧
    (collidePair s ij).particle_pool.countP (fun p => p.active) =
      s.particle_pool.countP (fun p => p.active) := by
  rcases collidePair_eq_or s ij with h | ⟨p1, p2, h1, h2, _, _, _, _, h⟩
  · rw [h]; exact ⟨rfl, rfl⟩
  · rw [h]
    dsimp only
    constructor
    · simp
    · by_cases hij : ij.1 = ij.2
      · rw [← hij] at h2
        rw [h1] at h2
        injection h2 with h2'
        subst h2'
        rw [← hij, List.set_set]
        have hA := countP_set_of_get? (fun p => p.active) s.particle_pool ij.1 p1
          { p1 with last_collision_time := s.time } h1
        simp only at hA
        omega
      · have hA := countP_set_of_get? (fun p => p.active) s.particle_pool ij.1 p1
          { p1 with last_collision_time := s.time } h1
        have h2'' : (s.particle_pool.set ij.1
            { p1 with last_collision_time := s.time }).get? ij.2 = some p2 := by
          rw [List.get?_set_ne _ _ hij]
          exact h2
        have hB := countP_set_of_get? (fun p => p.active)
          (s.particle_pool.set ij.1 { p1 with last_collision_time := s.time }) ij.2 p2
          { p2 with last_collision_time := s.time } h2''
        simp only at hA hB
        omega

/-- The whole pair scan keeps every field `collidePair` keeps. -/
theorem foldl_collidePair_frame :
    ∀ (L : List (ℕ × ℕ)) (s : ParticlesSystem),
      (L.foldl collidePair s).dust_pool = s.dust_pool ∧
      (L.foldl collidePair s).active_particles = s.active_particles ∧
      (L.foldl collidePair s).active_dust = s.active_dust ∧
      (L.foldl collidePair s).time = s.time ∧
      (L.foldl collidePair s).trigger_timer = s.trigger_timer ∧
      (L.foldl collidePair s).last_ground_pitch_voltage = s.last_ground_pitch_voltage ∧
      (L.foldl collidePair s).root_note = s.root_note ∧
      (L.foldl collidePair s).octave = s.octave ∧
      (L.foldl collidePair s).scale = s.scale ∧
      (L.foldl collidePair s).global_fall_speed = s.global_fall_speed ∧
      (L.foldl collidePair s).gravity = s.gravity ∧
      (L.foldl collidePair s).max_particles = s.max_particles ∧
      (L.foldl collidePair s).wind = s.wind ∧
      (L.foldl collidePair s).verbose = s.verbose := by
  intro L
  induction L with
  | nil =>
    intro s
    exact ⟨rfl, rfl, rfl, rfl, rfl, rfl, rfl, rfl, rfl, rfl, rfl, rfl, rfl, rfl⟩
  | cons hd tl ih =>
    intro s
    obtain ⟨a1, a2, a3, a4, a5, a6, a7, a8, a9, a10, a11, a12, a13, a14⟩ :=
      collidePair_frame s hd
    obtain ⟨b1, b2, b3, b4, b5, b6, b7, b8, b9, b10, b11, b12, b13, b14⟩ :=
      ih (collidePair s hd)
    simp only [List.foldl_cons]
    exact ⟨b1.trans a1, b2.trans a2, b3.trans a3, b4.trans a4, b5.trans a5,
      b6.trans a6, b7.trans a7, b8.trans a8, b9.trans a9, b10.trans a10,
      b11.trans a11, b12.trans a12, b13.trans a13, b14.trans a14⟩

/-- The pair scan only resets the two event timers it owns. -/
theorem foldl_collidePair_timer_cases :
    ∀ (L : List (ℕ × ℕ)) (s : ParticlesSystem),
      ((L.foldl collidePair s).verbose_timer = s.verbose_timer ∨
        (L.foldl collidePair s).verbose_timer = VERBOSE_DURATION) ∧
      ((L.foldl collidePair s).collision_trigger_timer = s.collision_trigger_timer ∨
        (L.foldl collidePair s).collision_trigger_timer = TRIGGER_DURATION) := by
  intro L
  induction L with
  | nil => intro s; exact ⟨Or.inl rfl, Or.inl rfl⟩
  | cons hd tl ih =>
    intro s
    obtain ⟨h1v, h1c⟩ := collidePair_timer_cases s hd
    obtain ⟨h2v, h2c⟩ := ih (collidePair s hd)
    simp only [List.foldl_cons]
    constructor
    · rcases h2v with h2v | h2v
      · rcases h1v with h1v | h1v
        · exact Or.inl (h2v.trans h1v)
        · exact Or.inr (h2v.trans h1v)
      · exact Or.inr h2v
    · rcases h2c with h2c | h2c
      · rcases h1c with h1c | h1c
        · exact Or.inl (h2c.trans h1c)
        · exact Or.inr (h2c.trans h1c)
      · exact Or.inr h2c

/-- The pair scan keeps every particle's data except `last_collision_time`. -/
theorem foldl_collidePair_strip :
    ∀ (L : List (ℕ × ℕ)) (s : ParticlesSystem) (k : ℕ),
      ((L.foldl collidePair s).particle_pool.get? k).map stripP =
        (s.particle_pool.get? k).map stripP := by
  intro L
  induction L with
  | nil => intro s k; rfl
  | cons hd tl ih =>
    intro s k
    simp only [List.foldl_cons]
    exact (ih (collidePair s hd) k).trans (collidePair_strip s hd k)

/-- The pair scan preserves the particle-pool length and active count. -/
theorem foldl_collidePair_pool_counts :
    ∀ (L : List (ℕ × ℕ)) (s : ParticlesSystem),
      (L.foldl collidePair s).particle_pool.length = s.particle_pool.length ∧
      (L.foldl collidePair s).particle_pool.countP (fun p => p.active) =
        s.particle_pool.countP (fun p => p.active) := by
  intro L
  induction L with
  | nil => intro s; exact ⟨rfl, rfl⟩
  | cons hd tl ih =>
    intro s
    obtain ⟨h1l, h1c⟩ := collidePair_pool_counts s hd
    obtain ⟨h2l, h2c⟩ := ih (collidePair s hd)
    simp only [List.foldl_cons]
    exact ⟨h2l.trans h1l, h2c.trans h1c⟩

/-- A particle inside its cooldown window is never re-stamped by the scan. -/
theorem foldl_collidePair_lct_cooldown :
    ∀ (L : List (ℕ × ℕ)) (s : ParticlesSystem) (k : ℕ) (p : Particle),
      s.particle_pool.get? k = some p →
      s.time - p.last_collision_time < COLLISION_COOLDOWN_TIME →
      ((L.foldl collidePair s).particle_pool.get? k).map Particle.last_collision_time =
        some p.last_collision_time := by
  intro L
  induction L with
  | nil =>
    intro s k p hk _
    rw [List.foldl_nil, hk]
    rfl
  | cons hd tl ih =>
    intro s k p hk hcd
    simp only [List.foldl_cons]
    have hstep := collidePair_lct_cooldown s hd k p hk hcd
    rcases hmap : (collidePair s hd).particle_pool.get? k with _ | p'
    · rw [hmap] at hstep; simp at hstep
    · rw [hmap] at hstep
      have hp' : p'.last_collision_time = p.last_collision_time := by
        simpa using hstep
      have htime : (collidePair s hd).time = s.time := (collidePair_frame s hd).2.2.2.1
      have := ih (collidePair s hd) k p' hmap (by rw [htime, hp']; exact hcd)
      rw [this, hp']

/-- The scan stamps `last_collision_time` only to the current clock. -/
theorem foldl_collidePair_lct :
    ∀ (L : List (ℕ × ℕ)) (s : ParticlesSystem) (k : ℕ),
      ((L.foldl collidePair s).particle_pool.get? k).map Particle.last_collision_time =
        (s.particle_pool.get? k).map Particle.last_collision_time ∨
      ((L.foldl collidePair s).particle_pool.get? k).map Particle.last_collision_time =
        some s.time := by
  intro L
  induction L with
  | nil => intro s k; exact Or.inl rfl
  | cons hd tl ih =>
    intro s k
    simp only [List.foldl_cons]
    have htime : (collidePair s hd).time = s.time := (collidePair_frame s hd).2.2.2.1
    rcases ih (collidePair s hd) k with h | h
    · rcases collidePair_lct s hd k with h' | h'
      · exact Or.inl (h.trans h')
      · exact Or.inr (h.trans h')
    · rw [htime] at h
      exact Or.inr h

/-! ### Claim C9: frame effect of `check_collisions` -/

/-- An active particle sitting at (100, 50) with radius 5 and an elapsed
cooldown, used by the concrete collision states below. -/
def pA : Particle :=
  { x := 100, y := 50, base_speed := 0, sway := 0, sway_speed := 0,
    wind_sensitivity := 0, radius := 5, pitch := 1,
    last_collision_time := 0, active := true }

/-- An active particle overlapping `pA`, with an elapsed cooldown. -/
def pB : Particle :=
  { x := 102, y := 52, base_speed := 0, sway := 0, sway_speed := 0,
    wind_sensitivity := 0, radius := 5, pitch := 1,
    last_collision_time := 0, active := true }

/-- A state with two overlapping active particles whose cooldowns have both
elapsed: the pair fires, so `check_collisions` also advances the RNG state. -/
def c9State : ParticlesSystem :=
  { particlesInit with
      particle_pool := pA :: pB :: List.replicate 10 Particle.default
      active_particles := 2
      time := 10
      rng_state := 1 }

/-- Claim C9 as stated omits one mutation: when a pair fires,
`check_collisions` draws the collision value from the RNG and therefore also
advances the 32-bit RNG state.  At `c9State` the pair `(0, 1)` fires and the
RNG state changes (every other enumerated frame condition holds, as
`c9_amended` proves in general). -/
theorem c9_counterexample :
    (check_collisions c9State).rng_state ≠ c9State.rng_state ∧
    (check_collisions c9State).collision_trigger_timer = TRIGGER_DURATION := by
  constructor
  · decide
  · decide

/-- Claim C9, amended: a call to `check_collisions` modifies at most the
`last_collision_time` of colliding particles (stamping it to the current
clock), the collision output value, the verbose message, the
verbose/collision-trigger timers, and the RNG state (advanced when a
collision value is drawn); it never changes any particle's position, sway,
radius, speed, type or active flag, never spawns or deactivates anything,
and leaves both pool counters (and the dust pool, clock, ground trigger
timer, ground output and all settings) unchanged. -/
theorem c9_amended (s : ParticlesSystem) :
    (∀ k, ((check_collisions s).particle_pool.get? k).map stripP =
        (s.particle_pool.get? k).map stripP) ∧
    (∀ k, ((check_collisions s).particle_pool.get? k).map Particle.last_collision_time =
        (s.particle_pool.get? k).map Particle.last_collision_time ∨
      ((check_collisions s).particle_pool.get? k).map Particle.last_collision_time =
        some s.time) ∧
    (check_collisions s).particle_pool.length = s.particle_pool.length ∧
    (check_collisions s).particle_pool.countP (fun p => p.active) =
      s.particle_pool.countP (fun p => p.active) ∧
    (check_collisions s).dust_pool = s.dust_pool ∧
    (check_collisions s).active_particles = s.active_particles ∧
    (check_collisions s).active_dust = s.active_dust ∧
    (check_collisions s).time = s.time ∧
    (check_collisions s).trigger_timer = s.trigger_timer ∧
    (check_collisions s).last_ground_pitch_voltage = s.last_ground_pitch_voltage ∧
    ((check_collisions s).verbose_timer = s.verbose_timer ∨
      (check_collisions s).verbose_timer = VERBOSE_DURATION) ∧
    ((check_collisions s).collision_trigger_timer = s.collision_trigger_timer ∨
      (check_collisions s).collision_trigger_timer = TRIGGER_DURATION) ∧
    (check_collisions s).root_note = s.root_note ∧
    (check_collisions s).octave = s.octave ∧
    (check_collisions s).scale = s.scale ∧
    (check_collisions s).global_fall_speed = s.global_fall_speed ∧
    (check_collisions s).gravity = s.gravity ∧
    (check_collisions s).max_particles = s.max_particles ∧
    (check_collisions s).wind = s.wind ∧
    (check_collisions s).verbose = s.verbose := by
  obtain ⟨a1, a2, a3, a4, a5, a6, a7, a8, a9, a10, a11, a12, a13, a14⟩ :=
    foldl_collidePair_frame pairIndices s
  obtain ⟨tv, tc⟩ := foldl_collidePair_timer_cases pairIndices s
  obtain ⟨cl, cc⟩ := foldl_collidePair_pool_counts pairIndices s
  exact ⟨fun k => foldl_collidePair_strip pairIndices s k,
    fun k => foldl_collidePair_lct pairIndices s k,
    cl, cc, a1, a2, a3, a4, a5, a6, tv, tc, a7, a8, a9, a10, a11, a12, a13, a14⟩

/-! ### Frame views of the system state -/

/-- Every field except the dust pool, the dust counter and the RNG state:
`update_dust` changes none of these. -/
def coreView (s : ParticlesSystem) :=
  (s.particle_pool, s.active_particles, s.time, s.trigger_timer,
   s.collision_trigger_timer, s.verbose_timer, s.last_ground_pitch_voltage,
   s.collision_cv, s.verbose_message, s.root_note, s.octave, s.scale,
   s.global_fall_speed, s.gravity, s.max_particles, s.wind, s.verbose)

/-- `activate_dust` only writes the dust pool, the dust counter and the RNG. -/
theorem activate_dust_core (s : ParticlesSystem) :
    coreView (activate_dust s) = coreView s := by
  unfold activate_dust
  cases firstIdxNot (fun d => d.active) s.dust_pool with
  | none => rfl
  | some idx => rfl

/-- `dustLoop` only writes the dust pool, the dust counter and the RNG. -/
theorem dustLoop_core : ∀ (n : ℕ) (s : ParticlesSystem),
    coreView (dustLoop n s) = coreView s := by
  intro n
  induction n with
  | zero => intro s; rfl
  | succ m ih =>
    intro s
    unfold dustLoop
    by_cases h : s.active_dust < s.max_particles * 8 ∧ s.active_dust < MAX_DUST
    · rw [if_pos h]
      exact (ih (activate_dust s)).trans (activate_dust_core s)
    · rw [if_neg h]

/-- `update_dust` only writes the dust pool, the dust counter and the RNG. -/
theorem update_dust_core (dt : ℚ) (s : ParticlesSystem) :
    coreView (update_dust dt s) = coreView s := by
  unfold update_dust
  exact dustLoop_core MAX_DUST _

/-- `activate_particle` only writes the particle pool, the particle counter
and the RNG. -/
theorem activate_particle_frame (o : RealOracle) (s : ParticlesSystem) :
    (activate_particle o s).dust_pool = s.dust_pool ∧
    (activate_particle o s).active_dust = s.active_dust ∧
    (activate_particle o s).time = s.time ∧
    (activate_particle o s).trigger_timer = s.trigger_timer ∧
    (activate_particle o s).collision_trigger_timer = s.collision_trigger_timer ∧
    (activate_particle o s).verbose_timer = s.verbose_timer ∧
    (activate_particle o s).last_ground_pitch_voltage = s.last_ground_pitch_voltage ∧
    (activate_particle o s).collision_cv = s.collision_cv ∧
    (activate_particle o s).verbose_message = s.verbose_message ∧
    (activate_particle o s).root_note = s.root_note ∧
    (activate_particle o s).octave = s.octave ∧
    (activate_particle o s).scale = s.scale ∧
    (activate_particle o s).global_fall_speed = s.global_fall_speed ∧
    (activate_particle o s).gravity = s.gravity ∧
    (activate_particle o s).max_particles = s.max_particles ∧
    (activate_particle o s).wind = s.wind ∧
    (activate_particle o s).verbose = s.verbose := by
  unfold activate_particle
  cases firstIdxNot (fun p => p.active) s.particle_pool with
  | none =>
    exact ⟨rfl, rfl, rfl, rfl, rfl, rfl, rfl, rfl, rfl, rfl, rfl, rfl, rfl, rfl, rfl, rfl, rfl⟩
  | some idx =>
    exact ⟨rfl, rfl, rfl, rfl, rfl, rfl, rfl, rfl, rfl, rfl, rfl, rfl, rfl, rfl, rfl, rfl, rfl⟩

/-- The ground-impact output pass: it only writes the pitch voltage, the
message and the two event timers, and those two only to their durations. -/
theorem groundOutputs_cases : ∀ (pool : List Particle) (s : ParticlesSystem),
    ((groundOutputs s pool).trigger_timer = s.trigger_timer ∨
      (groundOutputs s pool).trigger_timer = TRIGGER_DURATION) ∧
    ((groundOutputs s pool).verbose_timer = s.verbose_timer ∨
      (groundOutputs s pool).verbose_timer = VERBOSE_DURATION) ∧
    (groundOutputs s pool).collision_trigger_timer = s.collision_trigger_timer ∧
    (groundOutputs s pool).particle_pool = s.particle_pool ∧
    (groundOutputs s pool).dust_pool = s.dust_pool ∧
    (groundOutputs s pool).active_particles = s.active_particles ∧
    (groundOutputs s pool).active_dust = s.active_dust ∧
    (groundOutputs s pool).time = s.time ∧
    (groundOutputs s pool).collision_cv = s.collision_cv ∧
    (groundOutputs s pool).rng_state = s.rng_state ∧
    (groundOutputs s pool).root_note = s.root_note ∧
    (groundOutputs s pool).octave = s.octave ∧
    (groundOutputs s pool).scale = s.scale ∧
    (groundOutputs s pool).global_fall_speed = s.global_fall_speed ∧
    (groundOutputs s pool).gravity = s.gravity ∧
    (groundOutputs s pool).max_particles = s.max_particles ∧
    (groundOutputs s pool).wind = s.wind ∧
    (groundOutputs s pool).verbose = s.verbose := by
  intro pool
  induction pool with
  | nil =>
    intro s
    exact ⟨Or.inl rfl, Or.inl rfl, rfl, rfl, rfl, rfl, rfl, rfl, rfl, rfl, rfl,
      rfl, rfl, rfl, rfl, rfl, rfl, rfl⟩
  | cons hd tl ih =>
    intro s
    unfold groundOutputs
    simp only [List.foldl_cons]
    by_cases hld : landedB hd
    · rw [if_pos hld]
      obtain ⟨h1, h2, h3, h4, h5, h6, h7, h8, h9, h10, h11, h12, h13, h14,
        h15, h16, h17, h18⟩ := ih _
      refine ⟨?_, ?_, h3, h4, h5, h6, h7, h8, h9, h10, h11, h12, h13, h14, h15, h16, h17, h18⟩
      · rcases h1 with h1 | h1
        · exact Or.inr h1
        · exact Or.inr h1
      · rcases h2 with h2 | h2
        · exact Or.inr h2
        · exact Or.inr h2
    · rw [if_neg hld]
      exact ih s

/-- `update_particles`: the ground trigger and verbose timers are either kept
or reset to their durations; the collision trigger timer, the clock, the dust
state and all settings are untouched. -/
theorem update_particles_timer_cases (o : RealOracle) (dt : ℚ) (s : ParticlesSystem) :
    ((update_particles o dt s).trigger_timer = s.trigger_timer ∨
      (update_particles o dt s).trigger_timer = TRIGGER_DURATION) ∧
    ((update_particles o dt s).verbose_timer = s.verbose_timer ∨
      (update_particles o dt s).verbose_timer = VERBOSE_DURATION) ∧
    (update_particles o dt s).collision_trigger_timer = s.collision_trigger_timer ∧
    (update_particles o dt s).time = s.time ∧
    (update_particles o dt s).dust_pool = s.dust_pool ∧
    (update_particles o dt s).active_dust = s.active_dust ∧
    (update_particles o dt s).root_note = s.root_note ∧
    (update_particles o dt s).octave = s.octave ∧
    (update_particles o dt s).scale = s.scale ∧
    (update_particles o dt s).global_fall_speed = s.global_fall_speed ∧
    (update_particles o dt s).gravity = s.gravity ∧
    (update_particles o dt s).max_particles = s.max_particles ∧
    (update_particles o dt s).wind = s.wind ∧
    (update_particles o dt s).verbose = s.verbose := by
  unfold update_particles
  dsimp only
  obtain ⟨g1, g2, g3, g4, g5, g6, g7, g8, g9, g10, g11, g12, g13, g14, g15,
    g16, g17, g18⟩ := groundOutputs_cases
      (s.particle_pool.map (motionParticle o s.global_fall_speed s.wind dt)) s
  split
  · split
    · obtain ⟨a1, a2, a3, a4, a5, a6, a7, a8, a9, a10, a11, a12, a13, a14, a15,
        a16, a17⟩ := activate_particle_frame o _
      refine ⟨?_, ?_, ?_, ?_, ?_, ?_, ?_, ?_, ?_, ?_, ?_, ?_, ?_, ?_⟩
      · rw [a4]; exact g1
      · rw [a6]; exact g2
      · rw [a5]; exact g3
      · rw [a3]; exact g8
      · rw [a1]; exact g5
      · rw [a2]; exact g7
      · rw [a10]; exact g11
      · rw [a11]; exact g12
      · rw [a12]; exact g13
      · rw [a13]; exact g14
      · rw [a14]; exact g15
      · rw [a15]; exact g16
      · rw [a16]; exact g17
      · rw [a17]; exact g18
    · exact ⟨g1, g2, g3, g8, g5, g7, g11, g12, g13, g14, g15, g16, g17, g18⟩
  · exact ⟨g1, g2, g3, g8, g5, g7, g11, g12, g13, g14, g15, g16, g17, g18⟩

/-- `update_dust` leaves everything but the dust pool, the dust counter and
the RNG state unchanged (projection form of `update_dust_core`). -/
theorem update_dust_frame (dt : ℚ) (s : ParticlesSystem) :
    (update_dust dt s).particle_pool = s.particle_pool ∧
    (update_dust dt s).active_particles = s.active_particles ∧
    (update_dust dt s).time = s.time ∧
    (update_dust dt s).trigger_timer = s.trigger_timer ∧
    (update_dust dt s).collision_trigger_timer = s.collision_trigger_timer ∧
    (update_dust dt s).verbose_timer = s.verbose_timer ∧
    (update_dust dt s).last_ground_pitch_voltage = s.last_ground_pitch_voltage ∧
    (update_dust dt s).collision_cv = s.collision_cv ∧
    (update_dust dt s).verbose_message = s.verbose_message ∧
    (update_dust dt s).root_note = s.root_note ∧
    (update_dust dt s).octave = s.octave ∧
    (update_dust dt s).scale = s.scale ∧
    (update_dust dt s).global_fall_speed = s.global_fall_speed ∧
    (update_dust dt s).gravity = s.gravity ∧
    (update_dust dt s).max_particles = s.max_particles ∧
    (update_dust dt s).wind = s.wind ∧
    (update_dust dt s).verbose = s.verbose := by
  have h := update_dust_core dt s
  simp only [coreView, Prod.mk.injEq] at h
  exact ⟨h.1, h.2.1, h.2.2.1, h.2.2.2.1, h.2.2.2.2.1, h.2.2.2.2.2.1,
    h.2.2.2.2.2.2.1, h.2.2.2.2.2.2.2.1, h.2.2.2.2.2.2.2.2.1,
    h.2.2.2.2.2.2.2.2.2.1, h.2.2.2.2.2.2.2.2.2.2.1,
    h.2.2.2.2.2.2.2.2.2.2.2.1, h.2.2.2.2.2.2.2.2.2.2.2.2.1,
    h.2.2.2.2.2.2.2.2.2.2.2.2.2.1, h.2.2.2.2.2.2.2.2.2.2.2.2.2.2.1,
    h.2.2.2.2.2.2.2.2.2.2.2.2.2.2.2.1, h.2.2.2.2.2.2.2.2.2.2.2.2.2.2.2.2⟩

/-! ### Claim C3: timer clamping -/

/-- Claim C3, amended: after `update(dt)` each of the three countdown timers
either underwent the raw decrement (it lost `dt` if it was positive before
the call, and was left unchanged otherwise) or was reset to its event
duration by a ground impact or collision in the same call.  There is no
clamping at zero: the check happens before the decrement, so `dt` larger
than a positive timer leaves that timer negative (the counterexample
exhibits a reachable state where this happens). -/
theorem c3_amended (o : RealOracle) (dt : ℚ) (s : ParticlesSystem) :
    ((update o dt s).verbose_timer =
        (if s.verbose_timer > 0 then s.verbose_timer - dt else s.verbose_timer) ∨
      (update o dt s).verbose_timer = VERBOSE_DURATION) ∧
    ((update o dt s).trigger_timer =
        (if s.trigger_timer > 0 then s.trigger_timer - dt else s.trigger_timer) ∨
      (update o dt s).trigger_timer = TRIGGER_DURATION) ∧
    ((update o dt s).collision_trigger_timer =
        (if s.collision_trigger_timer > 0 then s.collision_trigger_timer - dt
         else s.collision_trigger_timer) ∨
      (update o dt s).collision_trigger_timer = TRIGGER_DURATION) := by
  unfold update check_collisions
  dsimp only
  obtain ⟨u1, u2, u3, _⟩ := update_particles_timer_cases o dt
    { s with
        time := s.time + dt,
        verbose_timer := if s.verbose_timer > 0 then s.verbose_timer - dt else s.verbose_timer,
        trigger_timer := if s.trigger_timer > 0 then s.trigger_timer - dt else s.trigger_timer,
        collision_trigger_timer :=
          if s.collision_trigger_timer > 0 then s.collision_trigger_timer - dt
          else s.collision_trigger_timer }
  obtain ⟨_, _, _, d4, d5, d6, _⟩ := update_dust_frame dt
    (update_particles o dt
      { s with
          time := s.time + dt,
          verbose_timer := if s.verbose_timer > 0 then s.verbose_timer - dt else s.verbose_timer,
          trigger_timer := if s.trigger_timer > 0 then s.trigger_timer - dt else s.trigger_timer,
          collision_trigger_timer :=
            if s.collision_trigger_timer > 0 then s.collision_trigger_timer - dt
            else s.collision_trigger_timer })
  obtain ⟨cv, cc⟩ := foldl_collidePair_timer_cases pairIndices
    (update_dust dt (update_particles o dt
      { s with
          time := s.time + dt,
          verbose_timer := if s.verbose_timer > 0 then s.verbose_timer - dt else s.verbose_timer,
          trigger_timer := if s.trigger_timer > 0 then s.trigger_timer - dt else s.trigger_timer,
          collision_trigger_timer :=
            if s.collision_trigger_timer > 0 then s.collision_trigger_timer - dt
            else s.collision_trigger_timer }))
  obtain ⟨_, _, _, _, ftrig, _⟩ := foldl_collidePair_frame pairIndices
    (update_dust dt (update_particles o dt
      { s with
          time := s.time + dt,
          verbose_timer := if s.verbose_timer > 0 then s.verbose_timer - dt else s.verbose_timer,
          trigger_timer := if s.trigger_timer > 0 then s.trigger_timer - dt else s.trigger_timer,
          collision_trigger_timer :=
            if s.collision_trigger_timer > 0 then s.collision_trigger_timer - dt
            else s.collision_trigger_timer }))
  refine ⟨?_, ?_, ?_⟩
  · rcases cv with cv | cv
    · rw [cv, d6]
      rcases u2 with u2 | u2
      · exact Or.inl u2
      · exact Or.inr u2
    · exact Or.inr cv
  · rw [ftrig, d4]
    rcases u1 with u1 | u1
    · exact Or.inl u1
    · exact Or.inr u1
  · rcases cc with cc | cc
    · rw [cc, d5, u3]
      exact Or.inl rfl
    · exact Or.inr cc
/-- Intermediate state 1 of the C3 counterexample run. -/
def cexS1 : ParticlesSystem :=
  ⟨[⟨((0 : ℚ)/1), ((0 : ℚ)/1), ((0 : ℚ)/1), ((0 : ℚ)/1), ((0 : ℚ)/1), ((0 : ℚ)/1), ((0 : ℚ)/1), 0, ((0 : ℚ)/1), false⟩,
   ⟨((0 : ℚ)/1), ((0 : ℚ)/1), ((0 : ℚ)/1), ((0 : ℚ)/1), ((0 : ℚ)/1), ((0 : ℚ)/1), ((0 : ℚ)/1), 0, ((0 : ℚ)/1), false⟩,
   ⟨((0 : ℚ)/1), ((0 : ℚ)/1), ((0 : ℚ)/1), ((0 : ℚ)/1), ((0 : ℚ)/1), ((0 : ℚ)/1), ((0 : ℚ)/1), 0, ((0 : ℚ)/1), false⟩,
   ⟨((0 : ℚ)/1), ((0 : ℚ)/1), ((0 : ℚ)/1), ((0 : ℚ)/1), ((0 : ℚ)/1), ((0 : ℚ)/1), ((0 : ℚ)/1), 0, ((0 : ℚ)/1), false⟩,
   ⟨((0 : ℚ)/1), ((0 : ℚ)/1), ((0 : ℚ)/1), ((0 : ℚ)/1), ((0 : ℚ)/1), ((0 : ℚ)/1), ((0 : ℚ)/1), 0, ((0 : ℚ)/1), false⟩,
   ⟨((0 : ℚ)/1), ((0 : ℚ)/1), ((0 : ℚ)/1), ((0 : ℚ)/1), ((0 : ℚ)/1), ((0 : ℚ)/1), ((0 : ℚ)/1), 0, ((0 : ℚ)/1), false⟩,
   ⟨((0 : ℚ)/1), ((0 : ℚ)/1), ((0 : ℚ)/1), ((0 : ℚ)/1), ((0 : ℚ)/1), ((0 : ℚ)/1), ((0 : ℚ)/1), 0, ((0 : ℚ)/1), false⟩,
   ⟨((0 : ℚ)/1), ((0 : ℚ)/1), ((0 : ℚ)/1), ((0 : ℚ)/1), ((0 : ℚ)/1), ((0 : ℚ)/1), ((0 : ℚ)/1), 0, ((0 : ℚ)/1), false⟩,
   ⟨((0 : ℚ)/1), ((0 : ℚ)/1), ((0 : ℚ)/1), ((0 : ℚ)/1), ((0 : ℚ)/1), ((0 : ℚ)/1), ((0 : ℚ)/1), 0, ((0 : ℚ)/1), false⟩,
   ⟨((0 : ℚ)/1), ((0 : ℚ)/1), ((0 : ℚ)/1), ((0 : ℚ)/1), ((0 : ℚ)/1), ((0 : ℚ)/1), ((0 : ℚ)/1), 0, ((0 : ℚ)/1), false⟩,
   ⟨((0 : ℚ)/1), ((0 : ℚ)/1), ((0 : ℚ)/1), ((0 : ℚ)/1), ((0 : ℚ)/1), ((0 : ℚ)/1), ((0 : ℚ)/1), 0, ((0 : ℚ)/1), false⟩,
   ⟨((0 : ℚ)/1), ((0 : ℚ)/1), ((0 : ℚ)/1), ((0 : ℚ)/1), ((0 : ℚ)/1), ((0 : ℚ)/1), ((0 : ℚ)/1), 0, ((0 : ℚ)/1), false⟩],
  [⟨((22930860224 : ℚ)/858993459), ((711834920 : ℚ)/16843009), ((57104689 : ℚ)/8589934590), ((-529264879 : ℚ)/1717986918), 1, ((9689020568 : ℚ)/1431655765), true⟩,
   ⟨((70543202496 : ℚ)/286331153), ((35478821510 : ℚ)/286331153), ((-775190687 : ℚ)/2863311530), ((-746685455 : ℚ)/1717986918), 2, ((14189084703 : ℚ)/1431655765), true⟩,
   ⟨((57335776576 : ℚ)/858993459), ((23618393020 : ℚ)/286331153), ((3988085459 : ℚ)/8589934590), ((51021127 : ℚ)/33686018), 5, ((40102894204 : ℚ)/4294967295), true⟩,
   ⟨((69545665792 : ℚ)/858993459), ((447369750 : ℚ)/16843009), ((3586586749 : ℚ)/8589934590), ((-962104141 : ℚ)/572662306), 5, ((13987072669 : ℚ)/1431655765), true⟩,
   ⟨((262767744064 : ℚ)/858993459), ((28886984720 : ℚ)/286331153), ((2181648371 : ℚ)/8589934590), ((3575388937 : ℚ)/1717986918), 2, ((14742883283 : ℚ)/4294967295), true⟩,
   ⟨((266303974144 : ℚ)/858993459), ((32351286470 : ℚ)/286331153), ((2545946803 : ℚ)/8589934590), ((788910425 : ℚ)/1717986918), 3, ((5691420349 : ℚ)/858993459), true⟩,
   ⟨((222541932160 : ℚ)/858993459), ((38475940820 : ℚ)/286331153), ((-62878881 : ℚ)/2863311530), ((-264021857 : ℚ)/572662306), 5, ((5382026348 : ℚ)/858993459), true⟩,
   ⟨((4307291968 : ℚ)/50529027), ((7506012050 : ℚ)/286331153), ((-1110460573 : ℚ)/2863311530), ((-2534156419 : ℚ)/1717986918), 1, ((25194535816 : ℚ)/4294967295), true⟩,
   ⟨((7275188224 : ℚ)/286331153), ((25332320370 : ℚ)/286331153), ((2083818497 : ℚ)/8589934590), ((-2764365413 : ℚ)/1717986918), 3, ((9544370867 : ℚ)/1431655765), true⟩,
   ⟨((71957501440 : ℚ)/286331153), ((20159675020 : ℚ)/286331153), ((694246023 : ℚ)/2863311530), ((-3102187841 : ℚ)/1717986918), 3, ((42665853701 : ℚ)/4294967295), true⟩,
   ⟨((62832522432 : ℚ)/286331153), ((31800943600 : ℚ)/286331153), ((-3823096049 : ℚ)/8589934590), ((570269231 : ℚ)/1717986918), 3, ((1773483791 : ℚ)/286331153), true⟩,
   ⟨((159054305600 : ℚ)/858993459), ((5622487230 : ℚ)/286331153), ((207436519 : ℚ)/8589934590), ((1136400013 : ℚ)/572662306), 3, ((2129588855 : ℚ)/286331153), true⟩,
   ⟨((7985977472 : ℚ)/50529027), ((39686844180 : ℚ)/286331153), ((191339411 : ℚ)/2863311530), ((-196804727 : ℚ)/1717986918), 3, ((30551975491 : ℚ)/4294967295), true⟩,
   ⟨((24579149632 : ℚ)/858993459), ((34662565880 : ℚ)/286331153), ((132044203 : ℚ)/505290270), ((-2228664647 : ℚ)/1717986918), 3, ((8498310026 : ℚ)/1431655765), true⟩,
   ⟨((82934668864 : ℚ)/858993459), ((38628040320 : ℚ)/286331153), ((-1668500747 : ℚ)/8589934590), ((-2944121827 : ℚ)/1717986918), 5, ((16451252792 : ℚ)/4294967295), true⟩,
   ⟨((3493540864 : ℚ)/286331153), ((18885632540 : ℚ)/286331153), ((148466107 : ℚ)/8589934590), ((-1742122291 : ℚ)/1717986918), 5, ((11991955944 : ℚ)/1431655765), true⟩,
   ⟨((3370476032 : ℚ)/16843009), ((14079183220 : ℚ)/286331153), ((492256669 : ℚ)/1717986918), ((821417241 : ℚ)/572662306), 1, ((18859267723 : ℚ)/4294967295), true⟩,
   ⟨((237869647168 : ℚ)/858993459), ((13696945600 : ℚ)/286331153), ((954336911 : ℚ)/8589934590), ((-2174998441 : ℚ)/1717986918), 2, ((22265041717 : ℚ)/4294967295), true⟩,
   ⟨((970573632 : ℚ)/286331153), ((12002499770 : ℚ)/286331153), ((28330841 : ℚ)/572662306), ((125095253 : ℚ)/572662306), 4, ((30961375139 : ℚ)/4294967295), true⟩,
   ⟨((46006799808 : ℚ)/286331153), ((11966360740 : ℚ)/286331153), ((-3576360781 : ℚ)/8589934590), ((808835633 : ℚ)/572662306), 4, ((1738362419 : ℚ)/252645135), true⟩,
   ⟨((63181034176 : ℚ)/286331153), ((2817834680 : ℚ)/286331153), ((879312621 : ℚ)/2863311530), ((3200400215 : ℚ)/1717986918), 2, ((7372751504 : ℚ)/858993459), true⟩,
   ⟨((265197979520 : ℚ)/858993459), ((7552996490 : ℚ)/286331153), ((46212181 : ℚ)/168430090), ((1023863007 : ℚ)/572662306), 3, ((7329529409 : ℚ)/858993459), true⟩,
   ⟨((245810611456 : ℚ)/858993459), ((22670663870 : ℚ)/286331153), ((597755351 : ℚ)/2863311530), ((-1327111473 : ℚ)/572662306), 3, ((1396283275 : ℚ)/286331153), true⟩,
   ⟨((213105961856 : ℚ)/858993459), ((28639260560 : ℚ)/286331153), ((-1545237119 : ℚ)/8589934590), ((-2803559957 : ℚ)/1717986918), 5, ((8620356797 : ℚ)/1431655765), true⟩,
   ⟨((2889556928 : ℚ)/50529027), ((31053020390 : ℚ)/286331153), ((231324309 : ℚ)/572662306), ((2479665209 : ℚ)/1717986918), 2, ((10309806734 : ℚ)/1431655765), true⟩,
   ⟨((59418497088 : ℚ)/286331153), ((27529466220 : ℚ)/286331153), ((-401286947 : ℚ)/8589934590), ((-1326027255 : ℚ)/572662306), 3, ((9787438839 : ℚ)/1431655765), true⟩,
   ⟨((11331420224 : ℚ)/286331153), ((22334258950 : ℚ)/286331153), ((565645711 : ℚ)/2863311530), ((3048930293 : ℚ)/1717986918), 5, ((5239121527 : ℚ)/1431655765), true⟩,
   ⟨((221529692288 : ℚ)/858993459), ((8158575320 : ℚ)/286331153), ((2370103159 : ℚ)/8589934590), ((206904993 : ℚ)/572662306), 4, ((23982552092 : ℚ)/4294967295), true⟩,
   ⟨((167139832064 : ℚ)/858993459), ((10431760120 : ℚ)/286331153), ((-3156244867 : ℚ)/8589934590), ((3507167605 : ℚ)/1717986918), 1, ((6882738589 : ℚ)/858993459), true⟩,
   ⟨((91271876608 : ℚ)/858993459), ((12950834760 : ℚ)/286331153), ((-1318952413 : ℚ)/8589934590), ((502918715 : ℚ)/572662306), 3, ((13772025647 : ℚ)/4294967295), true⟩,
   ⟨((30089212992 : ℚ)/286331153), ((3457677560 : ℚ)/286331153), ((-4119451477 : ℚ)/8589934590), ((587394139 : ℚ)/1717986918), 2, ((42463926962 : ℚ)/4294967295), true⟩,
   ⟨((142797281984 : ℚ)/858993459), ((29894538430 : ℚ)/286331153), ((2744480011 : ℚ)/8589934590), ((-1155379759 : ℚ)/1717986918), 2, ((40765592212 : ℚ)/4294967295), true⟩,
   ⟨((258634722112 : ℚ)/858993459), ((12722511120 : ℚ)/286331153), ((296684659 : ℚ)/2863311530), ((-1519657781 : ℚ)/1717986918), 1, ((35452342508 : ℚ)/4294967295), true⟩,
   ⟨((156614493184 : ℚ)/858993459), ((39457243160 : ℚ)/286331153), ((1868702629 : ℚ)/8589934590), ((-1018845531 : ℚ)/572662306), 2, ((6674018203 : ℚ)/858993459), true⟩,
   ⟨((11077333184 : ℚ)/858993459), ((12440431750 : ℚ)/286331153), ((86672413 : ℚ)/8589934590), ((-527632439 : ℚ)/1717986918), 2, ((1341906246 : ℚ)/286331153), true⟩,
   ⟨((220256260480 : ℚ)/858993459), ((40597584340 : ℚ)/286331153), ((-644363629 : ℚ)/8589934590), ((-3347659535 : ℚ)/1717986918), 3, ((4739741688 : ℚ)/1431655765), true⟩,
   ⟨((62204492032 : ℚ)/286331153), ((39788701760 : ℚ)/286331153), ((275273849 : ℚ)/1717986918), ((-855435395 : ℚ)/1717986918), 4, ((24270159223 : ℚ)/4294967295), true⟩,
   ⟨((226116168512 : ℚ)/858993459), ((1022638360 : ℚ)/16843009), ((2373118493 : ℚ)/8589934590), ((3590439557 : ℚ)/1717986918), 1, ((17127126431 : ℚ)/4294967295), true⟩,
   ⟨((15938591552 : ℚ)/858993459), ((39867241030 : ℚ)/286331153), ((-216973503 : ℚ)/572662306), ((2079543491 : ℚ)/1717986918), 3, ((40574810467 : ℚ)/4294967295), true⟩,
   ⟨((174164700608 : ℚ)/858993459), ((230563740 : ℚ)/286331153), ((3642625741 : ℚ)/8589934590), ((1219877 : ℚ)/572662306), 2, ((4987069247 : ℚ)/858993459), true⟩,
   ⟨((23225655168 : ℚ)/286331153), ((41024874070 : ℚ)/286331153), ((-1668010123 : ℚ)/8589934590), ((303013443 : ℚ)/572662306), 4, ((14303778247 : ℚ)/1431655765), true⟩,
   ⟨((17263454208 : ℚ)/286331153), ((18430284990 : ℚ)/286331153), ((-3670764929 : ℚ)/8589934590), ((-2816855677 : ℚ)/1717986918), 3, ((37372558729 : ℚ)/4294967295), true⟩,
   ⟨((88723174144 : ℚ)/286331153), ((20520437310 : ℚ)/286331153), ((-3941705261 : ℚ)/8589934590), ((-1293720253 : ℚ)/572662306), 3, ((25301118754 : ℚ)/4294967295), true⟩,
   ⟨((182372776448 : ℚ)/858993459), ((22909480100 : ℚ)/286331153), ((-59418749 : ℚ)/572662306), ((91165789 : ℚ)/572662306), 1, ((36239708164 : ℚ)/4294967295), true⟩,
   ⟨((123958092736 : ℚ)/858993459), ((22527332630 : ℚ)/286331153), ((-3332769293 : ℚ)/8589934590), ((1132470507 : ℚ)/572662306), 3, ((33725776576 : ℚ)/4294967295), true⟩,
   ⟨((16594392256 : ℚ)/286331153), ((29093853200 : ℚ)/286331153), ((4285923701 : ℚ)/8589934590), ((-732183079 : ℚ)/1717986918), 1, ((42647884876 : ℚ)/4294967295), true⟩,
   ⟨((3448310976 : ℚ)/286331153), ((32566637130 : ℚ)/286331153), ((1217669273 : ℚ)/2863311530), ((-2044247159 : ℚ)/1717986918), 5, ((7557715465 : ℚ)/858993459), true⟩,
   ⟨((3187462336 : ℚ)/50529027), ((962508470 : ℚ)/286331153), ((91202259 : ℚ)/2863311530), ((1701860825 : ℚ)/1717986918), 2, ((14881966927 : ℚ)/4294967295), true⟩,
   ⟨((0 : ℚ)/1), ((0 : ℚ)/1), ((0 : ℚ)/1), ((0 : ℚ)/1), 0, ((0 : ℚ)/1), false⟩,
   ⟨((0 : ℚ)/1), ((0 : ℚ)/1), ((0 : ℚ)/1), ((0 : ℚ)/1), 0, ((0 : ℚ)/1), false⟩],
  0, 48, ((1 : ℚ)/1), ((0 : ℚ)/1), ((0 : ℚ)/1), ((0 : ℚ)/1), ((0 : ℚ)/1), ((0 : ℚ)/1), Msg.empty, 0, 2, Scale.Minor, ((5 : ℚ)/1), ((1 : ℚ)/1), 6, ((1 : ℚ)/10), false, 285295006⟩

/-- Intermediate state 2 of the C3 counterexample run. -/
def cexS2 : ParticlesSystem :=
  ⟨[⟨((0 : ℚ)/1), ((0 : ℚ)/1), ((0 : ℚ)/1), ((0 : ℚ)/1), ((0 : ℚ)/1), ((0 : ℚ)/1), ((0 : ℚ)/1), 0, ((0 : ℚ)/1), false⟩,
   ⟨((0 : ℚ)/1), ((0 : ℚ)/1), ((0 : ℚ)/1), ((0 : ℚ)/1), ((0 : ℚ)/1), ((0 : ℚ)/1), ((0 : ℚ)/1), 0, ((0 : ℚ)/1), false⟩,
   ⟨((0 : ℚ)/1), ((0 : ℚ)/1), ((0 : ℚ)/1), ((0 : ℚ)/1), ((0 : ℚ)/1), ((0 : ℚ)/1), ((0 : ℚ)/1), 0, ((0 : ℚ)/1), false⟩,
   ⟨((0 : ℚ)/1), ((0 : ℚ)/1), ((0 : ℚ)/1), ((0 : ℚ)/1), ((0 : ℚ)/1), ((0 : ℚ)/1), ((0 : ℚ)/1), 0, ((0 : ℚ)/1), false⟩,
   ⟨((0 : ℚ)/1), ((0 : ℚ)/1), ((0 : ℚ)/1), ((0 : ℚ)/1), ((0 : ℚ)/1), ((0 : ℚ)/1), ((0 : ℚ)/1), 0, ((0 : ℚ)/1), false⟩,
   ⟨((0 : ℚ)/1), ((0 : ℚ)/1), ((0 : ℚ)/1), ((0 : ℚ)/1), ((0 : ℚ)/1), ((0 : ℚ)/1), ((0 : ℚ)/1), 0, ((0 : ℚ)/1), false⟩,
   ⟨((0 : ℚ)/1), ((0 : ℚ)/1), ((0 : ℚ)/1), ((0 : ℚ)/1), ((0 : ℚ)/1), ((0 : ℚ)/1), ((0 : ℚ)/1), 0, ((0 : ℚ)/1), false⟩,
   ⟨((0 : ℚ)/1), ((0 : ℚ)/1), ((0 : ℚ)/1), ((0 : ℚ)/1), ((0 : ℚ)/1), ((0 : ℚ)/1), ((0 : ℚ)/1), 0, ((0 : ℚ)/1), false⟩,
   ⟨((0 : ℚ)/1), ((0 : ℚ)/1), ((0 : ℚ)/1), ((0 : ℚ)/1), ((0 : ℚ)/1), ((0 : ℚ)/1), ((0 : ℚ)/1), 0, ((0 : ℚ)/1), false⟩,
   ⟨((0 : ℚ)/1), ((0 : ℚ)/1), ((0 : ℚ)/1), ((0 : ℚ)/1), ((0 : ℚ)/1), ((0 : ℚ)/1), ((0 : ℚ)/1), 0, ((0 : ℚ)/1), false⟩,
   ⟨((0 : ℚ)/1), ((0 : ℚ)/1), ((0 : ℚ)/1), ((0 : ℚ)/1), ((0 : ℚ)/1), ((0 : ℚ)/1), ((0 : ℚ)/1), 0, ((0 : ℚ)/1), false⟩,
   ⟨((0 : ℚ)/1), ((0 : ℚ)/1), ((0 : ℚ)/1), ((0 : ℚ)/1), ((0 : ℚ)/1), ((0 : ℚ)/1), ((0 : ℚ)/1), 0, ((0 : ℚ)/1), false⟩],
  [⟨((76455235643 : ℚ)/2863311530), ((72077896961 : ℚ)/1717986918), ((57104689 : ℚ)/8589934590), ((-529264879 : ℚ)/1717986918), 1, ((8257364803 : ℚ)/1431655765), true⟩,
   ⟨((704656834273 : ℚ)/2863311530), ((212126243605 : ℚ)/1717986918), ((-775190687 : ℚ)/2863311530), ((-746685455 : ℚ)/1717986918), 2, ((12757428938 : ℚ)/1431655765), true⟩,
   ⟨((192448617073 : ℚ)/2863311530), ((48104145199 : ℚ)/572662306), ((3988085459 : ℚ)/8589934590), ((51021127 : ℚ)/33686018), 5, ((35807926909 : ℚ)/4294967295), true⟩,
   ⟨((699043244669 : ℚ)/8589934590), ((14248467359 : ℚ)/572662306), ((3586586749 : ℚ)/8589934590), ((-962104141 : ℚ)/572662306), 5, ((12555416904 : ℚ)/1431655765), true⟩,
   ⟨((876619696337 : ℚ)/2863311530), ((176897297257 : ℚ)/1717986918), ((2181648371 : ℚ)/8589934590), ((3575388937 : ℚ)/1717986918), 2, ((10447915988 : ℚ)/4294967295), true⟩,
   ⟨((2665585688243 : ℚ)/8589934590), ((194896629245 : ℚ)/1717986918), ((2545946803 : ℚ)/8589934590), ((788910425 : ℚ)/1717986918), 3, ((4832426890 : ℚ)/858993459), true⟩,
   ⟨((2225230684957 : ℚ)/8589934590), ((76687859783 : ℚ)/572662306), ((-62878881 : ℚ)/2863311530), ((-264021857 : ℚ)/572662306), 5, ((4523032889 : ℚ)/858993459), true⟩,
   ⟨((728908252841 : ℚ)/8589934590), ((42501915881 : ℚ)/1717986918), ((-1110460573 : ℚ)/2863311530), ((-2534156419 : ℚ)/1717986918), 1, ((20899568521 : ℚ)/4294967295), true⟩,
   ⟨((220339465217 : ℚ)/8589934590), ((149229556807 : ℚ)/1717986918), ((2083818497 : ℚ)/8589934590), ((-2764365413 : ℚ)/1717986918), 3, ((8112715102 : ℚ)/1431655765), true⟩,
   ⟨((720269260423 : ℚ)/2863311530), ((117855862279 : ℚ)/1717986918), ((694246023 : ℚ)/2863311530), ((-3102187841 : ℚ)/1717986918), 3, ((38370886406 : ℚ)/4294967295), true⟩,
   ⟨((1881152576911 : ℚ)/8589934590), ((191375930831 : ℚ)/1717986918), ((-3823096049 : ℚ)/8589934590), ((570269231 : ℚ)/1717986918), 3, ((1487152638 : ℚ)/286331153), true⟩,
   ⟨((530250164173 : ℚ)/2863311530), ((12381374473 : ℚ)/572662306), ((207436519 : ℚ)/8589934590), ((1136400013 : ℚ)/572662306), 3, ((1843257702 : ℚ)/286331153), true⟩,
   ⟨((1358190188473 : ℚ)/8589934590), ((237924260353 : ℚ)/1717986918), ((191339411 : ℚ)/2863311530), ((-196804727 : ℚ)/1717986918), 3, ((26257008196 : ℚ)/4294967295), true⟩,
   ⟨((82678749257 : ℚ)/2863311530), ((205746730633 : ℚ)/1717986918), ((132044203 : ℚ)/505290270), ((-2228664647 : ℚ)/1717986918), 3, ((7066654261 : ℚ)/1431655765), true⟩,
   ⟨((48686952229 : ℚ)/505290270), ((228824120093 : ℚ)/1717986918), ((-1668500747 : ℚ)/8589934590), ((-2944121827 : ℚ)/1717986918), 5, ((12156285497 : ℚ)/4294967295), true⟩,
   ⟨((104954692027 : ℚ)/8589934590), ((111571672949 : ℚ)/1717986918), ((148466107 : ℚ)/8589934590), ((-1742122291 : ℚ)/1717986918), 5, ((10560300179 : ℚ)/1431655765), true⟩,
   ⟨((344280811933 : ℚ)/1717986918), ((28979783681 : ℚ)/572662306), ((492256669 : ℚ)/1717986918), ((821417241 : ℚ)/572662306), 1, ((14564300428 : ℚ)/4294967295), true⟩,
   ⟨((793216936197 : ℚ)/2863311530), ((80006675159 : ℚ)/1717986918), ((954336911 : ℚ)/8589934590), ((-2174998441 : ℚ)/1717986918), 2, ((17970074422 : ℚ)/4294967295), true⟩,
   ⟨((1969478105 : ℚ)/572662306), ((24130094793 : ℚ)/572662306), ((28330841 : ℚ)/572662306), ((125095253 : ℚ)/572662306), 4, ((26666407844 : ℚ)/4294967295), true⟩,
   ⟨((1376627633459 : ℚ)/8589934590), ((24741557113 : ℚ)/572662306), ((-3576360781 : ℚ)/8589934590), ((808835633 : ℚ)/572662306), 4, ((1485717284 : ℚ)/252645135), true⟩,
   ⟨((37217038493 : ℚ)/168430090), ((20107408295 : ℚ)/1717986918), ((879312621 : ℚ)/2863311530), ((3200400215 : ℚ)/1717986918), 2, ((6513758045 : ℚ)/858993459), true⟩,
   ⟨((2654336616431 : ℚ)/8589934590), ((16129855987 : ℚ)/572662306), ((46212181 : ℚ)/168430090), ((1023863007 : ℚ)/572662306), 3, ((6470535950 : ℚ)/858993459), true⟩,
   ⟨((2459899380613 : ℚ)/8589934590), ((44014216267 : ℚ)/572662306), ((597755351 : ℚ)/2863311530), ((-1327111473 : ℚ)/572662306), 3, ((1109952122 : ℚ)/286331153), true⟩,
   ⟨((709838127147 : ℚ)/2863311530), ((169032003403 : ℚ)/1717986918), ((-1545237119 : ℚ)/8589934590), ((-2803559957 : ℚ)/1717986918), 5, ((7188701032 : ℚ)/1431655765), true⟩,
   ⟨((98938908479 : ℚ)/1717986918), ((188797787549 : ℚ)/1717986918), ((231324309 : ℚ)/572662306), ((2479665209 : ℚ)/1717986918), 2, ((8878150969 : ℚ)/1431655765), true⟩,
   ⟨((1782153625693 : ℚ)/8589934590), ((53732905185 : ℚ)/572662306), ((-401286947 : ℚ)/8589934590), ((-1326027255 : ℚ)/572662306), 3, ((8355783074 : ℚ)/1431655765), true⟩,
   ⟨((113879847951 : ℚ)/2863311530), ((137054483993 : ℚ)/1717986918), ((565645711 : ℚ)/2863311530), ((3048930293 : ℚ)/1717986918), 5, ((3807465762 : ℚ)/1431655765), true⟩,
   ⟨((739222342013 : ℚ)/2863311530), ((16524055633 : ℚ)/572662306), ((2370103159 : ℚ)/8589934590), ((206904993 : ℚ)/572662306), 4, ((19687584797 : ℚ)/4294967295), true⟩,
   ⟨((1668242075773 : ℚ)/8589934590), ((66097728325 : ℚ)/1717986918), ((-3156244867 : ℚ)/8589934590), ((3507167605 : ℚ)/1717986918), 1, ((6023745130 : ℚ)/858993459), true⟩,
   ⟨((303799937889 : ℚ)/2863311530), ((26404588235 : ℚ)/572662306), ((-1318952413 : ℚ)/8589934590), ((502918715 : ℚ)/572662306), 3, ((9477058352 : ℚ)/4294967295), true⟩,
   ⟨((898556938283 : ℚ)/8589934590), ((21333459499 : ℚ)/1717986918), ((-4119451477 : ℚ)/8589934590), ((587394139 : ℚ)/1717986918), 2, ((38168959667 : ℚ)/4294967295), true⟩,
   ⟨((476905766617 : ℚ)/2863311530), ((178211850821 : ℚ)/1717986918), ((2744480011 : ℚ)/8589934590), ((-1155379759 : ℚ)/1717986918), 2, ((36470624917 : ℚ)/4294967295), true⟩,
   ⟨((2587237275097 : ℚ)/8589934590), ((74815408939 : ℚ)/1717986918), ((296684659 : ℚ)/2863311530), ((-1519657781 : ℚ)/1717986918), 1, ((31157375213 : ℚ)/4294967295), true⟩,
   ⟨((1568013634469 : ℚ)/8589934590), ((4582096517 : ℚ)/33686018), ((1868702629 : ℚ)/8589934590), ((-1018845531 : ℚ)/572662306), 2, ((5815024744 : ℚ)/858993459), true⟩,
   ⟨((36953334751 : ℚ)/2863311530), ((74114958061 : ℚ)/1717986918), ((86672413 : ℚ)/8589934590), ((-527632439 : ℚ)/1717986918), 2, ((1055575093 : ℚ)/286331153), true⟩,
   ⟨((733972747057 : ℚ)/2863311530), ((240237846505 : ℚ)/1717986918), ((-644363629 : ℚ)/8589934590), ((-3347659535 : ℚ)/1717986918), 3, ((3308085923 : ℚ)/1431655765), true⟩,
   ⟨((373502226041 : ℚ)/1717986918), ((237876775165 : ℚ)/1717986918), ((275273849 : ℚ)/1717986918), ((-855435395 : ℚ)/1717986918), 4, ((19975191928 : ℚ)/4294967295), true⟩,
   ⟨((2263534803613 : ℚ)/8589934590), ((107899552277 : ℚ)/1717986918), ((2373118493 : ℚ)/8589934590), ((3590439557 : ℚ)/1717986918), 1, ((12832159136 : ℚ)/4294967295), true⟩,
   ⟨((31226262595 : ℚ)/1717986918), ((241282989671 : ℚ)/1717986918), ((-216973503 : ℚ)/572662306), ((2079543491 : ℚ)/1717986918), 3, ((36279843172 : ℚ)/4294967295), true⟩,
   ⟨((581763210607 : ℚ)/2863311530), ((462347357 : ℚ)/572662306), ((3642625741 : ℚ)/8589934590), ((1219877 : ℚ)/572662306), 2, ((4128075788 : ℚ)/858993459), true⟩,
   ⟨((695101644917 : ℚ)/8589934590), ((82352761583 : ℚ)/572662306), ((-1668010123 : ℚ)/8589934590), ((303013443 : ℚ)/572662306), 4, ((12872122482 : ℚ)/1431655765), true⟩,
   ⟨((514232861311 : ℚ)/8589934590), ((107764854263 : ℚ)/1717986918), ((-3670764929 : ℚ)/8589934590), ((-2816855677 : ℚ)/1717986918), 3, ((33077591434 : ℚ)/4294967295), true⟩,
   ⟨((2657753519059 : ℚ)/8589934590), ((39747154367 : ℚ)/572662306), ((-3941705261 : ℚ)/8589934590), ((-1293720253 : ℚ)/572662306), 3, ((21006151459 : ℚ)/4294967295), true⟩,
   ⟨((21445135097 : ℚ)/101058054), ((45910125989 : ℚ)/572662306), ((-59418749 : ℚ)/572662306), ((91165789 : ℚ)/572662306), 1, ((31944740869 : ℚ)/4294967295), true⟩,
   ⟨((1236248158067 : ℚ)/8589934590), ((46187135767 : ℚ)/572662306), ((-3332769293 : ℚ)/8589934590), ((1132470507 : ℚ)/572662306), 3, ((29430809281 : ℚ)/4294967295), true⟩,
   ⟨((502117691381 : ℚ)/8589934590), ((173830936121 : ℚ)/1717986918), ((4285923701 : ℚ)/8589934590), ((-732183079 : ℚ)/1717986918), 1, ((38352917581 : ℚ)/4294967295), true⟩,
   ⟨((35700779033 : ℚ)/2863311530), ((193355575621 : ℚ)/1717986918), ((1217669273 : ℚ)/2863311530), ((-2044247159 : ℚ)/1717986918), 5, ((6698722006 : ℚ)/858993459), true⟩,
   ⟨((542142203897 : ℚ)/8589934590), ((7476911645 : ℚ)/1717986918), ((91202259 : ℚ)/2863311530), ((1701860825 : ℚ)/1717986918), 2, ((10586999632 : ℚ)/4294967295), true⟩,
   ⟨((0 : ℚ)/1), ((0 : ℚ)/1), ((0 : ℚ)/1), ((0 : ℚ)/1), 0, ((0 : ℚ)/1), false⟩,
   ⟨((0 : ℚ)/1), ((0 : ℚ)/1), ((0 : ℚ)/1), ((0 : ℚ)/1), 0, ((0 : ℚ)/1), false⟩],
  0, 48, ((2 : ℚ)/1), ((0 : ℚ)/1), ((0 : ℚ)/1), ((0 : ℚ)/1), ((0 : ℚ)/1), ((0 : ℚ)/1), Msg.empty, 0, 2, Scale.Minor, ((5 : ℚ)/1), ((1 : ℚ)/1), 6, ((1 : ℚ)/10), false, 526466535⟩

/-- Intermediate state 3 of the C3 counterexample run. -/
def cexS3 : ParticlesSystem :=
  ⟨[⟨((0 : ℚ)/1), ((0 : ℚ)/1), ((0 : ℚ)/1), ((0 : ℚ)/1), ((0 : ℚ)/1), ((0 : ℚ)/1), ((0 : ℚ)/1), 0, ((0 : ℚ)/1), false⟩,
   ⟨((0 : ℚ)/1), ((0 : ℚ)/1), ((0 : ℚ)/1), ((0 : ℚ)/1), ((0 : ℚ)/1), ((0 : ℚ)/1), ((0 : ℚ)/1), 0, ((0 : ℚ)/1), false⟩,
   ⟨((0 : ℚ)/1), ((0 : ℚ)/1), ((0 : ℚ)/1), ((0 : ℚ)/1), ((0 : ℚ)/1), ((0 : ℚ)/1), ((0 : ℚ)/1), 0, ((0 : ℚ)/1), false⟩,
   ⟨((0 : ℚ)/1), ((0 : ℚ)/1), ((0 : ℚ)/1), ((0 : ℚ)/1), ((0 : ℚ)/1), ((0 : ℚ)/1), ((0 : ℚ)/1), 0, ((0 : ℚ)/1), false⟩,
   ⟨((0 : ℚ)/1), ((0 : ℚ)/1), ((0 : ℚ)/1), ((0 : ℚ)/1), ((0 : ℚ)/1), ((0 : ℚ)/1), ((0 : ℚ)/1), 0, ((0 : ℚ)/1), false⟩,
   ⟨((0 : ℚ)/1), ((0 : ℚ)/1), ((0 : ℚ)/1), ((0 : ℚ)/1), ((0 : ℚ)/1), ((0 : ℚ)/1), ((0 : ℚ)/1), 0, ((0 : ℚ)/1), false⟩,
   ⟨((0 : ℚ)/1), ((0 : ℚ)/1), ((0 : ℚ)/1), ((0 : ℚ)/1), ((0 : ℚ)/1), ((0 : ℚ)/1), ((0 : ℚ)/1), 0, ((0 : ℚ)/1), false⟩,
   ⟨((0 : ℚ)/1), ((0 : ℚ)/1), ((0 : ℚ)/1), ((0 : ℚ)/1), ((0 : ℚ)/1), ((0 : ℚ)/1), ((0 : ℚ)/1), 0, ((0 : ℚ)/1), false⟩,
   ⟨((0 : ℚ)/1), ((0 : ℚ)/1), ((0 : ℚ)/1), ((0 : ℚ)/1), ((0 : ℚ)/1), ((0 : ℚ)/1), ((0 : ℚ)/1), 0, ((0 : ℚ)/1), false⟩,
   ⟨((0 : ℚ)/1), ((0 : ℚ)/1), ((0 : ℚ)/1), ((0 : ℚ)/1), ((0 : ℚ)/1), ((0 : ℚ)/1), ((0 : ℚ)/1), 0, ((0 : ℚ)/1), false⟩,
   ⟨((0 : ℚ)/1), ((0 : ℚ)/1), ((0 : ℚ)/1), ((0 : ℚ)/1), ((0 : ℚ)/1), ((0 : ℚ)/1), ((0 : ℚ)/1), 0, ((0 : ℚ)/1), false⟩,
   ⟨((0 : ℚ)/1), ((0 : ℚ)/1), ((0 : ℚ)/1), ((0 : ℚ)/1), ((0 : ℚ)/1), ((0 : ℚ)/1), ((0 : ℚ)/1), 0, ((0 : ℚ)/1), false⟩],
  [⟨((114711405809 : ℚ)/4294967295), ((35774316041 : ℚ)/858993459), ((57104689 : ℚ)/8589934590), ((-529264879 : ℚ)/1717986918), 1, ((6825709038 : ℚ)/1431655765), true⟩,
   ⟨((351940821793 : ℚ)/1431655765), ((105689779075 : ℚ)/858993459), ((-775190687 : ℚ)/2863311530), ((-746685455 : ℚ)/1717986918), 2, ((11325773173 : ℚ)/1431655765), true⟩,
   ⟨((290666968339 : ℚ)/4294967295), ((24485752179 : ℚ)/286331153), ((3988085459 : ℚ)/8589934590), ((51021127 : ℚ)/33686018), 5, ((31512959614 : ℚ)/4294967295), true⟩,
   ⟨((6888527759 : ℚ)/84215045), ((6643181609 : ℚ)/286331153), ((3586586749 : ℚ)/8589934590), ((-962104141 : ℚ)/572662306), 5, ((11123761139 : ℚ)/1431655765), true⟩,
   ⟨((1316020368691 : ℚ)/4294967295), ((90236343097 : ℚ)/858993459), ((2181648371 : ℚ)/8589934590), ((3575388937 : ℚ)/1717986918), 2, ((6152948693 : ℚ)/4294967295), true⟩,
   ⟨((444688605841 : ℚ)/1431655765), ((97842769835 : ℚ)/858993459), ((2545946803 : ℚ)/8589934590), ((788910425 : ℚ)/1717986918), 3, ((3973433431 : ℚ)/858993459), true⟩,
   ⟨((1112521024157 : ℚ)/4294967295), ((2247759939 : ℚ)/16843009), ((-62878881 : ℚ)/2863311530), ((-264021857 : ℚ)/572662306), 5, ((3664039430 : ℚ)/858993459), true⟩,
   ⟨((362788435561 : ℚ)/4294967295), ((19983879731 : ℚ)/858993459), ((-1110460573 : ℚ)/2863311530), ((-2534156419 : ℚ)/1717986918), 1, ((16604601226 : ℚ)/4294967295), true⟩,
   ⟨((111211641857 : ℚ)/4294967295), ((73232595697 : ℚ)/858993459), ((2083818497 : ℚ)/8589934590), ((-2764365413 : ℚ)/1717986918), 3, ((6681059337 : ℚ)/1431655765), true⟩,
   ⟨((360481753223 : ℚ)/1431655765), ((57376837219 : ℚ)/858993459), ((694246023 : ℚ)/2863311530), ((-3102187841 : ℚ)/1717986918), 3, ((34075919111 : ℚ)/4294967295), true⟩,
   ⟨((938664740431 : ℚ)/4294967295), ((95973100031 : ℚ)/858993459), ((-3823096049 : ℚ)/8589934590), ((570269231 : ℚ)/1717986918), 3, ((1200821485 : ℚ)/286331153), true⟩,
   ⟨((795478964519 : ℚ)/4294967295), ((6758887243 : ℚ)/286331153), ((207436519 : ℚ)/8589934590), ((1136400013 : ℚ)/572662306), 3, ((1556926549 : ℚ)/286331153), true⟩,
   ⟨((679382103353 : ℚ)/4294967295), ((6991983989 : ℚ)/50529027), ((191339411 : ℚ)/2863311530), ((-196804727 : ℚ)/1717986918), 3, ((21962040901 : ℚ)/4294967295), true⟩,
   ⟨((125140499611 : ℚ)/4294967295), ((101759032993 : ℚ)/858993459), ((132044203 : ℚ)/505290270), ((-2228664647 : ℚ)/1717986918), 3, ((5634998496 : ℚ)/1431655765), true⟩,
   ⟨((137668281191 : ℚ)/1431655765), ((112939999133 : ℚ)/858993459), ((-1668500747 : ℚ)/8589934590), ((-2944121827 : ℚ)/1717986918), 5, ((7861318202 : ℚ)/4294967295), true⟩,
   ⟨((52551579067 : ℚ)/4294967295), ((54914775329 : ℚ)/858993459), ((148466107 : ℚ)/8589934590), ((-1742122291 : ℚ)/1717986918), 5, ((9128644414 : ℚ)/1431655765), true⟩,
   ⟨((172386534301 : ℚ)/858993459), ((14900600461 : ℚ)/286331153), ((492256669 : ℚ)/1717986918), ((821417241 : ℚ)/572662306), 1, ((10269333133 : ℚ)/4294967295), true⟩,
   ⟨((1190302572751 : ℚ)/4294967295), ((38915838359 : ℚ)/858993459), ((954336911 : ℚ)/8589934590), ((-2174998441 : ℚ)/1717986918), 2, ((13675107127 : ℚ)/4294967295), true⟩,
   ⟨((998904473 : ℚ)/286331153), ((12127595023 : ℚ)/286331153), ((28330841 : ℚ)/572662306), ((125095253 : ℚ)/572662306), 4, ((22371440549 : ℚ)/4294967295), true⟩,
   ⟨((686525636339 : ℚ)/4294967295), ((12775196373 : ℚ)/286331153), ((-3576360781 : ℚ)/8589934590), ((808835633 : ℚ)/572662306), 4, ((1233072149 : ℚ)/252645135), true⟩,
   ⟨((316784483501 : ℚ)/1431655765), ((11653904255 : ℚ)/858993459), ((879312621 : ℚ)/2863311530), ((3200400215 : ℚ)/1717986918), 2, ((5654764586 : ℚ)/858993459), true⟩,
   ⟨((1328346718831 : ℚ)/4294967295), ((8576859497 : ℚ)/286331153), ((46212181 : ℚ)/168430090), ((1023863007 : ℚ)/572662306), 3, ((5611542491 : ℚ)/858993459), true⟩,
   ⟨((1230846323333 : ℚ)/4294967295), ((21343552397 : ℚ)/286331153), ((597755351 : ℚ)/2863311530), ((-1327111473 : ℚ)/572662306), 3, ((823620969 : ℚ)/286331153), true⟩,
   ⟨((1063984572161 : ℚ)/4294967295), ((83114221723 : ℚ)/858993459), ((-1545237119 : ℚ)/8589934590), ((-2803559957 : ℚ)/1717986918), 5, ((5757045267 : ℚ)/1431655765), true⟩,
   ⟨((49816440703 : ℚ)/858993459), ((95638726379 : ℚ)/858993459), ((231324309 : ℚ)/572662306), ((2479665209 : ℚ)/1717986918), 2, ((7446495204 : ℚ)/1431655765), true⟩,
   ⟨((890876169373 : ℚ)/4294967295), ((26203438965 : ℚ)/286331153), ((-401286947 : ℚ)/8589934590), ((-1326027255 : ℚ)/572662306), 3, ((6924127309 : ℚ)/1431655765), true⟩,
   ⟨((57222746831 : ℚ)/1431655765), ((70051707143 : ℚ)/858993459), ((565645711 : ℚ)/2863311530), ((3048930293 : ℚ)/1717986918), 5, ((2375809997 : ℚ)/1431655765), true⟩,
   ⟨((1110018564599 : ℚ)/4294967295), ((8365480313 : ℚ)/286331153), ((2370103159 : ℚ)/8589934590), ((206904993 : ℚ)/572662306), 4, ((15392617502 : ℚ)/4294967295), true⟩,
   ⟨((277514305151 : ℚ)/1431655765), ((34802447965 : ℚ)/858993459), ((-3156244867 : ℚ)/8589934590), ((3507167605 : ℚ)/1717986918), 1, ((5164751671 : ℚ)/858993459), true⟩,
   ⟨((455040430627 : ℚ)/4294967295), ((13453753475 : ℚ)/286331153), ((-1318952413 : ℚ)/8589934590), ((502918715 : ℚ)/572662306), 3, ((5182091057 : ℚ)/4294967295), true⟩,
   ⟨((447218743403 : ℚ)/4294967295), ((10960426819 : ℚ)/858993459), ((-4119451477 : ℚ)/8589934590), ((587394139 : ℚ)/1717986918), 2, ((33873992372 : ℚ)/4294967295), true⟩,
   ⟨((716730889931 : ℚ)/4294967295), ((88528235531 : ℚ)/858993459), ((2744480011 : ℚ)/8589934590), ((-1155379759 : ℚ)/1717986918), 2, ((32175657622 : ℚ)/4294967295), true⟩,
   ⟨((1294063664537 : ℚ)/4294967295), ((2155757387 : ℚ)/50529027), ((296684659 : ℚ)/2863311530), ((-1519657781 : ℚ)/1717986918), 1, ((26862407918 : ℚ)/4294967295), true⟩,
   ⟨((261647056183 : ℚ)/1431655765), ((38438397629 : ℚ)/286331153), ((1868702629 : ℚ)/8589934590), ((-1018845531 : ℚ)/572662306), 2, ((4956031285 : ℚ)/858993459), true⟩,
   ⟨((3263137549 : ℚ)/252645135), ((36793662811 : ℚ)/858993459), ((86672413 : ℚ)/8589934590), ((-527632439 : ℚ)/1717986918), 2, ((769243940 : ℚ)/286331153), true⟩,
   ⟨((4282634003 : ℚ)/16711935), ((118445093485 : ℚ)/858993459), ((-644363629 : ℚ)/8589934590), ((-3347659535 : ℚ)/1717986918), 3, ((1876430158 : ℚ)/1431655765), true⟩,
   ⟨((186888749945 : ℚ)/858993459), ((118510669885 : ℚ)/858993459), ((275273849 : ℚ)/1717986918), ((-855435395 : ℚ)/1717986918), 4, ((15680224633 : ℚ)/4294967295), true⟩,
   ⟨((377651320351 : ℚ)/1431655765), ((55744995917 : ℚ)/858993459), ((2373118493 : ℚ)/8589934590), ((3590439557 : ℚ)/1717986918), 1, ((8537191841 : ℚ)/4294967295), true⟩,
   ⟨((15287671043 : ℚ)/858993459), ((121681266581 : ℚ)/858993459), ((-216973503 : ℚ)/572662306), ((2079543491 : ℚ)/1717986918), 3, ((31984875877 : ℚ)/4294967295), true⟩,
   ⟨((874466128781 : ℚ)/4294967295), ((231783617 : ℚ)/286331153), ((3642625741 : ℚ)/8589934590), ((1219877 : ℚ)/572662306), 2, ((3269082329 : ℚ)/858993459), true⟩,
   ⟨((346716817397 : ℚ)/4294967295), ((41327887513 : ℚ)/286331153), ((-1668010123 : ℚ)/8589934590), ((303013443 : ℚ)/572662306), 4, ((11440466717 : ℚ)/1431655765), true⟩,
   ⟨((255281048191 : ℚ)/4294967295), ((52473999293 : ℚ)/858993459), ((-3670764929 : ℚ)/8589934590), ((-2816855677 : ℚ)/1717986918), 3, ((28782624139 : ℚ)/4294967295), true⟩,
   ⟨((1326905906899 : ℚ)/4294967295), ((19226717057 : ℚ)/286331153), ((-3941705261 : ℚ)/8589934590), ((-1293720253 : ℚ)/572662306), 3, ((16711184164 : ℚ)/4294967295), true⟩,
   ⟨((182194520201 : ℚ)/858993459), ((23000645889 : ℚ)/286331153), ((-59418749 : ℚ)/572662306), ((91165789 : ℚ)/572662306), 1, ((27649773574 : ℚ)/4294967295), true⟩,
   ⟨((205485898129 : ℚ)/1431655765), ((23659803137 : ℚ)/286331153), ((-3332769293 : ℚ)/8589934590), ((1132470507 : ℚ)/572662306), 3, ((25135841986 : ℚ)/4294967295), true⟩,
   ⟨((14894223973 : ℚ)/252645135), ((86549376521 : ℚ)/858993459), ((4285923701 : ℚ)/8589934590), ((-732183079 : ℚ)/1717986918), 1, ((34057950286 : ℚ)/4294967295), true⟩,
   ⟨((18459224153 : ℚ)/1431655765), ((95655664231 : ℚ)/858993459), ((1217669273 : ℚ)/2863311530), ((-2044247159 : ℚ)/1717986918), 5, ((5839728547 : ℚ)/858993459), true⟩,
   ⟨((271207905337 : ℚ)/4294967295), ((4589386235 : ℚ)/858993459), ((91202259 : ℚ)/2863311530), ((1701860825 : ℚ)/1717986918), 2, ((6292032337 : ℚ)/4294967295), true⟩,
   ⟨((0 : ℚ)/1), ((0 : ℚ)/1), ((0 : ℚ)/1), ((0 : ℚ)/1), 0, ((0 : ℚ)/1), false⟩,
   ⟨((0 : ℚ)/1), ((0 : ℚ)/1), ((0 : ℚ)/1), ((0 : ℚ)/1), 0, ((0 : ℚ)/1), false⟩],
  0, 48, ((3 : ℚ)/1), ((0 : ℚ)/1), ((0 : ℚ)/1), ((0 : ℚ)/1), ((0 : ℚ)/1), ((0 : ℚ)/1), Msg.empty, 0, 2, Scale.Minor, ((5 : ℚ)/1), ((1 : ℚ)/1), 6, ((1 : ℚ)/10), false, 593883305⟩

/-- Intermediate state 4 of the C3 counterexample run. -/
def cexS4 : ParticlesSystem :=
  ⟨[⟨((0 : ℚ)/1), ((0 : ℚ)/1), ((0 : ℚ)/1), ((0 : ℚ)/1), ((0 : ℚ)/1), ((0 : ℚ)/1), ((0 : ℚ)/1), 0, ((0 : ℚ)/1), false⟩,
   ⟨((0 : ℚ)/1), ((0 : ℚ)/1), ((0 : ℚ)/1), ((0 : ℚ)/1), ((0 : ℚ)/1), ((0 : ℚ)/1), ((0 : ℚ)/1), 0, ((0 : ℚ)/1), false⟩,
   ⟨((0 : ℚ)/1), ((0 : ℚ)/1), ((0 : ℚ)/1), ((0 : ℚ)/1), ((0 : ℚ)/1), ((0 : ℚ)/1), ((0 : ℚ)/1), 0, ((0 : ℚ)/1), false⟩,
   ⟨((0 : ℚ)/1), ((0 : ℚ)/1), ((0 : ℚ)/1), ((0 : ℚ)/1), ((0 : ℚ)/1), ((0 : ℚ)/1), ((0 : ℚ)/1), 0, ((0 : ℚ)/1), false⟩,
   ⟨((0 : ℚ)/1), ((0 : ℚ)/1), ((0 : ℚ)/1), ((0 : ℚ)/1), ((0 : ℚ)/1), ((0 : ℚ)/1), ((0 : ℚ)/1), 0, ((0 : ℚ)/1), false⟩,
   ⟨((0 : ℚ)/1), ((0 : ℚ)/1), ((0 : ℚ)/1), ((0 : ℚ)/1), ((0 : ℚ)/1), ((0 : ℚ)/1), ((0 : ℚ)/1), 0, ((0 : ℚ)/1), false⟩,
   ⟨((0 : ℚ)/1), ((0 : ℚ)/1), ((0 : ℚ)/1), ((0 : ℚ)/1), ((0 : ℚ)/1), ((0 : ℚ)/1), ((0 : ℚ)/1), 0, ((0 : ℚ)/1), false⟩,
   ⟨((0 : ℚ)/1), ((0 : ℚ)/1), ((0 : ℚ)/1), ((0 : ℚ)/1), ((0 : ℚ)/1), ((0 : ℚ)/1), ((0 : ℚ)/1), 0, ((0 : ℚ)/1), false⟩,
   ⟨((0 : ℚ)/1), ((0 : ℚ)/1), ((0 : ℚ)/1), ((0 : ℚ)/1), ((0 : ℚ)/1), ((0 : ℚ)/1), ((0 : ℚ)/1), 0, ((0 : ℚ)/1), false⟩,
   ⟨((0 : ℚ)/1), ((0 : ℚ)/1), ((0 : ℚ)/1), ((0 : ℚ)/1), ((0 : ℚ)/1), ((0 : ℚ)/1), ((0 : ℚ)/1), 0, ((0 : ℚ)/1), false⟩,
   ⟨((0 : ℚ)/1), ((0 : ℚ)/1), ((0 : ℚ)/1), ((0 : ℚ)/1), ((0 : ℚ)/1), ((0 : ℚ)/1), ((0 : ℚ)/1), 0, ((0 : ℚ)/1), false⟩,
   ⟨((0 : ℚ)/1), ((0 : ℚ)/1), ((0 : ℚ)/1), ((0 : ℚ)/1), ((0 : ℚ)/1), ((0 : ℚ)/1), ((0 : ℚ)/1), 0, ((0 : ℚ)/1), false⟩],
  [⟨((229479916307 : ℚ)/8589934590), ((23673122401 : ℚ)/572662306), ((57104689 : ℚ)/8589934590), ((-529264879 : ℚ)/1717986918), 1, ((5394053273 : ℚ)/1431655765), true⟩,
   ⟨((703106452899 : ℚ)/2863311530), ((70210957565 : ℚ)/572662306), ((-775190687 : ℚ)/2863311530), ((-746685455 : ℚ)/1717986918), 2, ((9894117408 : ℚ)/1431655765), true⟩,
   ⟨((585322022137 : ℚ)/8589934590), ((49838863517 : ℚ)/572662306), ((3988085459 : ℚ)/8589934590), ((51021127 : ℚ)/33686018), 5, ((27217992319 : ℚ)/4294967295), true⟩,
   ⟨((706216418167 : ℚ)/8589934590), ((12324259077 : ℚ)/572662306), ((3586586749 : ℚ)/8589934590), ((-962104141 : ℚ)/572662306), 5, ((9692105374 : ℚ)/1431655765), true⟩,
   ⟨((2634222385753 : ℚ)/8589934590), ((61349358377 : ℚ)/572662306), ((2181648371 : ℚ)/8589934590), ((3575388937 : ℚ)/1717986918), 2, ((1857981398 : ℚ)/4294967295), true⟩,
   ⟨((2670677581849 : ℚ)/8589934590), ((65491483365 : ℚ)/572662306), ((2545946803 : ℚ)/8589934590), ((788910425 : ℚ)/1717986918), 3, ((3114439972 : ℚ)/858993459), true⟩,
   ⟨((2224853411671 : ℚ)/8589934590), ((76159816069 : ℚ)/572662306), ((-62878881 : ℚ)/2863311530), ((-264021857 : ℚ)/572662306), 5, ((2805045971 : ℚ)/858993459), true⟩,
   ⟨((722245489403 : ℚ)/8589934590), ((12477867681 : ℚ)/572662306), ((-1110460573 : ℚ)/2863311530), ((-2534156419 : ℚ)/1717986918), 1, ((12309633931 : ℚ)/4294967295), true⟩,
   ⟨((74835700737 : ℚ)/2863311530), ((47900275327 : ℚ)/572662306), ((2083818497 : ℚ)/8589934590), ((-2764365413 : ℚ)/1717986918), 3, ((5249403572 : ℚ)/1431655765), true⟩,
   ⟨((721657752469 : ℚ)/2863311530), ((37217162199 : ℚ)/572662306), ((694246023 : ℚ)/2863311530), ((-3102187841 : ℚ)/1717986918), 3, ((29780951816 : ℚ)/4294967295), true⟩,
   ⟨((624502128271 : ℚ)/2863311530), ((64172156431 : ℚ)/572662306), ((-3823096049 : ℚ)/8589934590), ((570269231 : ℚ)/1717986918), 3, ((914490332 : ℚ)/286331153), true⟩,
   ⟨((1591165365557 : ℚ)/8589934590), ((14654174499 : ℚ)/572662306), ((207436519 : ℚ)/8589934590), ((1136400013 : ℚ)/572662306), 3, ((1270595396 : ℚ)/286331153), true⟩,
   ⟨((1359338224939 : ℚ)/8589934590), ((79176883633 : ℚ)/572662306), ((191339411 : ℚ)/2863311530), ((-196804727 : ℚ)/1717986918), 3, ((17667073606 : ℚ)/4294967295), true⟩,
   ⟨((252525750673 : ℚ)/8589934590), ((67096467113 : ℚ)/572662306), ((132044203 : ℚ)/505290270), ((-2228664647 : ℚ)/1717986918), 3, ((4203342731 : ℚ)/1431655765), true⟩,
   ⟨((824341186399 : ℚ)/8589934590), ((74311958813 : ℚ)/572662306), ((-1668500747 : ℚ)/8589934590), ((-2944121827 : ℚ)/1717986918), 5, ((3566350907 : ℚ)/4294967295), true⟩,
   ⟨((35083874747 : ℚ)/2863311530), ((36029142789 : ℚ)/572662306), ((148466107 : ℚ)/8589934590), ((-1742122291 : ℚ)/1717986918), 5, ((7696988649 : ℚ)/1431655765), true⟩,
   ⟨((115088441757 : ℚ)/572662306), ((30622618163 : ℚ)/572662306), ((492256669 : ℚ)/1717986918), ((821417241 : ℚ)/572662306), 1, ((5974365838 : ℚ)/4294967295), true⟩,
   ⟨((2381559482413 : ℚ)/8589934590), ((25218892759 : ℚ)/572662306), ((954336911 : ℚ)/8589934590), ((-2174998441 : ℚ)/1717986918), 2, ((9380139832 : ℚ)/4294967295), true⟩,
   ⟨((2026139787 : ℚ)/572662306), ((24380285299 : ℚ)/572662306), ((28330841 : ℚ)/572662306), ((125095253 : ℚ)/572662306), 4, ((18076473254 : ℚ)/4294967295), true⟩,
   ⟨((456491637299 : ℚ)/2863311530), ((26359228379 : ℚ)/572662306), ((-3576360781 : ℚ)/8589934590), ((808835633 : ℚ)/572662306), 4, ((980427014 : ℚ)/252645135), true⟩,
   ⟨((634448279623 : ℚ)/2863311530), ((8836069575 : ℚ)/572662306), ((879312621 : ℚ)/2863311530), ((3200400215 : ℚ)/1717986918), 2, ((4795771127 : ℚ)/858993459), true⟩,
   ⟨((2659050258893 : ℚ)/8589934590), ((18177582001 : ℚ)/572662306), ((46212181 : ℚ)/168430090), ((1023863007 : ℚ)/572662306), 3, ((4752549032 : ℚ)/858993459), true⟩,
   ⟨((2463485912719 : ℚ)/8589934590), ((41359993321 : ℚ)/572662306), ((597755351 : ℚ)/2863311530), ((-1327111473 : ℚ)/572662306), 3, ((537289816 : ℚ)/286331153), true⟩,
   ⟨((2126423907203 : ℚ)/8589934590), ((54474961163 : ℚ)/572662306), ((-1545237119 : ℚ)/8589934590), ((-2803559957 : ℚ)/1717986918), 5, ((4325389502 : ℚ)/1431655765), true⟩,
   ⟨((100326854333 : ℚ)/1717986918), ((64585705989 : ℚ)/572662306), ((231324309 : ℚ)/572662306), ((2479665209 : ℚ)/1717986918), 2, ((6014839439 : ℚ)/1431655765), true⟩,
   ⟨((593783683933 : ℚ)/2863311530), ((51080850675 : ℚ)/572662306), ((-401286947 : ℚ)/8589934590), ((-1326027255 : ℚ)/572662306), 3, ((5492471544 : ℚ)/1431655765), true⟩,
   ⟨((115011139373 : ℚ)/2863311530), ((47717448193 : ℚ)/572662306), ((565645711 : ℚ)/2863311530), ((3048930293 : ℚ)/1717986918), 5, ((944154232 : ℚ)/1431655765), true⟩,
   ⟨((2222407232357 : ℚ)/8589934590), ((16937865619 : ℚ)/572662306), ((2370103159 : ℚ)/8589934590), ((206904993 : ℚ)/572662306), 4, ((11097650207 : ℚ)/4294967295), true⟩,
   ⟨((1661929586039 : ℚ)/8589934590), ((24370687845 : ℚ)/572662306), ((-3156244867 : ℚ)/8589934590), ((3507167605 : ℚ)/1717986918), 1, ((4305758212 : ℚ)/858993459), true⟩,
   ⟨((53456582873 : ℚ)/505290270), ((27410425665 : ℚ)/572662306), ((-1318952413 : ℚ)/8589934590), ((502918715 : ℚ)/572662306), 3, ((887123762 : ℚ)/4294967295), true⟩,
   ⟨((17457216379 : ℚ)/168430090), ((7502749259 : ℚ)/572662306), ((-4119451477 : ℚ)/8589934590), ((587394139 : ℚ)/1717986918), 2, ((29579025077 : ℚ)/4294967295), true⟩,
   ⟨((84482721169 : ℚ)/505290270), ((58633697101 : ℚ)/572662306), ((2744480011 : ℚ)/8589934590), ((-1155379759 : ℚ)/1717986918), 2, ((27880690327 : ℚ)/4294967295), true⟩,
   ⟨((2589017383051 : ℚ)/8589934590), ((23925364459 : ℚ)/572662306), ((296684659 : ℚ)/2863311530), ((-1519657781 : ℚ)/1717986918), 1, ((22567440623 : ℚ)/4294967295), true⟩,
   ⟨((1571751039727 : ℚ)/8589934590), ((75857949727 : ℚ)/572662306), ((1868702629 : ℚ)/8589934590), ((-1018845531 : ℚ)/572662306), 2, ((4097037826 : ℚ)/858993459), true⟩,
   ⟨((111033349079 : ℚ)/8589934590), ((24353231061 : ℚ)/572662306), ((86672413 : ℚ)/8589934590), ((-527632439 : ℚ)/1717986918), 2, ((482912787 : ℚ)/286331153), true⟩,
   ⟨((2200629513913 : ℚ)/8589934590), ((77847509145 : ℚ)/572662306), ((-644363629 : ℚ)/8589934590), ((-3347659535 : ℚ)/1717986918), 3, ((444774393 : ℚ)/1431655765), true⟩,
   ⟨((124684257913 : ℚ)/572662306), ((78721968125 : ℚ)/572662306), ((275273849 : ℚ)/1717986918), ((-855435395 : ℚ)/1717986918), 4, ((11385257338 : ℚ)/4294967295), true⟩,
   ⟨((2268281040599 : ℚ)/8589934590), ((38360143797 : ℚ)/572662306), ((2373118493 : ℚ)/8589934590), ((3590439557 : ℚ)/1717986918), 1, ((4242224546 : ℚ)/4294967295), true⟩,
   ⟨((29924421577 : ℚ)/1717986918), ((81814025551 : ℚ)/572662306), ((-216973503 : ℚ)/572662306), ((2079543491 : ℚ)/1717986918), 3, ((27689908582 : ℚ)/4294967295), true⟩,
   ⟨((1752574883303 : ℚ)/8589934590), ((464787111 : ℚ)/572662306), ((3642625741 : ℚ)/8589934590), ((1219877 : ℚ)/572662306), 2, ((2410088870 : ℚ)/858993459), true⟩,
   ⟨((230588541557 : ℚ)/2863311530), ((82958788469 : ℚ)/572662306), ((-1668010123 : ℚ)/8589934590), ((303013443 : ℚ)/572662306), 4, ((10008810952 : ℚ)/1431655765), true⟩,
   ⟨((168963777151 : ℚ)/2863311530), ((34043714303 : ℚ)/572662306), ((-3670764929 : ℚ)/8589934590), ((-2816855677 : ℚ)/1717986918), 3, ((24487656844 : ℚ)/4294967295), true⟩,
   ⟨((883290036179 : ℚ)/2863311530), ((37159713861 : ℚ)/572662306), ((-3941705261 : ℚ)/8589934590), ((-1293720253 : ℚ)/572662306), 3, ((12416216869 : ℚ)/4294967295), true⟩,
   ⟨((364210784155 : ℚ)/1717986918), ((46092457567 : ℚ)/572662306), ((-59418749 : ℚ)/572662306), ((91165789 : ℚ)/572662306), 1, ((23354806279 : ℚ)/4294967295), true⟩,
   ⟨((1229582619481 : ℚ)/8589934590), ((48452076781 : ℚ)/572662306), ((-3332769293 : ℚ)/8589934590), ((1132470507 : ℚ)/572662306), 3, ((20840874691 : ℚ)/4294967295), true⟩,
   ⟨((170229846261 : ℚ)/2863311530), ((57455523321 : ℚ)/572662306), ((4285923701 : ℚ)/8589934590), ((-732183079 : ℚ)/1717986918), 1, ((29762982991 : ℚ)/4294967295), true⟩,
   ⟨((38136117579 : ℚ)/2863311530), ((63089027101 : ℚ)/572662306), ((1217669273 : ℚ)/2863311530), ((-2044247159 : ℚ)/1717986918), 5, ((4980735088 : ℚ)/858993459), true⟩,
   ⟨((542689417451 : ℚ)/8589934590), ((3626877765 : ℚ)/572662306), ((91202259 : ℚ)/2863311530), ((1701860825 : ℚ)/1717986918), 2, ((1997065042 : ℚ)/4294967295), true⟩,
   ⟨((0 : ℚ)/1), ((0 : ℚ)/1), ((0 : ℚ)/1), ((0 : ℚ)/1), 0, ((0 : ℚ)/1), false⟩,
   ⟨((0 : ℚ)/1), ((0 : ℚ)/1), ((0 : ℚ)/1), ((0 : ℚ)/1), 0, ((0 : ℚ)/1), false⟩],
  0, 48, ((4 : ℚ)/1), ((0 : ℚ)/1), ((0 : ℚ)/1), ((0 : ℚ)/1), ((0 : ℚ)/1), ((0 : ℚ)/1), Msg.empty, 0, 2, Scale.Minor, ((5 : ℚ)/1), ((1 : ℚ)/1), 6, ((1 : ℚ)/10), false, 862149681⟩

/-- Intermediate state 5 of the C3 counterexample run. -/
def cexS5 : ParticlesSystem :=
  ⟨[⟨((0 : ℚ)/1), ((0 : ℚ)/1), ((0 : ℚ)/1), ((0 : ℚ)/1), ((0 : ℚ)/1), ((0 : ℚ)/1), ((0 : ℚ)/1), 0, ((0 : ℚ)/1), false⟩,
   ⟨((0 : ℚ)/1), ((0 : ℚ)/1), ((0 : ℚ)/1), ((0 : ℚ)/1), ((0 : ℚ)/1), ((0 : ℚ)/1), ((0 : ℚ)/1), 0, ((0 : ℚ)/1), false⟩,
   ⟨((0 : ℚ)/1), ((0 : ℚ)/1), ((0 : ℚ)/1), ((0 : ℚ)/1), ((0 : ℚ)/1), ((0 : ℚ)/1), ((0 : ℚ)/1), 0, ((0 : ℚ)/1), false⟩,
   ⟨((0 : ℚ)/1), ((0 : ℚ)/1), ((0 : ℚ)/1), ((0 : ℚ)/1), ((0 : ℚ)/1), ((0 : ℚ)/1), ((0 : ℚ)/1), 0, ((0 : ℚ)/1), false⟩,
   ⟨((0 : ℚ)/1), ((0 : ℚ)/1), ((0 : ℚ)/1), ((0 : ℚ)/1), ((0 : ℚ)/1), ((0 : ℚ)/1), ((0 : ℚ)/1), 0, ((0 : ℚ)/1), false⟩,
   ⟨((0 : ℚ)/1), ((0 : ℚ)/1), ((0 : ℚ)/1), ((0 : ℚ)/1), ((0 : ℚ)/1), ((0 : ℚ)/1), ((0 : ℚ)/1), 0, ((0 : ℚ)/1), false⟩,
   ⟨((0 : ℚ)/1), ((0 : ℚ)/1), ((0 : ℚ)/1), ((0 : ℚ)/1), ((0 : ℚ)/1), ((0 : ℚ)/1), ((0 : ℚ)/1), 0, ((0 : ℚ)/1), false⟩,
   ⟨((0 : ℚ)/1), ((0 : ℚ)/1), ((0 : ℚ)/1), ((0 : ℚ)/1), ((0 : ℚ)/1), ((0 : ℚ)/1), ((0 : ℚ)/1), 0, ((0 : ℚ)/1), false⟩,
   ⟨((0 : ℚ)/1), ((0 : ℚ)/1), ((0 : ℚ)/1), ((0 : ℚ)/1), ((0 : ℚ)/1), ((0 : ℚ)/1), ((0 : ℚ)/1), 0, ((0 : ℚ)/1), false⟩,
   ⟨((0 : ℚ)/1), ((0 : ℚ)/1), ((0 : ℚ)/1), ((0 : ℚ)/1), ((0 : ℚ)/1), ((0 : ℚ)/1), ((0 : ℚ)/1), 0, ((0 : ℚ)/1), false⟩,
   ⟨((0 : ℚ)/1), ((0 : ℚ)/1), ((0 : ℚ)/1), ((0 : ℚ)/1), ((0 : ℚ)/1), ((0 : ℚ)/1), ((0 : ℚ)/1), 0, ((0 : ℚ)/1), false⟩,
   ⟨((0 : ℚ)/1), ((0 : ℚ)/1), ((0 : ℚ)/1), ((0 : ℚ)/1), ((0 : ℚ)/1), ((0 : ℚ)/1), ((0 : ℚ)/1), 0, ((0 : ℚ)/1), false⟩],
  [⟨((38256170166 : ℚ)/1431655765), ((35245051162 : ℚ)/858993459), ((57104689 : ℚ)/8589934590), ((-529264879 : ℚ)/1717986918), 1, ((3962397508 : ℚ)/1431655765), true⟩,
   ⟨((351165631106 : ℚ)/1431655765), ((104943093620 : ℚ)/858993459), ((-775190687 : ℚ)/2863311530), ((-746685455 : ℚ)/1717986918), 2, ((8462461643 : ℚ)/1431655765), true⟩,
   ⟨((98218351266 : ℚ)/1431655765), ((25353111338 : ℚ)/286331153), ((3988085459 : ℚ)/8589934590), ((51021127 : ℚ)/33686018), 5, ((22923025024 : ℚ)/4294967295), true⟩,
   ⟨((354901502458 : ℚ)/4294967295), ((5681077468 : ℚ)/286331153), ((3586586749 : ℚ)/8589934590), ((-962104141 : ℚ)/572662306), 5, ((8260449609 : ℚ)/1431655765), true⟩,
   ⟨((75323920768 : ℚ)/858993459), ((7390252810 : ℚ)/286331153), ((25127939 : ℚ)/101058054), ((-1079495651 : ℚ)/572662306), 2, ((39667609529 : ℚ)/4294967295), true⟩,
   ⟨((1336611764326 : ℚ)/4294967295), ((98631680260 : ℚ)/858993459), ((2545946803 : ℚ)/8589934590), ((788910425 : ℚ)/1717986918), 3, ((2255446513 : ℚ)/858993459), true⟩,
   ⟨((1112332387514 : ℚ)/4294967295), ((37947897106 : ℚ)/286331153), ((-62878881 : ℚ)/2863311530), ((-264021857 : ℚ)/572662306), 5, ((1946052512 : ℚ)/858993459), true⟩,
   ⟨((359457053842 : ℚ)/4294967295), ((17449723312 : ℚ)/858993459), ((-1110460573 : ℚ)/2863311530), ((-2534156419 : ℚ)/1717986918), 1, ((8014666636 : ℚ)/4294967295), true⟩,
   ⟨((113295460354 : ℚ)/4294967295), ((70468230284 : ℚ)/858993459), ((2083818497 : ℚ)/8589934590), ((-2764365413 : ℚ)/1717986918), 3, ((3817747807 : ℚ)/1431655765), true⟩,
   ⟨((361175999246 : ℚ)/1431655765), ((3192626434 : ℚ)/50529027), ((694246023 : ℚ)/2863311530), ((-3102187841 : ℚ)/1717986918), 3, ((25485984521 : ℚ)/4294967295), true⟩,
   ⟨((3637516126 : ℚ)/16711935), ((96543369262 : ℚ)/858993459), ((-3823096049 : ℚ)/8589934590), ((570269231 : ℚ)/1717986918), 3, ((628159179 : ℚ)/286331153), true⟩,
   ⟨((15601694138 : ℚ)/84215045), ((7895287256 : ℚ)/286331153), ((207436519 : ℚ)/8589934590), ((1136400013 : ℚ)/572662306), 3, ((984264243 : ℚ)/286331153), true⟩,
   ⟨((679956121586 : ℚ)/4294967295), ((118666923086 : ℚ)/858993459), ((191339411 : ℚ)/2863311530), ((-196804727 : ℚ)/1717986918), 3, ((13372106311 : ℚ)/4294967295), true⟩,
   ⟨((42461750354 : ℚ)/1431655765), ((99530368346 : ℚ)/858993459), ((132044203 : ℚ)/505290270), ((-2228664647 : ℚ)/1717986918), 3, ((2771686966 : ℚ)/1431655765), true⟩,
   ⟨((134492345600 : ℚ)/858993459), ((5212641930 : ℚ)/286331153), ((622337993 : ℚ)/2863311530), ((-255423413 : ℚ)/1717986918), 1, ((7185230671 : ℚ)/1431655765), true⟩,
   ⟨((52700045174 : ℚ)/4294967295), ((53172653038 : ℚ)/858993459), ((148466107 : ℚ)/8589934590), ((-1742122291 : ℚ)/1717986918), 5, ((6265332884 : ℚ)/1431655765), true⟩,
   ⟨((172878790970 : ℚ)/858993459), ((15722017702 : ℚ)/286331153), ((492256669 : ℚ)/1717986918), ((821417241 : ℚ)/572662306), 1, ((1679398543 : ℚ)/4294967295), true⟩,
   ⟨((397085636554 : ℚ)/1431655765), ((36740839918 : ℚ)/858993459), ((954336911 : ℚ)/8589934590), ((-2174998441 : ℚ)/1717986918), 2, ((5085172537 : ℚ)/4294967295), true⟩,
   ⟨((1027235314 : ℚ)/286331153), ((12252690276 : ℚ)/286331153), ((28330841 : ℚ)/572662306), ((125095253 : ℚ)/572662306), 4, ((13781505959 : ℚ)/4294967295), true⟩,
   ⟨((682949275558 : ℚ)/4294967295), ((13584032006 : ℚ)/286331153), ((-3576360781 : ℚ)/8589934590), ((808835633 : ℚ)/572662306), 4, ((727781879 : ℚ)/252645135), true⟩,
   ⟨((317663796122 : ℚ)/1431655765), ((14854304470 : ℚ)/858993459), ((879312621 : ℚ)/2863311530), ((3200400215 : ℚ)/1717986918), 2, ((3936777668 : ℚ)/858993459), true⟩,
   ⟨((1330703540062 : ℚ)/4294967295), ((9600722504 : ℚ)/286331153), ((46212181 : ℚ)/168430090), ((1023863007 : ℚ)/572662306), 3, ((3893555573 : ℚ)/858993459), true⟩,
   ⟨((1232639589386 : ℚ)/4294967295), ((20016440924 : ℚ)/286331153), ((597755351 : ℚ)/2863311530), ((-1327111473 : ℚ)/572662306), 3, ((250958663 : ℚ)/286331153), true⟩,
   ⟨((354146445014 : ℚ)/1431655765), ((80310661766 : ℚ)/858993459), ((-1545237119 : ℚ)/8589934590), ((-2803559957 : ℚ)/1717986918), 5, ((2893733737 : ℚ)/1431655765), true⟩,
   ⟨((50510413630 : ℚ)/858993459), ((98118391588 : ℚ)/858993459), ((231324309 : ℚ)/572662306), ((2479665209 : ℚ)/1717986918), 2, ((4583183674 : ℚ)/1431655765), true⟩,
   ⟨((890474882426 : ℚ)/4294967295), ((24877411710 : ℚ)/286331153), ((-401286947 : ℚ)/8589934590), ((-1326027255 : ℚ)/572662306), 3, ((4060815779 : ℚ)/1431655765), true⟩,
   ⟨((58454361152 : ℚ)/286331153), ((30791630160 : ℚ)/286331153), ((-92879351 : ℚ)/8589934590), ((-137867549 : ℚ)/101058054), 5, ((13947143549 : ℚ)/1431655765), true⟩,
   ⟨((370796222586 : ℚ)/1431655765), ((8572385306 : ℚ)/286331153), ((2370103159 : ℚ)/8589934590), ((206904993 : ℚ)/572662306), 4, ((6802682912 : ℚ)/4294967295), true⟩,
   ⟨((829386670586 : ℚ)/4294967295), ((38309615570 : ℚ)/858993459), ((-3156244867 : ℚ)/8589934590), ((3507167605 : ℚ)/1717986918), 1, ((3446764753 : ℚ)/858993459), true⟩,
   ⟨((214105527104 : ℚ)/858993459), ((2189935300 : ℚ)/286331153), ((-1503253673 : ℚ)/8589934590), ((-1417161317 : ℚ)/572662306), 2, ((12776888344 : ℚ)/1431655765), true⟩,
   ⟨((443099291926 : ℚ)/4294967295), ((11547820958 : ℚ)/858993459), ((-4119451477 : ℚ)/8589934590), ((587394139 : ℚ)/1717986918), 2, ((25284057782 : ℚ)/4294967295), true⟩,
   ⟨((239825123314 : ℚ)/1431655765), ((87372855772 : ℚ)/858993459), ((2744480011 : ℚ)/8589934590), ((-1155379759 : ℚ)/1717986918), 2, ((23585723032 : ℚ)/4294967295), true⟩,
   ⟨((1294953718514 : ℚ)/4294967295), ((35128217798 : ℚ)/858993459), ((296684659 : ℚ)/2863311530), ((-1519657781 : ℚ)/1717986918), 1, ((18272473328 : ℚ)/4294967295), true⟩,
   ⟨((786809871178 : ℚ)/4294967295), ((37419552098 : ℚ)/286331153), ((1868702629 : ℚ)/8589934590), ((-1018845531 : ℚ)/572662306), 2, ((3238044367 : ℚ)/858993459), true⟩,
   ⟨((18520003582 : ℚ)/1431655765), ((36266030372 : ℚ)/858993459), ((86672413 : ℚ)/8589934590), ((-527632439 : ℚ)/1717986918), 2, ((196581634 : ℚ)/286331153), true⟩,
   ⟨((75939300032 : ℚ)/286331153), ((33141482930 : ℚ)/286331153), ((803508329 : ℚ)/2863311530), ((148329023 : ℚ)/1717986918), 5, ((14085098708 : ℚ)/4294967295), true⟩,
   ⟨((187164023794 : ℚ)/858993459), ((117655234490 : ℚ)/858993459), ((275273849 : ℚ)/1717986918), ((-855435395 : ℚ)/1717986918), 4, ((7090290043 : ℚ)/4294967295), true⟩,
   ⟨((181386262912 : ℚ)/858993459), ((17041625580 : ℚ)/286331153), ((-717931279 : ℚ)/8589934590), ((-3627306715 : ℚ)/1717986918), 4, ((2491011659 : ℚ)/252645135), true⟩,
   ⟨((14636750534 : ℚ)/858993459), ((123760810072 : ℚ)/858993459), ((-216973503 : ℚ)/572662306), ((2079543491 : ℚ)/1717986918), 3, ((23394941287 : ℚ)/4294967295), true⟩,
   ⟨((292702918174 : ℚ)/1431655765), ((233003494 : ℚ)/286331153), ((3642625741 : ℚ)/8589934590), ((1219877 : ℚ)/572662306), 2, ((1551095411 : ℚ)/858993459), true⟩,
   ⟨((345048807274 : ℚ)/4294967295), ((41630900956 : ℚ)/286331153), ((-1668010123 : ℚ)/8589934590), ((303013443 : ℚ)/572662306), 4, ((8577155187 : ℚ)/1431655765), true⟩,
   ⟨((251610283262 : ℚ)/4294967295), ((2921008448 : ℚ)/50529027), ((-3670764929 : ℚ)/8589934590), ((-2816855677 : ℚ)/1717986918), 3, ((20192689549 : ℚ)/4294967295), true⟩,
   ⟨((1322964201638 : ℚ)/4294967295), ((17932996804 : ℚ)/286331153), ((-3941705261 : ℚ)/8589934590), ((-1293720253 : ℚ)/572662306), 3, ((8121249574 : ℚ)/4294967295), true⟩,
   ⟨((182016263954 : ℚ)/858993459), ((23091811678 : ℚ)/286331153), ((-59418749 : ℚ)/572662306), ((91165789 : ℚ)/572662306), 1, ((19059838984 : ℚ)/4294967295), true⟩,
   ⟨((613124925094 : ℚ)/4294967295), ((24792273644 : ℚ)/286331153), ((-3332769293 : ℚ)/8589934590), ((1132470507 : ℚ)/572662306), 3, ((16545907396 : ℚ)/4294967295), true⟩,
   ⟨((257487731242 : ℚ)/4294967295), ((85817193442 : ℚ)/858993459), ((4285923701 : ℚ)/8589934590), ((-732183079 : ℚ)/1717986918), 1, ((25468015696 : ℚ)/4294967295), true⟩,
   ⟨((19676893426 : ℚ)/1431655765), ((93611417072 : ℚ)/858993459), ((1217669273 : ℚ)/2863311530), ((-2044247159 : ℚ)/1717986918), 5, ((4121741629 : ℚ)/858993459), true⟩,
   ⟨((57960514304 : ℚ)/286331153), ((35167670860 : ℚ)/286331153), ((-749506417 : ℚ)/2863311530), ((1244021003 : ℚ)/1717986918), 5, ((33614371394 : ℚ)/4294967295), true⟩,
   ⟨((0 : ℚ)/1), ((0 : ℚ)/1), ((0 : ℚ)/1), ((0 : ℚ)/1), 0, ((0 : ℚ)/1), false⟩,
   ⟨((0 : ℚ)/1), ((0 : ℚ)/1), ((0 : ℚ)/1), ((0 : ℚ)/1), 0, ((0 : ℚ)/1), false⟩],
  0, 48, ((5 : ℚ)/1), ((0 : ℚ)/1), ((0 : ℚ)/1), ((0 : ℚ)/1), ((0 : ℚ)/1), ((0 : ℚ)/1), Msg.empty, 0, 2, Scale.Minor, ((5 : ℚ)/1), ((1 : ℚ)/1), 6, ((1 : ℚ)/10), false, 2961352787⟩

/-- Intermediate state 6 of the C3 counterexample run. -/
def cexS6 : ParticlesSystem :=
  ⟨[⟨((0 : ℚ)/1), ((0 : ℚ)/1), ((0 : ℚ)/1), ((0 : ℚ)/1), ((0 : ℚ)/1), ((0 : ℚ)/1), ((0 : ℚ)/1), 0, ((0 : ℚ)/1), false⟩,
   ⟨((0 : ℚ)/1), ((0 : ℚ)/1), ((0 : ℚ)/1), ((0 : ℚ)/1), ((0 : ℚ)/1), ((0 : ℚ)/1), ((0 : ℚ)/1), 0, ((0 : ℚ)/1), false⟩,
   ⟨((0 : ℚ)/1), ((0 : ℚ)/1), ((0 : ℚ)/1), ((0 : ℚ)/1), ((0 : ℚ)/1), ((0 : ℚ)/1), ((0 : ℚ)/1), 0, ((0 : ℚ)/1), false⟩,
   ⟨((0 : ℚ)/1), ((0 : ℚ)/1), ((0 : ℚ)/1), ((0 : ℚ)/1), ((0 : ℚ)/1), ((0 : ℚ)/1), ((0 : ℚ)/1), 0, ((0 : ℚ)/1), false⟩,
   ⟨((0 : ℚ)/1), ((0 : ℚ)/1), ((0 : ℚ)/1), ((0 : ℚ)/1), ((0 : ℚ)/1), ((0 : ℚ)/1), ((0 : ℚ)/1), 0, ((0 : ℚ)/1), false⟩,
   ⟨((0 : ℚ)/1), ((0 : ℚ)/1), ((0 : ℚ)/1), ((0 : ℚ)/1), ((0 : ℚ)/1), ((0 : ℚ)/1), ((0 : ℚ)/1), 0, ((0 : ℚ)/1), false⟩,
   ⟨((0 : ℚ)/1), ((0 : ℚ)/1), ((0 : ℚ)/1), ((0 : ℚ)/1), ((0 : ℚ)/1), ((0 : ℚ)/1), ((0 : ℚ)/1), 0, ((0 : ℚ)/1), false⟩,
   ⟨((0 : ℚ)/1), ((0 : ℚ)/1), ((0 : ℚ)/1), ((0 : ℚ)/1), ((0 : ℚ)/1), ((0 : ℚ)/1), ((0 : ℚ)/1), 0, ((0 : ℚ)/1), false⟩,
   ⟨((0 : ℚ)/1), ((0 : ℚ)/1), ((0 : ℚ)/1), ((0 : ℚ)/1), ((0 : ℚ)/1), ((0 : ℚ)/1), ((0 : ℚ)/1), 0, ((0 : ℚ)/1), false⟩,
   ⟨((0 : ℚ)/1), ((0 : ℚ)/1), ((0 : ℚ)/1), ((0 : ℚ)/1), ((0 : ℚ)/1), ((0 : ℚ)/1), ((0 : ℚ)/1), 0, ((0 : ℚ)/1), false⟩,
   ⟨((0 : ℚ)/1), ((0 : ℚ)/1), ((0 : ℚ)/1), ((0 : ℚ)/1), ((0 : ℚ)/1), ((0 : ℚ)/1), ((0 : ℚ)/1), 0, ((0 : ℚ)/1), false⟩,
   ⟨((0 : ℚ)/1), ((0 : ℚ)/1), ((0 : ℚ)/1), ((0 : ℚ)/1), ((0 : ℚ)/1), ((0 : ℚ)/1), ((0 : ℚ)/1), 0, ((0 : ℚ)/1), false⟩],
  [⟨((2701107361 : ℚ)/101058054), ((69960837445 : ℚ)/1717986918), ((57104689 : ℚ)/8589934590), ((-529264879 : ℚ)/1717986918), 1, ((2530741743 : ℚ)/1431655765), true⟩,
   ⟨((140311214305 : ℚ)/572662306), ((209139501785 : ℚ)/1717986918), ((-775190687 : ℚ)/2863311530), ((-746685455 : ℚ)/1717986918), 2, ((7030805878 : ℚ)/1431655765), true⟩,
   ⟨((118659638611 : ℚ)/1717986918), ((51573581835 : ℚ)/572662306), ((3988085459 : ℚ)/8589934590), ((51021127 : ℚ)/33686018), 5, ((18628057729 : ℚ)/4294967295), true⟩,
   ⟨((47559306111 : ℚ)/572662306), ((10400050795 : ℚ)/572662306), ((3586586749 : ℚ)/8589934590), ((-962104141 : ℚ)/572662306), 5, ((6828793844 : ℚ)/1431655765), true⟩,
   ⟨((50358338833 : ℚ)/572662306), ((13701009969 : ℚ)/572662306), ((25127939 : ℚ)/101058054), ((-1079495651 : ℚ)/572662306), 2, ((35372642234 : ℚ)/4294967295), true⟩,
   ⟨((178384631697 : ℚ)/572662306), ((11650133585 : ℚ)/101058054), ((2545946803 : ℚ)/8589934590), ((788910425 : ℚ)/1717986918), 3, ((1396453054 : ℚ)/858993459), true⟩,
   ⟨((444895227677 : ℚ)/1717986918), ((75631772355 : ℚ)/572662306), ((-62878881 : ℚ)/2863311530), ((-264021857 : ℚ)/572662306), 5, ((1087059053 : ℚ)/858993459), true⟩,
   ⟨((143116545193 : ℚ)/1717986918), ((32365290205 : ℚ)/1717986918), ((-1110460573 : ℚ)/2863311530), ((-2534156419 : ℚ)/1717986918), 1, ((3719699341 : ℚ)/4294967295), true⟩,
   ⟨((45734947841 : ℚ)/1717986918), ((138172095155 : ℚ)/1717986918), ((2083818497 : ℚ)/8589934590), ((-2764365413 : ℚ)/1717986918), 3, ((2386092042 : ℚ)/1431655765), true⟩,
   ⟨((144609248903 : ℚ)/572662306), ((105447110915 : ℚ)/1717986918), ((694246023 : ℚ)/2863311530), ((-3102187841 : ℚ)/1717986918), 3, ((21191017226 : ℚ)/4294967295), true⟩,
   ⟨((373172038543 : ℚ)/1717986918), ((193657007755 : ℚ)/1717986918), ((-3823096049 : ℚ)/8589934590), ((570269231 : ℚ)/1717986918), 3, ((341828026 : ℚ)/286331153), true⟩,
   ⟨((318316047719 : ℚ)/1717986918), ((16926974525 : ℚ)/572662306), ((207436519 : ℚ)/8589934590), ((1136400013 : ℚ)/572662306), 3, ((697933090 : ℚ)/286331153), true⟩,
   ⟨((272097252281 : ℚ)/1717986918), ((237137041445 : ℚ)/1717986918), ((191339411 : ℚ)/2863311530), ((-196804727 : ℚ)/1717986918), 3, ((9077139016 : ℚ)/4294967295), true⟩,
   ⟨((51403050715 : ℚ)/1717986918), ((196832072045 : ℚ)/1717986918), ((132044203 : ℚ)/505290270), ((-2228664647 : ℚ)/1717986918), 3, ((1340031201 : ℚ)/1431655765), true⟩,
   ⟨((1346790469979 : ℚ)/8589934590), ((31020428167 : ℚ)/1717986918), ((622337993 : ℚ)/2863311530), ((-255423413 : ℚ)/1717986918), 1, ((5753574906 : ℚ)/1431655765), true⟩,
   ⟨((1241747723 : ℚ)/101058054), ((104603183785 : ℚ)/1717986918), ((148466107 : ℚ)/8589934590), ((-1742122291 : ℚ)/1717986918), 5, ((4833677119 : ℚ)/1431655765), true⟩,
   ⟨((55737818432 : ℚ)/286331153), ((25663930470 : ℚ)/286331153), ((595183727 : ℚ)/2863311530), ((-372014033 : ℚ)/1717986918), 5, ((31818795374 : ℚ)/4294967295), true⟩,
   ⟨((476693631247 : ℚ)/1717986918), ((71306681395 : ℚ)/1717986918), ((954336911 : ℚ)/8589934590), ((-2174998441 : ℚ)/1717986918), 2, ((790205242 : ℚ)/4294967295), true⟩,
   ⟨((2082801469 : ℚ)/572662306), ((24630475805 : ℚ)/572662306), ((28330841 : ℚ)/572662306), ((125095253 : ℚ)/572662306), 4, ((9486538664 : ℚ)/4294967295), true⟩,
   ⟨((272464438067 : ℚ)/1717986918), ((27976899645 : ℚ)/572662306), ((-3576360781 : ℚ)/8589934590), ((808835633 : ℚ)/572662306), 4, ((475136744 : ℚ)/252645135), true⟩,
   ⟨((127241380973 : ℚ)/572662306), ((32909009155 : ℚ)/1717986918), ((879312621 : ℚ)/2863311530), ((3200400215 : ℚ)/1717986918), 2, ((3077784209 : ℚ)/858993459), true⟩,
   ⟨((532752780271 : ℚ)/1717986918), ((20225308015 : ℚ)/572662306), ((46212181 : ℚ)/168430090), ((1023863007 : ℚ)/572662306), 3, ((3034562114 : ℚ)/858993459), true⟩,
   ⟨((247650966976 : ℚ)/858993459), ((42448914100 : ℚ)/286331153), ((2075801413 : ℚ)/8589934590), ((2533856365 : ℚ)/1717986918), 5, ((639240981 : ℚ)/84215045), true⟩,
   ⟨((24980393329 : ℚ)/101058054), ((157817763575 : ℚ)/1717986918), ((-1545237119 : ℚ)/8589934590), ((-2803559957 : ℚ)/1717986918), 5, ((1462077972 : ℚ)/1431655765), true⟩,
   ⟨((101714800187 : ℚ)/1717986918), ((198716448385 : ℚ)/1717986918), ((231324309 : ℚ)/572662306), ((2479665209 : ℚ)/1717986918), 2, ((3151527909 : ℚ)/1431655765), true⟩,
   ⟨((356109695581 : ℚ)/1717986918), ((48428796165 : ℚ)/572662306), ((-401286947 : ℚ)/8589934590), ((-1326027255 : ℚ)/572662306), 3, ((2629160014 : ℚ)/1431655765), true⟩,
   ⟨((1753537955209 : ℚ)/8589934590), ((182406032627 : ℚ)/1717986918), ((-92879351 : ℚ)/8589934590), ((-137867549 : ℚ)/101058054), 5, ((12515487784 : ℚ)/1431655765), true⟩,
   ⟨((445429487735 : ℚ)/1717986918), ((17351675605 : ℚ)/572662306), ((2370103159 : ℚ)/8589934590), ((206904993 : ℚ)/572662306), 4, ((2507715617 : ℚ)/4294967295), true⟩,
   ⟨((110374473087 : ℚ)/572662306), ((80126398745 : ℚ)/1717986918), ((-3156244867 : ℚ)/8589934590), ((3507167605 : ℚ)/1717986918), 1, ((2587771294 : ℚ)/858993459), true⟩,
   ⟨((713184005789 : ℚ)/2863311530), ((2962709283 : ℚ)/572662306), ((-1503253673 : ℚ)/8589934590), ((-1417161317 : ℚ)/572662306), 2, ((11345232579 : ℚ)/1431655765), true⟩,
   ⟨((176415826475 : ℚ)/1717986918), ((23683036055 : ℚ)/1717986918), ((-4119451477 : ℚ)/8589934590), ((587394139 : ℚ)/1717986918), 2, ((20989090487 : ℚ)/4294967295), true⟩,
   ⟨((288339043979 : ℚ)/1717986918), ((173590331785 : ℚ)/1717986918), ((2744480011 : ℚ)/8589934590), ((-1155379759 : ℚ)/1717986918), 2, ((19290755737 : ℚ)/4294967295), true⟩,
   ⟨((518159498201 : ℚ)/1717986918), ((68736777815 : ℚ)/1717986918), ((296684659 : ℚ)/2863311530), ((-1519657781 : ℚ)/1717986918), 1, ((13977506033 : ℚ)/4294967295), true⟩,
   ⟨((105032562999 : ℚ)/572662306), ((73820258665 : ℚ)/572662306), ((1868702629 : ℚ)/8589934590), ((-1018845531 : ℚ)/572662306), 2, ((2379050908 : ℚ)/858993459), true⟩,
   ⟨((89427521792 : ℚ)/858993459), ((27621550200 : ℚ)/286331153), ((135160523 : ℚ)/505290270), ((-1104778819 : ℚ)/572662306), 5, ((6151999178 : ℚ)/1431655765), true⟩,
   ⟨((760196508649 : ℚ)/2863311530), ((198997226603 : ℚ)/1717986918), ((803508329 : ℚ)/2863311530), ((148329023 : ℚ)/1717986918), 5, ((9790131413 : ℚ)/4294967295), true⟩,
   ⟨((374603321437 : ℚ)/1717986918), ((234455033585 : ℚ)/1717986918), ((275273849 : ℚ)/1717986918), ((-855435395 : ℚ)/1717986918), 4, ((2795322748 : ℚ)/4294967295), true⟩,
   ⟨((604381565947 : ℚ)/2863311530), ((98622446765 : ℚ)/1717986918), ((-717931279 : ℚ)/8589934590), ((-3627306715 : ℚ)/1717986918), 4, ((2238366524 : ℚ)/252645135), true⟩,
   ⟨((28622580559 : ℚ)/1717986918), ((249601163635 : ℚ)/1717986918), ((-216973503 : ℚ)/572662306), ((2079543491 : ℚ)/1717986918), 3, ((19099973992 : ℚ)/4294967295), true⟩,
   ⟨((351972026957 : ℚ)/1717986918), ((467226865 : ℚ)/572662306), ((3642625741 : ℚ)/8589934590), ((1219877 : ℚ)/572662306), 2, ((692101952 : ℚ)/858993459), true⟩,
   ⟨((137685920885 : ℚ)/1717986918), ((83564815355 : ℚ)/572662306), ((-1668010123 : ℚ)/8589934590), ((303013443 : ℚ)/572662306), 4, ((7145499422 : ℚ)/1431655765), true⟩,
   ⟨((99909960319 : ℚ)/1717986918), ((96497431555 : ℚ)/1717986918), ((-3670764929 : ℚ)/8589934590), ((-2816855677 : ℚ)/1717986918), 3, ((15897722254 : ℚ)/4294967295), true⟩,
   ⟨((528397339603 : ℚ)/1717986918), ((34572273355 : ℚ)/572662306), ((-3941705261 : ℚ)/8589934590), ((-1293720253 : ℚ)/572662306), 3, ((3826282279 : ℚ)/4294967295), true⟩,
   ⟨((363854271661 : ℚ)/1717986918), ((46274789145 : ℚ)/572662306), ((-59418749 : ℚ)/572662306), ((91165789 : ℚ)/572662306), 1, ((14764871689 : ℚ)/4294967295), true⟩,
   ⟨((81527805393 : ℚ)/572662306), ((50717017795 : ℚ)/572662306), ((-3332769293 : ℚ)/8589934590), ((1132470507 : ℚ)/572662306), 3, ((12250940101 : ℚ)/4294967295), true⟩,
   ⟨((103852277237 : ℚ)/1717986918), ((170902203805 : ℚ)/1717986918), ((4285923701 : ℚ)/8589934590), ((-732183079 : ℚ)/1717986918), 1, ((21173048401 : ℚ)/4294967295), true⟩,
   ⟨((8114291225 : ℚ)/572662306), ((185178586985 : ℚ)/1717986918), ((1217669273 : ℚ)/2863311530), ((-2044247159 : ℚ)/1717986918), 5, ((3262748170 : ℚ)/858993459), true⟩,
   ⟨((578855636623 : ℚ)/2863311530), ((212250046163 : ℚ)/1717986918), ((-749506417 : ℚ)/2863311530), ((1244021003 : ℚ)/1717986918), 5, ((29319404099 : ℚ)/4294967295), true⟩,
   ⟨((0 : ℚ)/1), ((0 : ℚ)/1), ((0 : ℚ)/1), ((0 : ℚ)/1), 0, ((0 : ℚ)/1), false⟩,
   ⟨((0 : ℚ)/1), ((0 : ℚ)/1), ((0 : ℚ)/1), ((0 : ℚ)/1), 0, ((0 : ℚ)/1), false⟩],
  0, 48, ((6 : ℚ)/1), ((0 : ℚ)/1), ((0 : ℚ)/1), ((0 : ℚ)/1), ((0 : ℚ)/1), ((0 : ℚ)/1), Msg.empty, 0, 2, Scale.Minor, ((5 : ℚ)/1), ((1 : ℚ)/1), 6, ((1 : ℚ)/10), false, 795870807⟩

/-- Intermediate state 7 of the C3 counterexample run. -/
def cexS7 : ParticlesSystem :=
  ⟨[⟨((31652121664 : ℚ)/286331153), ((0 : ℚ)/1), ((21 : ℚ)/20), ((0 : ℚ)/1), ((7391723153 : ℚ)/42949672950), ((19 : ℚ)/25), ((5 : ℚ)/1), 7, ((4 : ℚ)/1), true⟩,
   ⟨((0 : ℚ)/1), ((0 : ℚ)/1), ((0 : ℚ)/1), ((0 : ℚ)/1), ((0 : ℚ)/1), ((0 : ℚ)/1), ((0 : ℚ)/1), 0, ((0 : ℚ)/1), false⟩,
   ⟨((0 : ℚ)/1), ((0 : ℚ)/1), ((0 : ℚ)/1), ((0 : ℚ)/1), ((0 : ℚ)/1), ((0 : ℚ)/1), ((0 : ℚ)/1), 0, ((0 : ℚ)/1), false⟩,
   ⟨((0 : ℚ)/1), ((0 : ℚ)/1), ((0 : ℚ)/1), ((0 : ℚ)/1), ((0 : ℚ)/1), ((0 : ℚ)/1), ((0 : ℚ)/1), 0, ((0 : ℚ)/1), false⟩,
   ⟨((0 : ℚ)/1), ((0 : ℚ)/1), ((0 : ℚ)/1), ((0 : ℚ)/1), ((0 : ℚ)/1), ((0 : ℚ)/1), ((0 : ℚ)/1), 0, ((0 : ℚ)/1), false⟩,
   ⟨((0 : ℚ)/1), ((0 : ℚ)/1), ((0 : ℚ)/1), ((0 : ℚ)/1), ((0 : ℚ)/1), ((0 : ℚ)/1), ((0 : ℚ)/1), 0, ((0 : ℚ)/1), false⟩,
   ⟨((0 : ℚ)/1), ((0 : ℚ)/1), ((0 : ℚ)/1), ((0 : ℚ)/1), ((0 : ℚ)/1), ((0 : ℚ)/1), ((0 : ℚ)/1), 0, ((0 : ℚ)/1), false⟩,
   ⟨((0 : ℚ)/1), ((0 : ℚ)/1), ((0 : ℚ)/1), ((0 : ℚ)/1), ((0 : ℚ)/1), ((0 : ℚ)/1), ((0 : ℚ)/1), 0, ((0 : ℚ)/1), false⟩,
   ⟨((0 : ℚ)/1), ((0 : ℚ)/1), ((0 : ℚ)/1), ((0 : ℚ)/1), ((0 : ℚ)/1), ((0 : ℚ)/1), ((0 : ℚ)/1), 0, ((0 : ℚ)/1), false⟩,
   ⟨((0 : ℚ)/1), ((0 : ℚ)/1), ((0 : ℚ)/1), ((0 : ℚ)/1), ((0 : ℚ)/1), ((0 : ℚ)/1), ((0 : ℚ)/1), 0, ((0 : ℚ)/1), false⟩,
   ⟨((0 : ℚ)/1), ((0 : ℚ)/1), ((0 : ℚ)/1), ((0 : ℚ)/1), ((0 : ℚ)/1), ((0 : ℚ)/1), ((0 : ℚ)/1), 0, ((0 : ℚ)/1), false⟩,
   ⟨((0 : ℚ)/1), ((0 : ℚ)/1), ((0 : ℚ)/1), ((0 : ℚ)/1), ((0 : ℚ)/1), ((0 : ℚ)/1), ((0 : ℚ)/1), 0, ((0 : ℚ)/1), false⟩],
  [⟨((114825615187 : ℚ)/4294967295), ((11571928761 : ℚ)/286331153), ((57104689 : ℚ)/8589934590), ((-529264879 : ℚ)/1717986918), 1, ((1099085978 : ℚ)/1431655765), true⟩,
   ⟨((350390440419 : ℚ)/1431655765), ((34732136055 : ℚ)/286331153), ((-775190687 : ℚ)/2863311530), ((-746685455 : ℚ)/1717986918), 2, ((5599150113 : ℚ)/1431655765), true⟩,
   ⟨((298643139257 : ℚ)/4294967295), ((26220470497 : ℚ)/286331153), ((3988085459 : ℚ)/8589934590), ((51021127 : ℚ)/33686018), 5, ((14333090434 : ℚ)/4294967295), true⟩,
   ⟨((358488089207 : ℚ)/4294967295), ((4718973327 : ℚ)/286331153), ((3586586749 : ℚ)/8589934590), ((-962104141 : ℚ)/572662306), 5, ((5397138079 : ℚ)/1431655765), true⟩,
   ⟨((75751095731 : ℚ)/858993459), ((6310757159 : ℚ)/286331153), ((25127939 : ℚ)/101058054), ((-1079495651 : ℚ)/572662306), 2, ((31077674939 : ℚ)/4294967295), true⟩,
   ⟨((1339157711129 : ℚ)/4294967295), ((33140196895 : ℚ)/286331153), ((2545946803 : ℚ)/8589934590), ((788910425 : ℚ)/1717986918), 3, ((537459595 : ℚ)/858993459), true⟩,
   ⟨((1112143750871 : ℚ)/4294967295), ((37683875249 : ℚ)/286331153), ((-62878881 : ℚ)/2863311530), ((-264021857 : ℚ)/572662306), 5, ((228065594 : ℚ)/858993459), true⟩,
   ⟨((66180223808 : ℚ)/286331153), ((21240246660 : ℚ)/286331153), ((441968321 : ℚ)/1717986918), ((41465923 : ℚ)/1717986918), 2, ((4713755458 : ℚ)/858993459), true⟩,
   ⟨((2262338801 : ℚ)/84215045), ((22567954957 : ℚ)/286331153), ((2083818497 : ℚ)/8589934590), ((-2764365413 : ℚ)/1717986918), 3, ((954436277 : ℚ)/1431655765), true⟩,
   ⟨((361870245269 : ℚ)/1431655765), ((17057487179 : ℚ)/286331153), ((694246023 : ℚ)/2863311530), ((-3102187841 : ℚ)/1717986918), 3, ((16896049931 : ℚ)/4294967295), true⟩,
   ⟨((310339516111 : ℚ)/1431655765), ((32371212831 : ℚ)/286331153), ((-3823096049 : ℚ)/8589934590), ((570269231 : ℚ)/1717986918), 3, ((55496873 : ℚ)/286331153), true⟩,
   ⟨((795893837557 : ℚ)/4294967295), ((9031687269 : ℚ)/286331153), ((207436519 : ℚ)/8589934590), ((1136400013 : ℚ)/572662306), 3, ((411601937 : ℚ)/286331153), true⟩,
   ⟨((680530139819 : ℚ)/4294967295), ((39490039453 : ℚ)/286331153), ((191339411 : ℚ)/2863311530), ((-196804727 : ℚ)/1717986918), 3, ((4782171721 : ℚ)/4294967295), true⟩,
   ⟨((40751654336 : ℚ)/858993459), ((7323619110 : ℚ)/286331153), ((-500622027 : ℚ)/2863311530), ((-2725885285 : ℚ)/1717986918), 1, ((28963708013 : ℚ)/4294967295), true⟩,
   ⟨((39666396587 : ℚ)/252645135), ((904853081 : ℚ)/50529027), ((622337993 : ℚ)/2863311530), ((-255423413 : ℚ)/1717986918), 1, ((4321919141 : ℚ)/1431655765), true⟩,
   ⟨((17616170427 : ℚ)/1431655765), ((17143510249 : ℚ)/286331153), ((148466107 : ℚ)/8589934590), ((-1742122291 : ℚ)/1717986918), 5, ((3402021354 : ℚ)/1431655765), true⟩,
   ⟨((557973368047 : ℚ)/2863311530), ((153611568787 : ℚ)/1717986918), ((595183727 : ℚ)/2863311530), ((-372014033 : ℚ)/1717986918), 5, ((27523828079 : ℚ)/4294967295), true⟩,
   ⟨((177172980032 : ℚ)/858993459), ((21081525570 : ℚ)/286331153), ((-1283844319 : ℚ)/8589934590), ((3259175471 : ℚ)/1717986918), 5, ((3873093335 : ℚ)/858993459), true⟩,
   ⟨((1055566155 : ℚ)/286331153), ((12377785529 : ℚ)/286331153), ((28330841 : ℚ)/572662306), ((125095253 : ℚ)/572662306), 4, ((5191571369 : ℚ)/4294967295), true⟩,
   ⟨((226457638259 : ℚ)/1431655765), ((14392867639 : ℚ)/286331153), ((-3576360781 : ℚ)/8589934590), ((808835633 : ℚ)/572662306), 4, ((222491609 : ℚ)/252645135), true⟩,
   ⟨((318543108743 : ℚ)/1431655765), ((6018234895 : ℚ)/286331153), ((879312621 : ℚ)/2863311530), ((3200400215 : ℚ)/1717986918), 2, ((2218790750 : ℚ)/858993459), true⟩,
   ⟨((1333060361293 : ℚ)/4294967295), ((10624585511 : ℚ)/286331153), ((46212181 : ℚ)/168430090), ((1023863007 : ℚ)/572662306), 3, ((2175568655 : ℚ)/858993459), true⟩,
   ⟨((2478585471173 : ℚ)/8589934590), ((257227340965 : ℚ)/1717986918), ((2075801413 : ℚ)/8589934590), ((2533856365 : ℚ)/1717986918), 5, ((555025936 : ℚ)/84215045), true⟩,
   ⟨((1060894097923 : ℚ)/4294967295), ((25835700603 : ℚ)/286331153), ((-1545237119 : ℚ)/8589934590), ((-2803559957 : ℚ)/1717986918), 5, ((30422207 : ℚ)/1431655765), true⟩,
   ⟨((51204386557 : ℚ)/858993459), ((33532685599 : ℚ)/286331153), ((231324309 : ℚ)/572662306), ((2479665209 : ℚ)/1717986918), 2, ((1719872144 : ℚ)/1431655765), true⟩,
   ⟨((296691198493 : ℚ)/1431655765), ((23551384455 : ℚ)/286331153), ((-401286947 : ℚ)/8589934590), ((-1326027255 : ℚ)/572662306), 3, ((1197504249 : ℚ)/1431655765), true⟩,
   ⟨((876722537929 : ℚ)/4294967295), ((90031142147 : ℚ)/858993459), ((-92879351 : ℚ)/8589934590), ((-137867549 : ℚ)/101058054), 5, ((11083832019 : ℚ)/1431655765), true⟩,
   ⟨((9443830016 : ℚ)/858993459), ((8993003470 : ℚ)/286331153), ((-913956239 : ℚ)/2863311530), ((-3766631761 : ℚ)/1717986918), 4, ((20597949899 : ℚ)/4294967295), true⟩,
   ⟨((826230425719 : ℚ)/4294967295), ((819936925 : ℚ)/16843009), ((-3156244867 : ℚ)/8589934590), ((3507167605 : ℚ)/1717986918), 1, ((1728777835 : ℚ)/858993459), true⟩,
   ⟨((1069024381847 : ℚ)/4294967295), ((772773983 : ℚ)/286331153), ((-1503253673 : ℚ)/8589934590), ((-1417161317 : ℚ)/572662306), 2, ((9913576814 : ℚ)/1431655765), true⟩,
   ⟨((146326613483 : ℚ)/1431655765), ((4045071699 : ℚ)/286331153), ((-4119451477 : ℚ)/8589934590), ((587394139 : ℚ)/1717986918), 2, ((16694123192 : ℚ)/4294967295), true⟩,
   ⟨((722219849953 : ℚ)/4294967295), ((28739158671 : ℚ)/286331153), ((2744480011 : ℚ)/8589934590), ((-1155379759 : ℚ)/1717986918), 2, ((14995788442 : ℚ)/4294967295), true⟩,
   ⟨((1295843772491 : ℚ)/4294967295), ((11202853339 : ℚ)/286331153), ((296684659 : ℚ)/2863311530), ((-1519657781 : ℚ)/1717986918), 1, ((9682538738 : ℚ)/4294967295), true⟩,
   ⟨((788678573807 : ℚ)/4294967295), ((36400706567 : ℚ)/286331153), ((1868702629 : ℚ)/8589934590), ((-1018845531 : ℚ)/572662306), 2, ((1520057449 : ℚ)/858993459), true⟩,
   ⟨((298857648937 : ℚ)/2863311530), ((54138321581 : ℚ)/572662306), ((135160523 : ℚ)/505290270), ((-1104778819 : ℚ)/572662306), 5, ((4720343413 : ℚ)/1431655765), true⟩,
   ⟨((380500008489 : ℚ)/1431655765), ((99572777813 : ℚ)/858993459), ((803508329 : ℚ)/2863311530), ((148329023 : ℚ)/1717986918), 5, ((5495164118 : ℚ)/4294967295), true⟩,
   ⟨((178780230656 : ℚ)/858993459), ((20668295090 : ℚ)/286331153), ((-400186141 : ℚ)/8589934590), ((1138067925 : ℚ)/572662306), 3, ((5016202796 : ℚ)/1431655765), true⟩,
   ⟨((906213383281 : ℚ)/4294967295), ((47497570025 : ℚ)/858993459), ((-717931279 : ℚ)/8589934590), ((-3627306715 : ℚ)/1717986918), 4, ((1985721389 : ℚ)/252645135), true⟩,
   ⟨((13985830025 : ℚ)/858993459), ((2467457913 : ℚ)/16843009), ((-216973503 : ℚ)/572662306), ((2079543491 : ℚ)/1717986918), 3, ((14805006697 : ℚ)/4294967295), true⟩,
   ⟨((72210477376 : ℚ)/286331153), ((9777074190 : ℚ)/286331153), ((-3195615997 : ℚ)/8589934590), ((1062556635 : ℚ)/572662306), 1, ((7538042893 : ℚ)/1431655765), true⟩,
   ⟨((114460265717 : ℚ)/1431655765), ((2466700847 : ℚ)/16843009), ((-1668010123 : ℚ)/8589934590), ((303013443 : ℚ)/572662306), 4, ((5713843657 : ℚ)/1431655765), true⟩,
   ⟨((4861559183 : ℚ)/84215045), ((15613429313 : ℚ)/286331153), ((-3670764929 : ℚ)/8589934590), ((-2816855677 : ℚ)/1717986918), 3, ((11602754959 : ℚ)/4294967295), true⟩,
   ⟨((43775371904 : ℚ)/858993459), ((36475630740 : ℚ)/286331153), ((-560172393 : ℚ)/2863311530), ((-3949714157 : ℚ)/1717986918), 2, ((13423714789 : ℚ)/4294967295), true⟩,
   ⟨((181838007707 : ℚ)/858993459), ((23182977467 : ℚ)/286331153), ((-59418749 : ℚ)/572662306), ((91165789 : ℚ)/572662306), 1, ((10469904394 : ℚ)/4294967295), true⟩,
   ⟨((609792155801 : ℚ)/4294967295), ((25924744151 : ℚ)/286331153), ((-3332769293 : ℚ)/8589934590), ((1132470507 : ℚ)/572662306), 3, ((7955972806 : ℚ)/4294967295), true⟩,
   ⟨((87257884981 : ℚ)/1431655765), ((28361670121 : ℚ)/286331153), ((4285923701 : ℚ)/8589934590), ((-732183079 : ℚ)/1717986918), 1, ((16878081106 : ℚ)/4294967295), true⟩,
   ⟨((20894562699 : ℚ)/1431655765), ((30522389971 : ℚ)/286331153), ((1217669273 : ℚ)/2863311530), ((-2044247159 : ℚ)/1717986918), 5, ((2403754711 : ℚ)/858993459), true⟩,
   ⟨((289053065103 : ℚ)/1431655765), ((106747033583 : ℚ)/858993459), ((-749506417 : ℚ)/2863311530), ((1244021003 : ℚ)/1717986918), 5, ((25024436804 : ℚ)/4294967295), true⟩,
   ⟨((0 : ℚ)/1), ((0 : ℚ)/1), ((0 : ℚ)/1), ((0 : ℚ)/1), 0, ((0 : ℚ)/1), false⟩,
   ⟨((0 : ℚ)/1), ((0 : ℚ)/1), ((0 : ℚ)/1), ((0 : ℚ)/1), 0, ((0 : ℚ)/1), false⟩],
  1, 48, ((7 : ℚ)/1), ((0 : ℚ)/1), ((0 : ℚ)/1), ((0 : ℚ)/1), ((0 : ℚ)/1), ((0 : ℚ)/1), Msg.empty, 0, 2, Scale.Minor, ((5 : ℚ)/1), ((1 : ℚ)/1), 6, ((1 : ℚ)/10), false, 76973272⟩

/-- Intermediate state 8 of the C3 counterexample run. -/
def cexS8 : ParticlesSystem :=
  ⟨[⟨((31652121664 : ℚ)/286331153), ((210 : ℚ)/1), ((21 : ℚ)/20), ((29566892612 : ℚ)/4294967295), ((7391723153 : ℚ)/42949672950), ((19 : ℚ)/25), ((5 : ℚ)/1), 7, ((4 : ℚ)/1), false⟩,
   ⟨((0 : ℚ)/1), ((0 : ℚ)/1), ((0 : ℚ)/1), ((0 : ℚ)/1), ((0 : ℚ)/1), ((0 : ℚ)/1), ((0 : ℚ)/1), 0, ((0 : ℚ)/1), false⟩,
   ⟨((0 : ℚ)/1), ((0 : ℚ)/1), ((0 : ℚ)/1), ((0 : ℚ)/1), ((0 : ℚ)/1), ((0 : ℚ)/1), ((0 : ℚ)/1), 0, ((0 : ℚ)/1), false⟩,
   ⟨((0 : ℚ)/1), ((0 : ℚ)/1), ((0 : ℚ)/1), ((0 : ℚ)/1), ((0 : ℚ)/1), ((0 : ℚ)/1), ((0 : ℚ)/1), 0, ((0 : ℚ)/1), false⟩,
   ⟨((0 : ℚ)/1), ((0 : ℚ)/1), ((0 : ℚ)/1), ((0 : ℚ)/1), ((0 : ℚ)/1), ((0 : ℚ)/1), ((0 : ℚ)/1), 0, ((0 : ℚ)/1), false⟩,
   ⟨((0 : ℚ)/1), ((0 : ℚ)/1), ((0 : ℚ)/1), ((0 : ℚ)/1), ((0 : ℚ)/1), ((0 : ℚ)/1), ((0 : ℚ)/1), 0, ((0 : ℚ)/1), false⟩,
   ⟨((0 : ℚ)/1), ((0 : ℚ)/1), ((0 : ℚ)/1), ((0 : ℚ)/1), ((0 : ℚ)/1), ((0 : ℚ)/1), ((0 : ℚ)/1), 0, ((0 : ℚ)/1), false⟩,
   ⟨((0 : ℚ)/1), ((0 : ℚ)/1), ((0 : ℚ)/1), ((0 : ℚ)/1), ((0 : ℚ)/1), ((0 : ℚ)/1), ((0 : ℚ)/1), 0, ((0 : ℚ)/1), false⟩,
   ⟨((0 : ℚ)/1), ((0 : ℚ)/1), ((0 : ℚ)/1), ((0 : ℚ)/1), ((0 : ℚ)/1), ((0 : ℚ)/1), ((0 : ℚ)/1), 0, ((0 : ℚ)/1), false⟩,
   ⟨((0 : ℚ)/1), ((0 : ℚ)/1), ((0 : ℚ)/1), ((0 : ℚ)/1), ((0 : ℚ)/1), ((0 : ℚ)/1), ((0 : ℚ)/1), 0, ((0 : ℚ)/1), false⟩,
   ⟨((0 : ℚ)/1), ((0 : ℚ)/1), ((0 : ℚ)/1), ((0 : ℚ)/1), ((0 : ℚ)/1), ((0 : ℚ)/1), ((0 : ℚ)/1), 0, ((0 : ℚ)/1), false⟩,
   ⟨((0 : ℚ)/1), ((0 : ℚ)/1), ((0 : ℚ)/1), ((0 : ℚ)/1), ((0 : ℚ)/1), ((0 : ℚ)/1), ((0 : ℚ)/1), 0, ((0 : ℚ)/1), false⟩],
  [⟨((53050842560 : ℚ)/858993459), ((7456006760 : ℚ)/286331153), ((-288988977 : ℚ)/2863311530), ((960500577 : ℚ)/572662306), 1, ((29545084382 : ℚ)/4294967295), true⟩,
   ⟨((273874775296 : ℚ)/858993459), ((13654291270 : ℚ)/286331153), ((-3947905891 : ℚ)/8589934590), ((2225433923 : ℚ)/1717986918), 1, ((203245387 : ℚ)/50529027), true⟩,
   ⟨((241352817856 : ℚ)/858993459), ((2171503830 : ℚ)/16843009), ((1283386743 : ℚ)/2863311530), ((4068392413 : ℚ)/1717986918), 2, ((13565247901 : ℚ)/4294967295), true⟩,
   ⟨((266289437888 : ℚ)/858993459), ((25316793320 : ℚ)/286331153), ((3764998627 : ℚ)/8589934590), ((2163994057 : ℚ)/1717986918), 4, ((13910266162 : ℚ)/4294967295), true⟩,
   ⟨((12810524672 : ℚ)/858993459), ((29385441130 : ℚ)/286331153), ((696482431 : ℚ)/1717986918), ((2160356213 : ℚ)/1717986918), 2, ((16271625337 : ℚ)/4294967295), true⟩,
   ⟨((61405625792 : ℚ)/286331153), ((6902706750 : ℚ)/286331153), ((-393597293 : ℚ)/2863311530), ((-772827281 : ℚ)/572662306), 1, ((30168609179 : ℚ)/4294967295), true⟩,
   ⟨((118368316928 : ℚ)/858993459), ((37224645890 : ℚ)/286331153), ((-386163663 : ℚ)/2863311530), ((-327388957 : ℚ)/1717986918), 3, ((4790306356 : ℚ)/1431655765), true⟩,
   ⟨((43911625728 : ℚ)/286331153), ((1119896370 : ℚ)/286331153), ((-809618581 : ℚ)/1717986918), ((336319647 : ℚ)/572662306), 3, ((15724817089 : ℚ)/4294967295), true⟩,
   ⟨((228980411008 : ℚ)/858993459), ((38277592240 : ℚ)/286331153), ((-1138052903 : ℚ)/8589934590), ((-469194261 : ℚ)/572662306), 5, ((31316389708 : ℚ)/4294967295), true⟩,
   ⟨((272460505472 : ℚ)/858993459), ((6859819850 : ℚ)/286331153), ((-1335963131 : ℚ)/8589934590), ((-1198128615 : ℚ)/572662306), 4, ((5812493837 : ℚ)/1431655765), true⟩,
   ⟨((236643563968 : ℚ)/858993459), ((8791240270 : ℚ)/286331153), ((-1302615971 : ℚ)/2863311530), ((1312013519 : ℚ)/1717986918), 1, ((24343761283 : ℚ)/4294967295), true⟩,
   ⟨((26635450688 : ℚ)/286331153), ((32320545440 : ℚ)/286331153), ((88380237 : ℚ)/2863311530), ((933005173 : ℚ)/572662306), 4, ((22101876554 : ℚ)/4294967295), true⟩,
   ⟨((77414472064 : ℚ)/858993459), ((15295398840 : ℚ)/286331153), ((2932164119 : ℚ)/8589934590), ((3337070485 : ℚ)/1717986918), 4, ((7352035848 : ℚ)/1431655765), true⟩,
   ⟨((250540347520 : ℚ)/858993459), ((23130495960 : ℚ)/286331153), ((-901797581 : ℚ)/2863311530), ((3093976255 : ℚ)/1717986918), 2, ((6036447749 : ℚ)/1431655765), true⟩,
   ⟨((61776403392 : ℚ)/286331153), ((30734252690 : ℚ)/286331153), ((1982814389 : ℚ)/8589934590), ((973820713 : ℚ)/1717986918), 1, ((37893788452 : ℚ)/4294967295), true⟩,
   ⟨((4703222144 : ℚ)/858993459), ((41176154960 : ℚ)/286331153), ((1493494157 : ℚ)/8589934590), ((372003613 : ℚ)/572662306), 2, ((2070700292 : ℚ)/252645135), true⟩,
   ⟨((81034630016 : ℚ)/858993459), ((22214089340 : ℚ)/286331153), ((-16359537 : ℚ)/33686018), ((1950382955 : ℚ)/1717986918), 1, ((28149063931 : ℚ)/4294967295), true⟩,
   ⟨((42924781376 : ℚ)/286331153), ((22267715870 : ℚ)/286331153), ((-425083217 : ℚ)/8589934590), ((4277031953 : ℚ)/1717986918), 2, ((9923594488 : ℚ)/1431655765), true⟩,
   ⟨((27428416640 : ℚ)/286331153), ((33230901340 : ℚ)/286331153), ((-1100895433 : ℚ)/2863311530), ((4180167085 : ℚ)/1717986918), 3, ((807571059 : ℚ)/84215045), true⟩,
   ⟨((143667769472 : ℚ)/858993459), ((37159665040 : ℚ)/286331153), ((-1653176087 : ℚ)/8589934590), ((3239998813 : ℚ)/1717986918), 5, ((30099047554 : ℚ)/4294967295), true⟩,
   ⟨((218140966592 : ℚ)/858993459), ((36688142880 : ℚ)/286331153), ((986233591 : ℚ)/8589934590), ((2673601469 : ℚ)/1717986918), 2, ((4127547892 : ℚ)/858993459), true⟩,
   ⟨((26270961920 : ℚ)/858993459), ((1352296590 : ℚ)/286331153), ((-3067071517 : ℚ)/8589934590), ((2798050501 : ℚ)/1717986918), 3, ((26952644497 : ℚ)/4294967295), true⟩,
   ⟨((88056500480 : ℚ)/858993459), ((16537824010 : ℚ)/286331153), ((377152685 : ℚ)/1717986918), ((-2418037595 : ℚ)/1717986918), 3, ((9501450444 : ℚ)/1431655765), true⟩,
   ⟨((42810563840 : ℚ)/858993459), ((14001977080 : ℚ)/286331153), ((3176327461 : ℚ)/8589934590), ((4003838687 : ℚ)/1717986918), 1, ((19016668981 : ℚ)/4294967295), true⟩,
   ⟨((190045100224 : ℚ)/858993459), ((12027514500 : ℚ)/286331153), ((2087503679 : ℚ)/8589934590), ((-2316969413 : ℚ)/1717986918), 3, ((23216285962 : ℚ)/4294967295), true⟩,
   ⟨((62201344192 : ℚ)/858993459), ((17751880570 : ℚ)/286331153), ((-279767413 : ℚ)/1717986918), ((329985971 : ℚ)/1717986918), 2, ((8828113038 : ℚ)/1431655765), true⟩,
   ⟨((44660590016 : ℚ)/858993459), ((13165813410 : ℚ)/286331153), ((-3628434631 : ℚ)/8589934590), ((-786341411 : ℚ)/572662306), 1, ((16667497037 : ℚ)/4294967295), true⟩,
   ⟨((8130016448 : ℚ)/286331153), ((1501023090 : ℚ)/286331153), ((3155498269 : ℚ)/8589934590), ((-931835257 : ℚ)/1717986918), 1, ((12023463917 : ℚ)/1431655765), true⟩,
   ⟨((152568605056 : ℚ)/858993459), ((17529119430 : ℚ)/286331153), ((-581364609 : ℚ)/2863311530), ((-4107528337 : ℚ)/1717986918), 2, ((34080018296 : ℚ)/4294967295), true⟩,
   ⟨((63369875776 : ℚ)/286331153), ((23968697010 : ℚ)/286331153), ((1574065951 : ℚ)/8589934590), ((4044524615 : ℚ)/1717986918), 5, ((7355969176 : ℚ)/1431655765), true⟩,
   ⟨((77235603200 : ℚ)/286331153), ((26400730600 : ℚ)/286331153), ((4074177209 : ℚ)/8589934590), ((1116861689 : ℚ)/1717986918), 3, ((42214647694 : ℚ)/4294967295), true⟩,
   ⟨((103253823680 : ℚ)/858993459), ((35607355230 : ℚ)/286331153), ((2659303903 : ℚ)/8589934590), ((1910538947 : ℚ)/1717986918), 4, ((35501843729 : ℚ)/4294967295), true⟩,
   ⟨((111308948608 : ℚ)/858993459), ((29067786140 : ℚ)/286331153), ((799423891 : ℚ)/8589934590), ((-120111565 : ℚ)/572662306), 5, ((41782588444 : ℚ)/4294967295), true⟩,
   ⟨((32149323520 : ℚ)/858993459), ((12037986670 : ℚ)/286331153), ((1263649351 : ℚ)/8589934590), ((271499915 : ℚ)/1717986918), 5, ((36441242042 : ℚ)/4294967295), true⟩,
   ⟨((63543556096 : ℚ)/286331153), ((7828868940 : ℚ)/286331153), ((-1314657143 : ℚ)/8589934590), ((416019163 : ℚ)/572662306), 3, ((24656367178 : ℚ)/4294967295), true⟩,
   ⟨((158037884288 : ℚ)/858993459), ((30919823500 : ℚ)/286331153), ((-44711943 : ℚ)/572662306), ((3781885421 : ℚ)/1717986918), 4, ((5647815064 : ℚ)/1431655765), true⟩,
   ⟨((10976848448 : ℚ)/286331153), ((26879875850 : ℚ)/286331153), ((262093931 : ℚ)/572662306), ((-1294416679 : ℚ)/572662306), 4, ((6018561314 : ℚ)/1431655765), true⟩,
   ⟨((82314407168 : ℚ)/286331153), ((12369749120 : ℚ)/286331153), ((3096049363 : ℚ)/8589934590), ((-1005643543 : ℚ)/572662306), 4, ((10920992827 : ℚ)/1431655765), true⟩,
   ⟨((218173876672 : ℚ)/858993459), ((17639313490 : ℚ)/286331153), ((3775294547 : ℚ)/8589934590), ((-22004713 : ℚ)/33686018), 4, ((14723771827 : ℚ)/4294967295), true⟩,
   ⟨((32813993280 : ℚ)/286331153), ((19569080810 : ℚ)/286331153), ((-312671987 : ℚ)/1717986918), ((-283425793 : ℚ)/572662306), 2, ((7083915943 : ℚ)/858993459), true⟩,
   ⟨((199272669824 : ℚ)/858993459), ((20238754650 : ℚ)/286331153), ((212064589 : ℚ)/572662306), ((1207225021 : ℚ)/572662306), 4, ((20509536707 : ℚ)/4294967295), true⟩,
   ⟨((97802228992 : ℚ)/858993459), ((42149420430 : ℚ)/286331153), ((-933945241 : ℚ)/8589934590), ((1294010969 : ℚ)/572662306), 3, ((11660481948 : ℚ)/1431655765), true⟩,
   ⟨((45330190528 : ℚ)/286331153), ((33704387900 : ℚ)/286331153), ((-3877237511 : ℚ)/8589934590), ((4132792517 : ℚ)/1717986918), 1, ((34962849476 : ℚ)/4294967295), true⟩,
   ⟨((114181116544 : ℚ)/858993459), ((17008142450 : ℚ)/286331153), ((1754998367 : ℚ)/8589934590), ((2253188791 : ℚ)/1717986918), 4, ((1236154762 : ℚ)/252645135), true⟩,
   ⟨((29475184064 : ℚ)/286331153), ((21125020780 : ℚ)/286331153), ((-319403461 : ℚ)/2863311530), ((1000772971 : ℚ)/1717986918), 2, ((17972334872 : ℚ)/4294967295), true⟩,
   ⟨((158355838016 : ℚ)/858993459), ((11790787450 : ℚ)/286331153), ((-178065841 : ℚ)/505290270), ((-2966203579 : ℚ)/1717986918), 2, ((24536746586 : ℚ)/4294967295), true⟩,
   ⟨((240636626368 : ℚ)/858993459), ((26174635440 : ℚ)/286331153), ((-2219694547 : ℚ)/8589934590), ((3514862423 : ℚ)/1717986918), 5, ((23109613088 : ℚ)/4294967295), true⟩,
   ⟨((14038232896 : ℚ)/50529027), ((3122824840 : ℚ)/286331153), ((2861732507 : ℚ)/8589934590), ((-173955607 : ℚ)/572662306), 5, ((5081312064 : ℚ)/1431655765), true⟩,
   ⟨((0 : ℚ)/1), ((0 : ℚ)/1), ((0 : ℚ)/1), ((0 : ℚ)/1), 0, ((0 : ℚ)/1), false⟩,
   ⟨((0 : ℚ)/1), ((0 : ℚ)/1), ((0 : ℚ)/1), ((0 : ℚ)/1), 0, ((0 : ℚ)/1), false⟩],
  0, 48, ((47 : ℚ)/1), ((1 : ℚ)/20), ((0 : ℚ)/1), ((1 : ℚ)/1), ((17 : ℚ)/6), ((0 : ℚ)/1), (Msg.particleCV ((17 : ℚ)/6)), 0, 2, Scale.Minor, ((5 : ℚ)/1), ((1 : ℚ)/1), 6, ((1 : ℚ)/10), false, 337004901⟩

/-- Step 1 of the C3 counterexample run (kernel-checked evaluation). -/
theorem c3_cex_step1 : update oracle0 1 particlesInit = cexS1 := by decide

/-- Step 2 of the C3 counterexample run. -/
theorem c3_cex_step2 : update oracle0 1 cexS1 = cexS2 := by decide

/-- Step 3 of the C3 counterexample run. -/
theorem c3_cex_step3 : update oracle0 1 cexS2 = cexS3 := by decide

/-- Step 4 of the C3 counterexample run. -/
theorem c3_cex_step4 : update oracle0 1 cexS3 = cexS4 := by decide

/-- Step 5 of the C3 counterexample run. -/
theorem c3_cex_step5 : update oracle0 1 cexS4 = cexS5 := by decide

/-- Step 6 of the C3 counterexample run. -/
theorem c3_cex_step6 : update oracle0 1 cexS5 = cexS6 := by decide

/-- Step 7 of the C3 counterexample run: a particle spawns here. -/
theorem c3_cex_step7 : update oracle0 1 cexS6 = cexS7 := by decide

/-- Step 8 of the C3 counterexample run: the particle lands, so
`trigger_timer = 0.05` and `verbose_timer = 1` when this update returns. -/
theorem c3_cex_step8 : update oracle0 40 cexS7 = cexS8 := by decide

/-- Claim C3 as stated fails: `cexS8` is reachable from `ParticlesSystem::new`
by nine `update` calls with non-negative `dt` (under the bounded oracle
`oracle0`), its `trigger_timer` is `0.05 > 0`, and the next `update(1)`
decrements it to `-0.95 < 0`: the guard `if timer > 0` runs before the
subtraction and nothing clamps the result, so a countdown timer goes
negative whenever `dt` exceeds it. -/
theorem c3_counterexample :
    (∀ x : ℚ, -1 ≤ oracle0.sinq x ∧ oracle0.sinq x ≤ 1) ∧
    Reachable oracle0 cexS8 ∧
    cexS8.trigger_timer = TRIGGER_DURATION ∧
    (0 : ℚ) ≤ 1 ∧
    (update oracle0 1 cexS8).trigger_timer < 0 := by
  refine ⟨fun x => by constructor <;> norm_num [oracle0], ?_, by decide, by norm_num, by decide⟩
  rw [← c3_cex_step8, ← c3_cex_step7, ← c3_cex_step6, ← c3_cex_step5,
    ← c3_cex_step4, ← c3_cex_step3, ← c3_cex_step2, ← c3_cex_step1]
  exact Reachable.step _ _ (Reachable.step _ _ (Reachable.step _ _ (Reachable.step _ _
    (Reachable.step _ _ (Reachable.step _ _ (Reachable.step _ _ (Reachable.step _ _
      Reachable.init (by norm_num)) (by norm_num)) (by norm_num)) (by norm_num))
        (by norm_num)) (by norm_num)) (by norm_num)) (by norm_num)

/-! ### Claim C1: landed particles versus same-frame collision detection -/

/-- After the deactivation pass, no particle is both active and at or below
ground level. -/
theorem deactivateLanded_no_active_landed (l : List Particle) (k : ℕ) (p : Particle)
    (hk : (deactivateLanded l).get? k = some p) (hact : p.active = true) :
    p.y < GROUND_LEVEL := by
  unfold deactivateLanded at hk
  rw [List.get?_map] at hk
  cases hq : l.get? k with
  | none => rw [hq] at hk; simp at hk
  | some q =>
    rw [hq] at hk
    simp only [Option.map_some'] at hk
    injection hk with hk'
    by_cases hld : landedB q
    · rw [if_pos hld] at hk'
      subst hk'
      simp at hact
    · rw [if_neg hld] at hk'
      subst hk'
      unfold landedB at hld
      rw [hact] at hld
      simp only [Bool.true_and] at hld
      have hq' : ¬ GROUND_LEVEL ≤ q.y := by simpa using hld
      linarith

/-- A slot of the pool after `activate_particle` either kept its previous
content or holds the freshly spawned particle, whose `y` is 0. -/
theorem activate_particle_post (o : RealOracle) (s : ParticlesSystem) (k : ℕ) (p : Particle)
    (hk : (activate_particle o s).particle_pool.get? k = some p) :
    s.particle_pool.get? k = some p ∨ p.y = 0 := by
  unfold activate_particle at hk
  cases hf : firstIdxNot (fun p => p.active) s.particle_pool with
  | none => rw [hf] at hk; exact Or.inl hk
  | some idx =>
    rw [hf] at hk
    dsimp only at hk
    by_cases hik : idx = k
    · subst hik
      rcases firstIdxNot_some _ _ _ hf with ⟨a, ha, _⟩
      rw [List.get?_set_eq_of_lt _ (List.get?_eq_some.mp ha).1] at hk
      injection hk with hk'
      subst hk'
      exact Or.inr rfl
    · rw [List.get?_set_ne _ _ hik] at hk
      exact Or.inl hk

/-- When `update_particles` returns, every still-active particle is strictly
above ground level: particles that reached it this frame have already been
deactivated. -/
theorem update_particles_no_active_landed (o : RealOracle) (dt : ℚ) (s : ParticlesSystem)
    (k : ℕ) (p : Particle)
    (hk : (update_particles o dt s).particle_pool.get? k = some p)
    (hact : p.active = true) : p.y < GROUND_LEVEL := by
  unfold update_particles at hk
  dsimp only at hk
  split at hk
  · split at hk
    · rcases activate_particle_post o _ k p hk with h | h
      · exact deactivateLanded_no_active_landed _ k p h hact
      · rw [h]; norm_num [GROUND_LEVEL]
    · exact deactivateLanded_no_active_landed _ k p hk hact
  · exact deactivateLanded_no_active_landed _ k p hk hact

/-- A pair with an inactive member is skipped entirely by `collidePair`. -/
theorem collidePair_skips_inactive (s : ParticlesSystem) (ij : ℕ × ℕ)
    (p1 p2 : Particle)
    (h1 : s.particle_pool.get? ij.1 = some p1)
    (h2 : s.particle_pool.get? ij.2 = some p2)
    (hact : ¬ (p1.active = true ∧ p2.active = true)) :
    collidePair s ij = s := by
  unfold collidePair
  rw [h1, h2]
  dsimp only
  rw [if_neg hact]

/-- Claim C1, amended: `update(dt)` runs the particle pass (motion, ground
outputs, deferred deactivation, spawn), then the dust pass, then collision
detection — but the deactivation of particles that reached the ground
happens at the end of the particle pass, *before* `check_collisions` runs.
`check_collisions` skips any pair with an inactive member, and after the
particle pass every still-active particle is strictly above ground level, so
a particle that landed this frame is not eligible for a same-frame
collision. -/
theorem c1_amended (o : RealOracle) (dt : ℚ) (s : ParticlesSystem) :
    (update o dt s =
      check_collisions (update_dust dt (update_particles o dt
        { s with
            time := s.time + dt,
            verbose_timer :=
              if s.verbose_timer > 0 then s.verbose_timer - dt else s.verbose_timer,
            trigger_timer :=
              if s.trigger_timer > 0 then s.trigger_timer - dt else s.trigger_timer,
            collision_trigger_timer :=
              if s.collision_trigger_timer > 0 then s.collision_trigger_timer - dt
              else s.collision_trigger_timer }))) ∧
    (∀ s' k p, (update_particles o dt s').particle_pool.get? k = some p →
      p.active = true → p.y < GROUND_LEVEL) ∧
    (∀ s' ij p1 p2, s'.particle_pool.get? ij.1 = some p1 →
      s'.particle_pool.get? ij.2 = some p2 →
      ¬ (p1.active = true ∧ p2.active = true) → collidePair s' ij = s') := by
  refine ⟨rfl, ?_, ?_⟩
  · intro s' k p hk hact
    exact update_particles_no_active_landed o dt s' k p hk hact
  · intro s' ij p1 p2 h1 h2 hact
    exact collidePair_skips_inactive s' ij p1 p2 h1 h2 hact

/-- A particle at (100, 149) that will cross ground level during an
`update(1)` (its `y` gains `0.2 * 5 * 1 = 1`), overlapping `c1B` at the
post-motion positions, with an elapsed cooldown. -/
def c1A : Particle :=
  { x := 100, y := 149, base_speed := 0.2, sway := 0, sway_speed := 0,
    wind_sensitivity := 0, radius := 5, pitch := 1,
    last_collision_time := -10, active := true }

/-- A stationary particle overlapping `c1A`'s post-motion box, with an
elapsed cooldown. -/
def c1B : Particle :=
  { x := 100, y := 146, base_speed := 0, sway := 0, sway_speed := 0,
    wind_sensitivity := 0, radius := 5, pitch := 1,
    last_collision_time := -10, active := true }

/-- State for the C1 counterexample: `max_particles = 0` keeps the spawn
check and the dust top-up from firing, so the only events in the next
`update(1)` are `c1A`'s ground impact and the collision scan. -/
def c1State : ParticlesSystem :=
  { particlesInit with
      particle_pool := c1A :: c1B :: List.replicate 10 Particle.default
      active_particles := 2
      max_particles := 0 }

/-- Claim C1 as stated fails: during `update(1)` from `c1State`, particle 0
reaches ground level this frame (post-motion `y = 150`), its box overlaps
particle 1's (both at `x = 100` with radius 5, `y` 150 versus 146), and both
cooldowns are elapsed (`time 1 - (-10) = 11 ≥ 3`) — yet no collision fires:
`collision_trigger_timer` stays 0, `collision_cv` stays 0 and both
timestamps stay `-10`, because the landed particle is deactivated at the end
of the motion pass, before `check_collisions` runs (the ground trigger does
fire).  A landed particle is therefore *not* eligible for a same-frame
collision. -/
theorem c1_counterexample :
    ((update oracle0 1 c1State).particle_pool.get? 0).map Particle.y = some 150 ∧
    ((update oracle0 1 c1State).particle_pool.get? 0).map Particle.x = some 100 ∧
    ((update oracle0 1 c1State).particle_pool.get? 0).map Particle.radius = some 5 ∧
    ((update oracle0 1 c1State).particle_pool.get? 0).map Particle.active = some false ∧
    ((update oracle0 1 c1State).particle_pool.get? 0).map Particle.last_collision_time =
      some (-10) ∧
    ((update oracle0 1 c1State).particle_pool.get? 1).map Particle.y = some 146 ∧
    ((update oracle0 1 c1State).particle_pool.get? 1).map Particle.x = some 100 ∧
    ((update oracle0 1 c1State).particle_pool.get? 1).map Particle.radius = some 5 ∧
    ((update oracle0 1 c1State).particle_pool.get? 1).map Particle.active = some true ∧
    ((update oracle0 1 c1State).particle_pool.get? 1).map Particle.last_collision_time =
      some (-10) ∧
    (update oracle0 1 c1State).time = 1 ∧
    (update oracle0 1 c1State).trigger_timer = TRIGGER_DURATION ∧
    (update oracle0 1 c1State).collision_trigger_timer = 0 ∧
    (update oracle0 1 c1State).collision_cv = 0 := by
  refine ⟨by decide, by decide, by decide, by decide, by decide, by decide, by decide,
    by decide, by decide, by decide, by decide, by decide, by decide, by decide⟩

/-- Witness for `c1_amended`: concrete instances of its two conditional
conjuncts, at `c1State` after the frame above. -/
theorem c1_witness :
    (∀ p, (update_particles oracle0 1 c1State).particle_pool.get? 0 = some p →
      p.active = true → p.y < GROUND_LEVEL) ∧
    collidePair (update oracle0 1 c1State) (0, 1) = update oracle0 1 c1State := by
  constructor
  · intro p hk hact
    exact (c1_amended oracle0 1 c1State).2.1 c1State 0 p hk hact
  · refine (c1_amended oracle0 1 c1State).2.2 (update oracle0 1 c1State) (0, 1)
      { c1A with y := 150, active := false } c1B ?_ ?_ ?_
    · decide
    · decide
    · decide

/-! ### Claim C10: behaviour of `update` at `dt = 0` -/

/-- The motion step at `dt = 0`: `y` and the sway angle keep their valuesup
to the border clamp, and `x` moves by the sway displacement
`sin(sway) * wind * wind_sensitivity * 10` before clamping. -/
theorem motionParticle_zero (o : RealOracle) (gfs wind : ℚ) (p : Particle)
    (hact : p.active = true) :
    motionParticle o gfs wind 0 p =
      (if p.x + o.sinq p.sway * wind * p.wind_sensitivity * 10 < 0 then
        { p with x := 0, y := p.y, sway := p.sway + o.piq / 4 }
      else if p.x + o.sinq p.sway * wind * p.wind_sensitivity * 10 > SCREEN_WIDTH then
        { p with x := SCREEN_WIDTH, y := p.y, sway := p.sway - o.piq / 4 }
      else
        { p with x := p.x + o.sinq p.sway * wind * p.wind_sensitivity * 10,
                 y := p.y, sway := p.sway }) := by
  unfold motionParticle
  rw [if_pos hact]
  have hsw : p.sway + p.sway_speed * 0 = p.sway := by ring
  have hy : p.y + p.base_speed * gfs * 0 = p.y := by ring
  rw [hsw, hy]

/-- `motionParticle` never changes the `active` flag. -/
theorem motionParticle_active (o : RealOracle) (gfs wind dt : ℚ) (p : Particle) :
    (motionParticle o gfs wind dt p).active = p.active := by
  unfold motionParticle
  by_cases hact : p.active
  · rw [if_pos hact]
    dsimp only
    split
    · rfl
    · split <;> rfl
  · rw [if_neg hact]

/-- A slot holding an active particle is never overwritten by the spawn scan
(which targets the first inactive slot). -/
theorem activate_particle_keeps_active (o : RealOracle) (s : ParticlesSystem)
    (k : ℕ) (p : Particle)
    (hk : s.particle_pool.get? k = some p) (hact : p.active = true) :
    (activate_particle o s).particle_pool.get? k = some p := by
  unfold activate_particle
  cases hf : firstIdxNot (fun p => p.active) s.particle_pool with
  | none => exact hk
  | some idx =>
    dsimp only
    rcases firstIdxNot_some _ _ _ hf with ⟨a, ha, hqa⟩
    by_cases hik : idx = k
    · subst hik
      rw [hk] at ha
      injection ha with ha'
      subst ha'
      rw [hact] at hqa
      simp at hqa
    · rw [List.get?_set_ne _ _ hik]
      exact hk

/-- The particle pass at any `dt`: a slot whose particle survives the frame
(stays above ground after motion) ends the pass holding exactly the motioned
particle. -/
theorem update_particles_slot (o : RealOracle) (dt : ℚ) (s : ParticlesSystem)
    (k : ℕ) (p : Particle)
    (hk : s.particle_pool.get? k = some p) (hact : p.active = true)
    (hnl : ¬ landedB (motionParticle o s.global_fall_speed s.wind dt p) = true) :
    (update_particles o dt s).particle_pool.get? k =
      some (motionParticle o s.global_fall_speed s.wind dt p) := by
  have hpool1 : (s.particle_pool.map (motionParticle o s.global_fall_speed s.wind dt)).get? k =
      some (motionParticle o s.global_fall_speed s.wind dt p) := by
    rw [List.get?_map, hk]
    rfl
  have hdl : (deactivateLanded
      (s.particle_pool.map (motionParticle o s.global_fall_speed s.wind dt))).get? k =
      some (motionParticle o s.global_fall_speed s.wind dt p) := by
    unfold deactivateLanded
    rw [List.get?_map, hpool1]
    simp only [Option.map_some']
    rw [if_neg hnl]
  have hact' : (motionParticle o s.global_fall_speed s.wind dt p).active = true := by
    rw [motionParticle_active]
    exact hact
  unfold update_particles
  dsimp only
  split
  · split
    · exact activate_particle_keeps_active o _ k _ hdl hact'
    · exact hdl
  · exact hdl

/-- The dust decay pass at `dt = 0` keeps every active dust speck with
positive remaining life exactly as it is. -/
theorem dustDecay_zero_slot :
    ∀ (l : List Dust) (cnt k : ℕ) (d : Dust),
      l.get? k = some d → d.active = true → 0 < d.life →
      (dustDecay 0 l cnt).1.get? k = some d := by
  intro l
  induction l with
  | nil => intro cnt k d hk; simp at hk
  | cons hd tl ih =>
    intro cnt k d hk hact hlife
    cases k with
    | zero =>
      simp only [List.get?] at hk
      injection hk with hk'
      subst hk'
      unfold dustDecay
      rw [if_pos hact]
      dsimp only
      have h1 : hd.x + hd.dx * 0 = hd.x := by ring
      have h2 : hd.y + hd.dy * 0 = hd.y := by ring
      have h3 : hd.life - 0 = hd.life := by ring
      rw [h3, if_neg (not_le.mpr hlife), h1, h2]
      rfl
    | succ n =>
      simp only [List.get?] at hk
      unfold dustDecay
      by_cases hhd : hd.active
      · rw [if_pos hhd]
        dsimp only
        split
        · exact ih (cnt - 1) n d hk hact hlife
        · exact ih cnt n d hk hact hlife
      · rw [if_neg hhd]
        exact ih cnt n d hk hact hlife

/-- A slot holding an active dust speck is never overwritten by the dust
spawn scan. -/
theorem activate_dust_keeps_active (s : ParticlesSystem) (k : ℕ) (d : Dust)
    (hk : s.dust_pool.get? k = some d) (hact : d.active = true) :
    (activate_dust s).dust_pool.get? k = some d := by
  unfold activate_dust
  cases hf : firstIdxNot (fun d => d.active) s.dust_pool with
  | none => exact hk
  | some idx =>
    dsimp only
    rcases firstIdxNot_some _ _ _ hf with ⟨a, ha, hqa⟩
    by_cases hik : idx = k
    · subst hik
      rw [hk] at ha
      injection ha with ha'
      subst ha'
      rw [hact] at hqa
      simp at hqa
    · rw [List.get?_set_ne _ _ hik]
      exact hk

/-- The dust top-up loop keeps every active dust slot untouched. -/
theorem dustLoop_keeps_active :
    ∀ (n : ℕ) (s : ParticlesSystem) (k : ℕ) (d : Dust),
      s.dust_pool.get? k = some d → d.active = true →
      (dustLoop n s).dust_pool.get? k = some d := by
  intro n
  induction n with
  | zero => intro s k d hk _; exact hk
  | succ m ih =>
    intro s k d hk hact
    unfold dustLoop
    by_cases h : s.active_dust < s.max_particles * 8 ∧ s.active_dust < MAX_DUST
    · rw [if_pos h]
      exact ih (activate_dust s) k d (activate_dust_keeps_active s k d hk hact) hact
    · rw [if_neg h]
      exact hk

/-- The `y` of an active particle is unchanged by the motion step at
`dt = 0`. -/
theorem motionParticle_zero_y (o : RealOracle) (gfs wind : ℚ) (p : Particle)
    (hact : p.active = true) :
    (motionParticle o gfs wind 0 p).y = p.y := by
  rw [motionParticle_zero o gfs wind p hact]
  split
  · rfl
  · split <;> rfl

/-- Field-wise reading of `stripP` equality. -/
theorem stripP_fields (p q : Particle) (h : stripP p = stripP q) :
    p.x = q.x ∧ p.y = q.y ∧ p.base_speed = q.base_speed ∧ p.sway = q.sway ∧
    p.sway_speed = q.sway_speed ∧ p.wind_sensitivity = q.wind_sensitivity ∧
    p.radius = q.radius ∧ p.pitch = q.pitch ∧ p.active = q.active := by
  simp only [stripP, Prod.mk.injEq] at h
  exact h

/-- The dust pool after `update_dust` at `dt = 0`: an active speck with
positive remaining life is untouched. -/
theorem update_dust_zero_slot (s : ParticlesSystem) (k : ℕ) (d : Dust)
    (hk : s.dust_pool.get? k = some d) (hact : d.active = true) (hlife : 0 < d.life) :
    (update_dust 0 s).dust_pool.get? k = some d := by
  unfold update_dust
  dsimp only
  apply dustLoop_keeps_active MAX_DUST _ k d _ hact
  exact dustDecay_zero_slot s.dust_pool s.active_dust k d hk hact hlife

/-- Claim C10, amended: `update(0)` leaves the clock unchanged and makes the
timer decrements no-ops (each timer either keeps its value or is reset to
its event duration by an impact or collision); every dust speck that was
active with positive life is untouched; and every active particle strictly
above ground keeps its `y`, speed, sway speed, wind sensitivity, radius and
type, stays active, while its `x` gains the sway displacement
`sin(sway) * wind * wind_sensitivity * 10` *subject to the border clamp*: a
particle pushed past a border keeps the clamped `x` (which may equal its old
`x`) and has its sway perturbed by `±π/4`, so at `dt = 0` the `x` of an
unclamped particle changes exactly when the displacement is nonzero, but a
clamped particle's `x` may stay put while its sway changes. -/
theorem c10_amended (o : RealOracle) (s : ParticlesSystem) :
    (update o 0 s).time = s.time ∧
    ((update o 0 s).verbose_timer = s.verbose_timer ∨
      (update o 0 s).verbose_timer = VERBOSE_DURATION) ∧
    ((update o 0 s).trigger_timer = s.trigger_timer ∨
      (update o 0 s).trigger_timer = TRIGGER_DURATION) ∧
    ((update o 0 s).collision_trigger_timer = s.collision_trigger_timer ∨
      (update o 0 s).collision_trigger_timer = TRIGGER_DURATION) ∧
    (∀ k d, s.dust_pool.get? k = some d → d.active = true → 0 < d.life →
      (update o 0 s).dust_pool.get? k = some d) ∧
    (∀ k p, s.particle_pool.get? k = some p → p.active = true → p.y < GROUND_LEVEL →
      ∃ p', (update o 0 s).particle_pool.get? k = some p' ∧
        p'.active = true ∧ p'.y = p.y ∧ p'.base_speed = p.base_speed ∧
        p'.sway_speed = p.sway_speed ∧ p'.wind_sensitivity = p.wind_sensitivity ∧
        p'.radius = p.radius ∧ p'.pitch = p.pitch ∧
        ((p.x + o.sinq p.sway * s.wind * p.wind_sensitivity * 10 < 0 ∧
            p'.x = 0 ∧ p'.sway = p.sway + o.piq / 4) ∨
         (¬ p.x + o.sinq p.sway * s.wind * p.wind_sensitivity * 10 < 0 ∧
            p.x + o.sinq p.sway * s.wind * p.wind_sensitivity * 10 > SCREEN_WIDTH ∧
            p'.x = SCREEN_WIDTH ∧ p'.sway = p.sway - o.piq / 4) ∨
         (¬ p.x + o.sinq p.sway * s.wind * p.wind_sensitivity * 10 < 0 ∧
            ¬ p.x + o.sinq p.sway * s.wind * p.wind_sensitivity * 10 > SCREEN_WIDTH ∧
            p'.x = p.x + o.sinq p.sway * s.wind * p.wind_sensitivity * 10 ∧
            p'.sway = p.sway))) := by
  have hs4 : ({ s with
      time := s.time + 0,
      verbose_timer := if s.verbose_timer > 0 then s.verbose_timer - 0 else s.verbose_timer,
      trigger_timer := if s.trigger_timer > 0 then s.trigger_timer - 0 else s.trigger_timer,
      collision_trigger_timer :=
        if s.collision_trigger_timer > 0 then s.collision_trigger_timer - 0
        else s.collision_trigger_timer } : ParticlesSystem) =
      { s with time := s.time } := by
    have h0 : s.time + 0 = s.time := by ring
    have h1 : (if s.verbose_timer > 0 then s.verbose_timer - 0 else s.verbose_timer) =
        s.verbose_timer := by
      split <;> ring
    have h2 : (if s.trigger_timer > 0 then s.trigger_timer - 0 else s.trigger_timer) =
        s.trigger_timer := by
      split <;> ring
    have h3 : (if s.collision_trigger_timer > 0 then s.collision_trigger_timer - 0
        else s.collision_trigger_timer) = s.collision_trigger_timer := by
      split <;> ring
    rw [h0, h1, h2, h3]
  have hupd : update o 0 s = check_collisions (update_dust 0 (update_particles o 0 s)) := by
    show check_collisions (update_dust 0 (update_particles o 0 _)) = _
    rw [hs4]
  rw [hupd]
  unfold check_collisions
  obtain ⟨u1, u2, u3, u4, u5, u6, _⟩ := update_particles_timer_cases o 0 s
  obtain ⟨d1, d2, d3, d4, d5, d6, _⟩ := update_dust_frame 0 (update_particles o 0 s)
  obtain ⟨f1, f2, f3, f4, f5, f6, _⟩ := foldl_collidePair_frame pairIndices
    (update_dust 0 (update_particles o 0 s))
  obtain ⟨cv, cc⟩ := foldl_collidePair_timer_cases pairIndices
    (update_dust 0 (update_particles o 0 s))
  refine ⟨?_, ?_, ?_, ?_, ?_, ?_⟩
  · rw [f4, d3, u4]
  · rcases cv with cv | cv
    · rw [cv, d6]
      rcases u2 with u2 | u2
      · left; rw [u2]
      · right; exact u2
    · right; exact cv
  · rw [f5, d4]
    rcases u1 with u1 | u1
    · left; rw [u1]
    · right; exact u1
  · rcases cc with cc | cc
    · rw [cc, d5, u3]
      left; rfl
    · right; exact cc
  · intro k d hk hact hlife
    rw [f1]
    apply update_dust_zero_slot _ k d _ hact hlife
    rw [u5]
    exact hk
  · intro k p hk hact hyl
    set p' := motionParticle o s.global_fall_speed s.wind 0 p with hp'
    have hy' : p'.y = p.y := motionParticle_zero_y o s.global_fall_speed s.wind p hact
    have hnl : ¬ landedB p' = true := by
      unfold landedB
      rw [hy']
      simp only [Bool.and_eq_true, decide_eq_true_eq, not_and]
      intro _
      linarith
    have hslot := update_particles_slot o 0 s k p hk hact hnl
    have hslot2 : (update_dust 0 (update_particles o 0 s)).particle_pool.get? k = some p' := by
      rw [d1]
      exact hslot
    have hstrip := foldl_collidePair_strip pairIndices
      (update_dust 0 (update_particles o 0 s)) k
    rw [hslot2] at hstrip
    cases hfin : (List.foldl collidePair (update_dust 0 (update_particles o 0 s))
        pairIndices).particle_pool.get? k with
    | none => rw [hfin] at hstrip; simp at hstrip
    | some pfin =>
      rw [hfin] at hstrip
      simp only [Option.map_some'] at hstrip
      injection hstrip with hstrip'
      obtain ⟨ex, ey, ebs, esw, ess, ews, erad, epit, eact⟩ := stripP_fields pfin p' hstrip'
      have hmz := motionParticle_zero o s.global_fall_speed s.wind p hact
      rw [← hp'] at hmz
      refine ⟨pfin, rfl, ?_, ?_, ?_, ?_, ?_, ?_, ?_, ?_⟩
      · rw [eact, hp', motionParticle_active]; exact hact
      · rw [ey, hy']
      · rw [ebs, hmz]; split
        · rfl
        · split <;> rfl
      · rw [ess, hmz]; split
        · rfl
        · split <;> rfl
      · rw [ews, hmz]; split
        · rfl
        · split <;> rfl
      · rw [erad, hmz]; split
        · rfl
        · split <;> rfl
      · rw [epit, hmz]; split
        · rfl
        · split <;> rfl
      · rw [ex, esw, hmz]
        by_cases hb1 : p.x + o.sinq p.sway * s.wind * p.wind_sensitivity * 10 < 0
        · rw [if_pos hb1]
          exact Or.inl ⟨hb1, rfl, rfl⟩
        · rw [if_neg hb1]
          by_cases hb2 : p.x + o.sinq p.sway * s.wind * p.wind_sensitivity * 10 > SCREEN_WIDTH
          · rw [if_pos hb2]
            exact Or.inr (Or.inl ⟨hb1, hb2, rfl, rfl⟩)
          · rw [if_neg hb2]
            exact Or.inr (Or.inr ⟨hb1, hb2, rfl, rfl⟩)

/-- Oracle for the C10 counterexample: a sine that returns `-1/2` everywhere
and a nonzero `π` stand-in. -/
def c10Oracle : RealOracle := ⟨fun _ => -0.5, 3⟩

/-- An active particle parked at the left border with nonzero wind
sensitivity: its sway displacement at `dt = 0` is
`(-1/2) * 0.1 * 2 * 10 = -1`, pushing it past the border. -/
def c10P : Particle :=
  { x := 0, y := 10, base_speed := 1, sway := 0, sway_speed := 0,
    wind_sensitivity := 2, radius := 5, pitch := 1,
    last_collision_time := -10, active := true }

/-- State for the C10 counterexample (`max_particles = 0` silences spawning
and the dust top-up; the wind keeps its default `0.1`). -/
def c10State : ParticlesSystem :=
  { particlesInit with
      particle_pool := c10P :: List.replicate 11 Particle.default
      active_particles := 1
      max_particles := 0 }

/-- Claim C10 as stated fails at the borders: at `c10State` the wind is
nonzero and `sin(sway) = -1/2` is nonzero, yet after `update(0)` the
particle's `x` is unchanged (the displacement `-1` pushed it below 0 and
the border clamp put it back at 0) and its sway changed from 0 to `π/4`
(the clamp's phase perturbation) — refuting both "still changes the x of
every active particle for which wind != 0 and sin(sway) != 0" and "leaves
... sway ... unchanged". -/
theorem c10_counterexample :
    c10State.wind ≠ 0 ∧
    c10Oracle.sinq (c10P.sway + c10P.sway_speed * 0) ≠ 0 ∧
    ((update c10Oracle 0 c10State).particle_pool.get? 0).map Particle.active = some true ∧
    ((update c10Oracle 0 c10State).particle_pool.get? 0).map Particle.x = some c10P.x ∧
    ((update c10Oracle 0 c10State).particle_pool.get? 0).map Particle.sway = some (3 / 4) ∧
    c10P.sway = 0 ∧ ((3 : ℚ) / 4) ≠ 0 := by
  refine ⟨by decide, by decide, by decide, by decide, by decide, by decide, by decide⟩

/-! ### Claim C4: pool-counter invariant -/

/-- The pool-counter invariant: both pools have their fixed capacities and
both counters equal the number of active slots. -/
def SysInv (s : ParticlesSystem) : Prop :=
  s.particle_pool.length = MAX_PARTICLES ∧
  s.dust_pool.length = MAX_DUST ∧
  s.active_particles = s.particle_pool.countP (fun p => p.active) ∧
  s.active_dust = s.dust_pool.countP (fun d => d.active)

/-- `activate_particle` characterised: either a no-op (pool full) or a write
of one fresh active particle into the first free slot, with the counter
incremented and the RNG advanced. -/
theorem activate_particle_eq_or (o : RealOracle) (s : ParticlesSystem) :
    activate_particle o s = s ∨
    ∃ idx p r,
      activate_particle o s =
        { s with particle_pool := s.particle_pool.set idx p,
                 active_particles := s.active_particles + 1,
                 rng_state := r } ∧
      p.active = true ∧
      firstIdxNot (fun q => q.active) s.particle_pool = some idx := by
  unfold activate_particle
  cases hf : firstIdxNot (fun q => q.active) s.particle_pool with
  | none => left; rfl
  | some idx =>
    right
    dsimp only
    exact ⟨idx, _, _, rfl, rfl, rfl⟩

/-- `activate_dust` characterised the same way. -/
theorem activate_dust_eq_or (s : ParticlesSystem) :
    activate_dust s = s ∨
    ∃ idx d r,
      activate_dust s =
        { s with dust_pool := s.dust_pool.set idx d,
                 active_dust := s.active_dust + 1,
                 rng_state := r } ∧
      d.active = true ∧
      firstIdxNot (fun q => q.active) s.dust_pool = some idx := by
  unfold activate_dust
  cases hf : firstIdxNot (fun q => q.active) s.dust_pool with
  | none => left; rfl
  | some idx =>
    right
    dsimp only
    exact ⟨idx, _, _, rfl, rfl, rfl⟩

/-- `activate_particle` preserves the pool-counter invariant. -/
theorem activate_particle_inv (o : RealOracle) (s : ParticlesSystem) (h : SysInv s) :
    SysInv (activate_particle o s) := by
  rcases activate_particle_eq_or o s with heq | ⟨idx, p, r, heq, hpact, hf⟩
  · rw [heq]; exact h
  · rw [heq]
    obtain ⟨hlp, hld, hcp, hcd⟩ := h
    rcases firstIdxNot_some _ _ _ hf with ⟨a, ha, hqa⟩
    have hcount := countP_set_of_get? (fun q => q.active) s.particle_pool idx a p ha
    simp [hqa, hpact] at hcount
    refine ⟨by simpa using hlp, hld, ?_, hcd⟩
    simp only at hcount ⊢
    omega

/-- `activate_dust` preserves the pool-counter invariant. -/
theorem activate_dust_inv (s : ParticlesSystem) (h : SysInv s) :
    SysInv (activate_dust s) := by
  rcases activate_dust_eq_or s with heq | ⟨idx, d, r, heq, hdact, hf⟩
  · rw [heq]; exact h
  · rw [heq]
    obtain ⟨hlp, hld, hcp, hcd⟩ := h
    rcases firstIdxNot_some _ _ _ hf with ⟨a, ha, hqa⟩
    have hcount := countP_set_of_get? (fun q => q.active) s.dust_pool idx a d ha
    simp [hqa, hdact] at hcount
    refine ⟨hlp, by simpa using hld, hcp, ?_⟩
    simp only at hcount ⊢
    omega

/-- Every particle counted by `landedB` is also counted by `active`. -/
theorem countP_landedB_le (l : List Particle) :
    l.countP landedB ≤ l.countP (fun p => p.active) := by
  induction l with
  | nil => simp
  | cons hd tl ih =>
    simp only [List.countP_cons]
    have : landedB hd = true → hd.active = true := by
      intro h
      unfold landedB at h
      exact (Bool.and_eq_true .. ▸ h).1
    by_cases h1 : landedB hd
    · rw [if_pos h1, if_pos (by simpa using this h1)]
      omega
    · rw [if_neg h1]
      by_cases h2 : hd.active = true <;> simp [h2] <;> omega

/-- The deactivation pass removes exactly the landed particles from the
active count. -/
theorem deactivateLanded_count (l : List Particle) :
    (deactivateLanded l).countP (fun p => p.active) + l.countP landedB =
      l.countP (fun p => p.active) := by
  induction l with
  | nil => rfl
  | cons hd tl ih =>
    unfold deactivateLanded at ih ⊢
    by_cases h1 : landedB hd = true
    · have hact : hd.active = true := by
        unfold landedB at h1
        exact (Bool.and_eq_true .. ▸ h1).1
      simp [List.countP_cons, h1, hact] at ih ⊢
      omega
    · simp [List.countP_cons, h1] at ih ⊢
      by_cases h2 : hd.active = true <;> simp [h2] <;> omega

/-- `deactivateLanded` preserves the pool length. -/
theorem deactivateLanded_length (l : List Particle) :
    (deactivateLanded l).length = l.length := by
  unfold deactivateLanded
  exact List.length_map _ _

/-- The motion map changes no `active` flag, so it preserves the active
count and the length. -/
theorem motion_map_counts (o : RealOracle) (gfs wind dt : ℚ) (l : List Particle) :
    (l.map (motionParticle o gfs wind dt)).countP (fun p => p.active) =
      l.countP (fun p => p.active) ∧
    (l.map (motionParticle o gfs wind dt)).length = l.length := by
  constructor
  · rw [List.countP_map]
    apply List.countP_congr
    intro p _
    have h := motionParticle_active o gfs wind dt p
    simp [Function.comp, h]
  · exact List.length_map _ _

/-- `update_particles` preserves the pool-counter invariant. -/
theorem update_particles_inv (o : RealOracle) (dt : ℚ) (s : ParticlesSystem)
    (h : SysInv s) : SysInv (update_particles o dt s) := by
  obtain ⟨hlp, hld, hcp, hcd⟩ := h
  obtain ⟨hm1, hm2⟩ := motion_map_counts o s.global_fall_speed s.wind dt s.particle_pool
  have hdc := deactivateLanded_count
    (s.particle_pool.map (motionParticle o s.global_fall_speed s.wind dt))
  have hdle := countP_landedB_le
    (s.particle_pool.map (motionParticle o s.global_fall_speed s.wind dt))
  obtain ⟨g1, g2, g3, g4, g5, g6, g7, g8, g9, g10, g11, g12, g13, g14, g15,
    g16, g17, g18⟩ := groundOutputs_cases
      (s.particle_pool.map (motionParticle o s.global_fall_speed s.wind dt)) s
  have hs2 : SysInv
      { groundOutputs s (s.particle_pool.map (motionParticle o s.global_fall_speed s.wind dt)) with
          particle_pool := deactivateLanded
            (s.particle_pool.map (motionParticle o s.global_fall_speed s.wind dt)),
          active_particles := s.active_particles -
            (s.particle_pool.map (motionParticle o s.global_fall_speed s.wind dt)).countP landedB } := by
    refine ⟨?_, ?_, ?_, ?_⟩
    · show (deactivateLanded _).length = MAX_PARTICLES
      rw [deactivateLanded_length, hm2]
      exact hlp
    · show (groundOutputs s _).dust_pool.length = MAX_DUST
      rw [g5]
      exact hld
    · show s.active_particles - _ = (deactivateLanded _).countP (fun p => p.active)
      omega
    · show (groundOutputs s _).active_dust = (groundOutputs s _).dust_pool.countP _
      rw [g7, g5]
      exact hcd
  unfold update_particles
  dsimp only
  split
  · split
    · apply activate_particle_inv
      exact hs2
    · exact hs2
  · exact hs2

/-- The dust specks the decay pass kills this frame: active with
`life - dt <= 0`. -/
def diesB (dt : ℚ) (d : Dust) : Bool :=
  d.active && decide (d.life - dt ≤ 0)

/-- Every dying speck is active. -/
theorem countP_diesB_le (dt : ℚ) (l : List Dust) :
    l.countP (diesB dt) ≤ l.countP (fun d => d.active) := by
  induction l with
  | nil => simp
  | cons hd tl ih =>
    simp only [List.countP_cons]
    have hda : diesB dt hd = true → hd.active = true := by
      intro h
      unfold diesB at h
      exact (Bool.and_eq_true .. ▸ h).1
    by_cases h1 : diesB dt hd = true
    · rw [if_pos h1, if_pos (by simpa using hda h1)]
      omega
    · rw [if_neg h1]
      by_cases h2 : hd.active = true <;> simp [h2] <;> omega

/-- The decay pass: length preserved, counter decremented once per dying
speck, and the active count afterwards is the active count before minus the
deaths. -/
theorem dustDecay_counts (dt : ℚ) :
    ∀ (l : List Dust) (cnt : ℕ), l.countP (diesB dt) ≤ cnt →
      (dustDecay dt l cnt).1.length = l.length ∧
      (dustDecay dt l cnt).2 = cnt - l.countP (diesB dt) ∧
      (dustDecay dt l cnt).1.countP (fun d => d.active) =
        l.countP (fun d => d.active) - l.countP (diesB dt) := by
  intro l
  induction l with
  | nil =>
    intro cnt h
    refine ⟨rfl, ?_, ?_⟩ <;> simp [dustDecay]
  | cons hd tl ih =>
    intro cnt hle
    have hmono := countP_diesB_le dt tl
    unfold dustDecay
    by_cases hact : hd.active
    · rw [if_pos hact]
      dsimp only
      by_cases hdie : hd.life - dt ≤ 0
      · have hdies : diesB dt hd = true := by
          unfold diesB
          rw [hact]
          simpa using hdie
        have hcnt : tl.countP (diesB dt) + 1 ≤ cnt := by
          simp [List.countP_cons, hdies] at hle
          omega
        obtain ⟨ih1, ih2, ih3⟩ := ih (cnt - 1) (by omega)
        rw [if_pos hdie]
        refine ⟨by simpa using ih1, ?_, ?_⟩
        · simp [List.countP_cons, hdies]
          omega
        · simp [List.countP_cons, hdies, hact]
          omega
      · have hdies : diesB dt hd = false := by
          unfold diesB
          rw [hact]
          simpa using hdie
        have hcnt : tl.countP (diesB dt) ≤ cnt := by
          simp [List.countP_cons, hdies] at hle
          omega
        obtain ⟨ih1, ih2, ih3⟩ := ih cnt hcnt
        rw [if_neg hdie]
        refine ⟨by simpa using ih1, ?_, ?_⟩
        · simp [List.countP_cons, hdies]
          omega
        · simp [List.countP_cons, hdies, hact]
          omega
    · rw [if_neg hact]
      dsimp only
      have hdies : diesB dt hd = false := by
        unfold diesB
        simp [hact]
      have hactF : hd.active = false := by simpa using hact
      have hcnt : tl.countP (diesB dt) ≤ cnt := by
        simp [List.countP_cons, hdies] at hle
        omega
      obtain ⟨ih1, ih2, ih3⟩ := ih cnt hcnt
      refine ⟨by simpa using ih1, ?_, ?_⟩
      · simp [List.countP_cons, hdies]
        omega
      · simp [List.countP_cons, hdies, hactF]
        omega

/-- The dust top-up loop preserves the pool-counter invariant. -/
theorem dustLoop_inv : ∀ (n : ℕ) (s : ParticlesSystem), SysInv s → SysInv (dustLoop n s) := by
  intro n
  induction n with
  | zero => intro s h; exact h
  | succ m ih =>
    intro s h
    unfold dustLoop
    by_cases hc : s.active_dust < s.max_particles * 8 ∧ s.active_dust < MAX_DUST
    · rw [if_pos hc]
      exact ih (activate_dust s) (activate_dust_inv s h)
    · rw [if_neg hc]
      exact h

/-- `update_dust` preserves the pool-counter invariant. -/
theorem update_dust_inv (dt : ℚ) (s : ParticlesSystem) (h : SysInv s) :
    SysInv (update_dust dt s) := by
  obtain ⟨hlp, hld, hcp, hcd⟩ := h
  have hle : s.dust_pool.countP (diesB dt) ≤ s.active_dust := by
    rw [hcd]
    exact countP_diesB_le dt s.dust_pool
  obtain ⟨h1, h2, h3⟩ := dustDecay_counts dt s.dust_pool s.active_dust hle
  unfold update_dust
  dsimp only
  apply dustLoop_inv
  refine ⟨hlp, ?_, hcp, ?_⟩
  · show (dustDecay dt s.dust_pool s.active_dust).1.length = MAX_DUST
    rw [h1]
    exact hld
  · show (dustDecay dt s.dust_pool s.active_dust).2 =
      (dustDecay dt s.dust_pool s.active_dust).1.countP (fun d => d.active)
    omega

/-- `check_collisions` preserves the pool-counter invariant. -/
theorem check_collisions_inv (s : ParticlesSystem) (h : SysInv s) :
    SysInv (check_collisions s) := by
  obtain ⟨hlp, hld, hcp, hcd⟩ := h
  obtain ⟨cl, cc⟩ := foldl_collidePair_pool_counts pairIndices s
  obtain ⟨f1, f2, f3, _⟩ := foldl_collidePair_frame pairIndices s
  unfold check_collisions
  refine ⟨?_, ?_, ?_, ?_⟩
  · rw [cl]; exact hlp
  · rw [f1]; exact hld
  · rw [f2, cc]; exact hcp
  · rw [f3, f1]; exact hcd

/-- One full `update` preserves the pool-counter invariant. -/
theorem update_inv (o : RealOracle) (dt : ℚ) (s : ParticlesSystem) (h : SysInv s) :
    SysInv (update o dt s) := by
  unfold update
  dsimp only
  apply check_collisions_inv
  apply update_dust_inv
  apply update_particles_inv
  exact ⟨h.1, h.2.1, h.2.2.1, h.2.2.2⟩

/-- Claim C4: in every reachable state the particle and dust counters equal
the number of active slots in their pools, and neither exceeds its fixed
array capacity (`MAX_PARTICLES` / `MAX_DUST`). -/
theorem c4_pool_invariant (o : RealOracle) (s : ParticlesSystem) (h : Reachable o s) :
    s.active_particles = s.particle_pool.countP (fun p => p.active) ∧
    s.active_dust = s.dust_pool.countP (fun d => d.active) ∧
    s.active_particles ≤ MAX_PARTICLES ∧ s.active_dust ≤ MAX_DUST := by
  have hinv : SysInv s := by
    induction h with
    | init => exact ⟨by decide, by decide, by decide, by decide⟩
    | step s' dt _ _ ih => exact update_inv o dt s' ih
  obtain ⟨hlp, hld, hcp, hcd⟩ := hinv
  have h1 := List.countP_le_length (p := fun p => p.active) (l := s.particle_pool)
  have h2 := List.countP_le_length (p := fun d => d.active) (l := s.dust_pool)
  exact ⟨hcp, hcd, by omega, by omega⟩

/-- Witness for `c4_pool_invariant` at the freshly constructed system. -/
theorem c4_witness :
    particlesInit.active_particles = particlesInit.particle_pool.countP (fun p => p.active) ∧
    particlesInit.active_dust = particlesInit.dust_pool.countP (fun d => d.active) ∧
    particlesInit.active_particles ≤ MAX_PARTICLES ∧
    particlesInit.active_dust ≤ MAX_DUST :=
  c4_pool_invariant oracle0 particlesInit Reachable.init

/-! ### Claim C8: dust top-up termination and postcondition -/

/-- With the loop guard false, `dustLoop` is the identity at any fuel. -/
theorem dustLoop_guard_false (s : ParticlesSystem)
    (h : ¬ (s.active_dust < s.max_particles * 8 ∧ s.active_dust < MAX_DUST)) :
    ∀ m, dustLoop m s = s := by
  intro m
  cases m with
  | zero => rfl
  | succ k =>
    unfold dustLoop
    rw [if_neg h]

/-- Under the pool-counter invariant, a spawn attempted while the pool is
not full finds a free slot and increments the counter by exactly one. -/
theorem activate_dust_increments (s : ParticlesSystem)
    (hcd : s.active_dust = s.dust_pool.countP (fun d => d.active))
    (hld : s.dust_pool.length = MAX_DUST)
    (hlt : s.active_dust < MAX_DUST) :
    (activate_dust s).active_dust = s.active_dust + 1 := by
  have hcount : s.dust_pool.countP (fun d => d.active) < s.dust_pool.length := by
    omega
  rcases firstIdxNot_isSome_of_countP_lt _ _ hcount with ⟨i, hi⟩
  unfold activate_dust
  rw [hi]

/-- `activate_dust` does not change the `max_particles` target. -/
theorem activate_dust_max_particles (s : ParticlesSystem) :
    (activate_dust s).max_particles = s.max_particles := by
  unfold activate_dust
  cases firstIdxNot (fun d => d.active) s.dust_pool with
  | none => rfl
  | some idx => rfl

/-- The top-up loop reaches its fixed point within `MAX_DUST - active_dust`
iterations: at that fuel the guard is false and more fuel changes nothing.
This is the termination argument for the unbounded Rust `while` loop. -/
theorem dustLoop_fix : ∀ (n : ℕ) (s : ParticlesSystem), SysInv s →
    MAX_DUST - s.active_dust ≤ n →
    (¬ ((dustLoop n s).active_dust < (dustLoop n s).max_particles * 8 ∧
        (dustLoop n s).active_dust < MAX_DUST)) ∧
    (∀ m, n ≤ m → dustLoop m s = dustLoop n s) := by
  intro n
  induction n with
  | zero =>
    intro s hinv hfuel
    have hfull : ¬ (s.active_dust < s.max_particles * 8 ∧ s.active_dust < MAX_DUST) := by
      intro ⟨_, h2⟩
      omega
    constructor
    · show ¬ (s.active_dust < s.max_particles * 8 ∧ s.active_dust < MAX_DUST)
      exact hfull
    · intro m _
      exact dustLoop_guard_false s hfull m
  | succ k ih =>
    intro s hinv hfuel
    by_cases hg : s.active_dust < s.max_particles * 8 ∧ s.active_dust < MAX_DUST
    · have hstep : (activate_dust s).active_dust = s.active_dust + 1 :=
        activate_dust_increments s hinv.2.2.2 hinv.2.1 hg.2
      have hinv' : SysInv (activate_dust s) := activate_dust_inv s hinv
      have hfuel' : MAX_DUST - (activate_dust s).active_dust ≤ k := by
        rw [hstep]
        omega
      obtain ⟨ihg, ihs⟩ := ih (activate_dust s) hinv' hfuel'
      have hunf : dustLoop (k + 1) s = dustLoop k (activate_dust s) := by
        have hred : dustLoop (k + 1) s =
            if s.active_dust < s.max_particles * 8 ∧ s.active_dust < MAX_DUST then
              dustLoop k (activate_dust s)
            else s := rfl
        rw [hred, if_pos hg]
      constructor
      · rw [hunf]
        exact ihg
      · intro m hm
        cases m with
        | zero => omega
        | succ m' =>
          have hred' : dustLoop (m' + 1) s =
              if s.active_dust < s.max_particles * 8 ∧ s.active_dust < MAX_DUST then
                dustLoop m' (activate_dust s)
              else s := rfl
          rw [hred', if_pos hg, hunf]
          exact ihs m' (by omega)
    · have h0 : dustLoop (k + 1) s = s := dustLoop_guard_false s hg (k + 1)
      constructor
      · rw [h0]
        exact hg
      · intro m hm
        rw [h0]
        exact dustLoop_guard_false s hg m

/-- Claim C8: starting from any state satisfying the pool-counter invariant,
each dust spawn attempted below capacity finds a free slot and increments
`active_dust` by exactly one; the top-up loop terminates (its result is
already fixed at fuel `MAX_DUST`, and extra fuel changes nothing); and when
`update_dust` returns, `active_dust` is at least
`min(max_particles * 8, MAX_DUST)`. -/
theorem c8_dust_topup (dt : ℚ) (s : ParticlesSystem) (hinv : SysInv s) :
    (s.active_dust < MAX_DUST →
      (activate_dust s).active_dust = s.active_dust + 1) ∧
    (∀ m, MAX_DUST ≤ m → dustLoop m s = dustLoop MAX_DUST s) ∧
    min (s.max_particles * 8) MAX_DUST ≤ (update_dust dt s).active_dust := by
  refine ⟨?_, ?_, ?_⟩
  · intro hlt
    exact activate_dust_increments s hinv.2.2.2 hinv.2.1 hlt
  · intro m hm
    obtain ⟨_, hstable⟩ := dustLoop_fix MAX_DUST s hinv (by omega)
    exact hstable m hm
  · obtain ⟨hlp, hld, hcp, hcd⟩ := hinv
    have hle : s.dust_pool.countP (diesB dt) ≤ s.active_dust := by
      rw [hcd]
      exact countP_diesB_le dt s.dust_pool
    obtain ⟨h1, h2, h3⟩ := dustDecay_counts dt s.dust_pool s.active_dust hle
    have hinv1 : SysInv
        { s with dust_pool := (dustDecay dt s.dust_pool s.active_dust).1,
                 active_dust := (dustDecay dt s.dust_pool s.active_dust).2 } := by
      refine ⟨hlp, ?_, hcp, ?_⟩
      · show (dustDecay dt s.dust_pool s.active_dust).1.length = MAX_DUST
        rw [h1]; exact hld
      · show (dustDecay dt s.dust_pool s.active_dust).2 =
          (dustDecay dt s.dust_pool s.active_dust).1.countP (fun d => d.active)
        omega
    obtain ⟨hguard, _⟩ := dustLoop_fix MAX_DUST
      { s with dust_pool := (dustDecay dt s.dust_pool s.active_dust).1,
               active_dust := (dustDecay dt s.dust_pool s.active_dust).2 }
      hinv1 (by omega)
    have hcore := dustLoop_core MAX_DUST
      { s with dust_pool := (dustDecay dt s.dust_pool s.active_dust).1,
               active_dust := (dustDecay dt s.dust_pool s.active_dust).2 }
    have hmp : (dustLoop MAX_DUST
        { s with dust_pool := (dustDecay dt s.dust_pool s.active_dust).1,
                 active_dust := (dustDecay dt s.dust_pool s.active_dust).2 }).max_particles =
        s.max_particles := by
      simp only [coreView, Prod.mk.injEq] at hcore
      exact hcore.2.2.2.2.2.2.2.2.2.2.2.2.2.2.1
    show min (s.max_particles * 8) MAX_DUST ≤ (dustLoop MAX_DUST
      { s with dust_pool := (dustDecay dt s.dust_pool s.active_dust).1,
               active_dust := (dustDecay dt s.dust_pool s.active_dust).2 }).active_dust
    rw [hmp] at hguard
    rcases not_and_or.mp hguard with hA | hB
    · have := le_of_not_lt hA
      exact le_trans (min_le_left _ _) this
    · have := le_of_not_lt hB
      exact le_trans (min_le_right _ _) this

/-- Witness for `c8_dust_topup` at the freshly constructed system (whose
counters are zero and pools empty, satisfying the invariant). -/
theorem c8_witness :
    ((particlesInit.active_dust < MAX_DUST →
        (activate_dust particlesInit).active_dust = particlesInit.active_dust + 1) ∧
     (∀ m, MAX_DUST ≤ m → dustLoop m particlesInit = dustLoop MAX_DUST particlesInit) ∧
     min (particlesInit.max_particles * 8) MAX_DUST ≤
       (update_dust 1 particlesInit).active_dust) :=
  c8_dust_topup 1 particlesInit ⟨by decide, by decide, by decide, by decide⟩

/-! ### Claim C7: collision cooldown -/

/-- The motion step never touches `last_collision_time`. -/
theorem motionParticle_lct (o : RealOracle) (gfs wind dt : ℚ) (p : Particle) :
    (motionParticle o gfs wind dt p).last_collision_time = p.last_collision_time := by
  unfold motionParticle
  by_cases hact : p.active
  · rw [if_pos hact]
    dsimp only
    split
    · rfl
    · split <;> rfl
  · rw [if_neg hact]

/-- An overlapping pair with an unelapsed cooldown on either side is a
complete no-op: no output, no trigger, no timestamp update. -/
theorem collidePair_cooldown_noop (s : ParticlesSystem) (ij : ℕ × ℕ)
    (p1 p2 : Particle)
    (h1 : s.particle_pool.get? ij.1 = some p1)
    (h2 : s.particle_pool.get? ij.2 = some p2)
    (hcd : s.time - p1.last_collision_time < COLLISION_COOLDOWN_TIME ∨
           s.time - p2.last_collision_time < COLLISION_COOLDOWN_TIME) :
    collidePair s ij = s := by
  unfold collidePair
  rw [h1, h2]
  dsimp only
  by_cases hact : p1.active = true ∧ p2.active = true
  · rw [if_pos hact]
    by_cases hov : p1.x < p2.x + p2.radius ∧ p1.x + p1.radius > p2.x ∧
        p1.y < p2.y + p2.radius ∧ p1.y + p1.radius > p2.y
    · rw [if_pos hov]
      rw [if_neg ?_]
      intro ⟨hA, hB⟩
      rcases hcd with h | h <;> linarith
    · rw [if_neg hov]
  · rw [if_neg hact]

/-- A pair step that changes anything must have seen both cooldowns
elapsed. -/
theorem collidePair_fires_only_elapsed (s : ParticlesSystem) (ij : ℕ × ℕ)
    (hne : collidePair s ij ≠ s) :
    ∃ p1 p2, s.particle_pool.get? ij.1 = some p1 ∧
      s.particle_pool.get? ij.2 = some p2 ∧
      COLLISION_COOLDOWN_TIME ≤ s.time - p1.last_collision_time ∧
      COLLISION_COOLDOWN_TIME ≤ s.time - p2.last_collision_time := by
  rcases collidePair_eq_or s ij with h | ⟨p1, p2, h1, h2, _, _, hcd1, hcd2, _⟩
  · exact absurd h hne
  · exact ⟨p1, p2, h1, h2, hcd1, hcd2⟩

/-- Persistence: an active particle whose timestamp is at least `T`, in a
state whose clock is at least `T`, keeps both properties through a full
`update` with non-negative `dt`, provided it survives the frame (its
post-motion `y` stays above ground: otherwise it is deactivated and its
slot may be respawned). -/
theorem update_lct_persists (o : RealOracle) (dt : ℚ) (s : ParticlesSystem)
    (T : ℚ) (k : ℕ) (p : Particle)
    (hdt : 0 ≤ dt) (hT : T ≤ s.time)
    (hk : s.particle_pool.get? k = some p) (hact : p.active = true)
    (hlct : T ≤ p.last_collision_time)
    (hsurv : (motionParticle o s.global_fall_speed s.wind dt p).y < GROUND_LEVEL) :
    T ≤ (update o dt s).time ∧
    ∃ p', (update o dt s).particle_pool.get? k = some p' ∧ p'.active = true ∧
      T ≤ p'.last_collision_time := by
  have hs4eq : update o dt s = List.foldl collidePair (update_dust dt (update_particles o dt
      { s with
          time := s.time + dt,
          verbose_timer :=
            if s.verbose_timer > 0 then s.verbose_timer - dt else s.verbose_timer,
          trigger_timer :=
            if s.trigger_timer > 0 then s.trigger_timer - dt else s.trigger_timer,
          collision_trigger_timer :=
            if s.collision_trigger_timer > 0 then s.collision_trigger_timer - dt
            else s.collision_trigger_timer })) pairIndices := rfl
  set s4 : ParticlesSystem :=
    { s with
        time := s.time + dt,
        verbose_timer :=
          if s.verbose_timer > 0 then s.verbose_timer - dt else s.verbose_timer,
        trigger_timer :=
          if s.trigger_timer > 0 then s.trigger_timer - dt else s.trigger_timer,
        collision_trigger_timer :=
          if s.collision_trigger_timer > 0 then s.collision_trigger_timer - dt
          else s.collision_trigger_timer } with hs4
  set p' := motionParticle o s.global_fall_speed s.wind dt p with hp'
  have hnl : ¬ landedB p' = true := by
    unfold landedB
    simp only [Bool.and_eq_true, decide_eq_true_eq, not_and]
    intro _
    linarith
  have hslot : (update_particles o dt s4).particle_pool.get? k = some p' :=
    update_particles_slot o dt s4 k p hk hact hnl
  obtain ⟨d1, _, d3, _⟩ := update_dust_frame dt (update_particles o dt s4)
  have hslot2 : (update_dust dt (update_particles o dt s4)).particle_pool.get? k = some p' := by
    rw [d1]
    exact hslot
  obtain ⟨_, _, _, u4, _⟩ := update_particles_timer_cases o dt s4
  have htimeX : (update_dust dt (update_particles o dt s4)).time = s.time + dt := by
    rw [d3, u4]
  obtain ⟨f1, f2, f3, f4, _⟩ := foldl_collidePair_frame pairIndices
    (update_dust dt (update_particles o dt s4))
  constructor
  · rw [hs4eq]
    show T ≤ (List.foldl collidePair _ pairIndices).time
    rw [f4, htimeX]
    linarith
  · have hstrip := foldl_collidePair_strip pairIndices
      (update_dust dt (update_particles o dt s4)) k
    have hlctc := foldl_collidePair_lct pairIndices
      (update_dust dt (update_particles o dt s4)) k
    rw [hslot2] at hstrip hlctc
    cases hfin : (List.foldl collidePair (update_dust dt (update_particles o dt s4))
        pairIndices).particle_pool.get? k with
    | none => rw [hfin] at hstrip; simp at hstrip
    | some pfin =>
      rw [hfin] at hstrip hlctc
      simp only [Option.map_some'] at hstrip hlctc
      have hstrip' := Option.some_inj.mp hstrip
      obtain ⟨_, _, _, _, _, _, _, _, eact⟩ := stripP_fields pfin p' hstrip'
      have hpact' : p'.active = true := by
        rw [hp', motionParticle_active]
        exact hact
      have hplct : p'.last_collision_time = p.last_collision_time := by
        rw [hp', motionParticle_lct]
      refine ⟨pfin, by rw [hs4eq]; exact hfin, by rw [eact]; exact hpact', ?_⟩
      rcases hlctc with h | h
      · rw [Option.some_inj.mp h, hplct]
        exact hlct
      · rw [Option.some_inj.mp h, htimeX]
        linarith

/-- C7: collision cooldown. (1) An overlapping pair with an unelapsed
cooldown on either side produces no output, no trigger and no timestamp
update — `collidePair` is the identity there. (2) Conversely, any pair
step that changes the state at all had both cooldowns elapsed
(`time - last_collision_time ≥ collision_cooldown_time` for each).
(3) A particle stamped at a time ≥ T is never re-stamped by a whole
`check_collisions` scan run while the clock is still below
T + collision_cooldown_time, so the pair cannot fire again in that
window. (4) The window argument carries across frames: through a full
`update` with dt ≥ 0, an active particle that does not land keeps its
active flag and a timestamp ≥ T, and the clock never decreases below T. -/
theorem c7_collision_cooldown :
    (∀ s ij p1 p2, s.particle_pool.get? ij.1 = some p1 →
        s.particle_pool.get? ij.2 = some p2 →
        (s.time - p1.last_collision_time < COLLISION_COOLDOWN_TIME ∨
         s.time - p2.last_collision_time < COLLISION_COOLDOWN_TIME) →
        collidePair s ij = s) ∧
    (∀ s ij, collidePair s ij ≠ s →
        ∃ p1 p2, s.particle_pool.get? ij.1 = some p1 ∧
          s.particle_pool.get? ij.2 = some p2 ∧
          COLLISION_COOLDOWN_TIME ≤ s.time - p1.last_collision_time ∧
          COLLISION_COOLDOWN_TIME ≤ s.time - p2.last_collision_time) ∧
    (∀ s k p T, s.particle_pool.get? k = some p →
        T ≤ p.last_collision_time → s.time < T + COLLISION_COOLDOWN_TIME →
        ((check_collisions s).particle_pool.get? k).map Particle.last_collision_time =
          some p.last_collision_time) ∧
    (∀ o dt s T k p, 0 ≤ dt → T ≤ s.time →
        s.particle_pool.get? k = some p → p.active = true →
        T ≤ p.last_collision_time →
        (motionParticle o s.global_fall_speed s.wind dt p).y < GROUND_LEVEL →
        T ≤ (update o dt s).time ∧
        ∃ p', (update o dt s).particle_pool.get? k = some p' ∧ p'.active = true ∧
          T ≤ p'.last_collision_time) := by
  refine ⟨?_, ?_, ?_, ?_⟩
  · intro s ij p1 p2 h1 h2 hcd
    exact collidePair_cooldown_noop s ij p1 p2 h1 h2 hcd
  · intro s ij hne
    exact collidePair_fires_only_elapsed s ij hne
  · intro s k p T hk hT hwin
    have hcd : s.time - p.last_collision_time < COLLISION_COOLDOWN_TIME := by linarith
    unfold check_collisions
    exact foldl_collidePair_lct_cooldown pairIndices s k p hk hcd
  · intro o dt s T k p hdt hT hk hact hlct hsurv
    exact update_lct_persists o dt s T k p hdt hT hk hact hlct hsurv
